import Mathlib

/-!
# Verification of the air-conditioner state and constraint models

Shallow embedding of `dahatsu/lib/IRDahatsu.h`, `daikin/lib/IRDaikin.h`,
`shared_libs/PowerTracker.h` and the handlers of
`daikin/DaikinClimateComponent.h`.

* Each C++ class becomes a structure holding its private fields; every member
  function becomes a function from the state before the call to the result
  and the state after it.
* The infrared codec objects (`IRTcl112Ac`, `IRDaikin64`) belong to an
  external library.  They are modelled as plain register files: a getter
  returns what the matching setter stored last.
* `float` temperatures are only stored and compared in the source, never
  computed with, so they are embedded as rationals (every finite float is a
  rational and the comparisons agree; NaN is outside the model).
* The power tracker computes with `float` samples; they are embedded as
  rationals too, with a separate value for a sample that is not a number.  The
  clock `millis()` is an argument of every function that reads it, and the
  callback manager is represented by the history of its calls.
* `IRDahatsu` member functions call each other recursively
  (`set_temp → change_temp_callback_ → set_turbo → set_turbo_ → apply_state_
  → set_temp`).  They are embedded with a fuel argument that is decremented
  on each call; running out of fuel yields `none`.
* The MQTT client and the infrared transmitter used by
  `DaikinClimateComponent` are external; the component records what it hands
  to them (published messages, transmitted frames) in two history lists.
-/

namespace esphome

/-- Modelled from the spec: the helper `str_equals_case_insensitive` of the
ESPHome core (not part of the repository), by which command strings are
"compared case-insensitively": two strings are equal when they agree up
to the case of the ASCII letters. -/
def str_equals_case_insensitive (a b : String) : Bool :=
  a.data.map Char.toLower == b.data.map Char.toLower

end esphome

namespace Dahatsu

/-- The enum `SWING_MODE` of `IRDahatsu.h`. -/
inductive SWING_MODE where
  | SWING_OFF
  | SWING_HORIZONTAL
  deriving DecidableEq

/-- The enum `FAN_MODE` of `IRDahatsu.h`. -/
inductive FAN_MODE where
  | FAN_UNDEFINED
  | FAN_AUTO
  | FAN_LOW
  | FAN_MEDIUM
  | FAN_HIGH
  deriving DecidableEq

/-- The enum `AC_MODE` of `IRDahatsu.h`. -/
inductive AC_MODE where
  | MODE_UNDEFINED
  | MODE_OFF
  | MODE_HEAT
  | MODE_DRY
  | MODE_COOL
  | MODE_FAN
  | MODE_AUTO
  deriving DecidableEq

/-- Underlying `uint8_t` value of an `AC_MODE` enumerator. -/
def AC_MODE.val : AC_MODE → Nat
  | .MODE_UNDEFINED => 10
  | .MODE_OFF => 0
  | .MODE_HEAT => 1
  | .MODE_DRY => 2
  | .MODE_COOL => 3
  | .MODE_FAN => 7
  | .MODE_AUTO => 8

/-- Underlying `uint8_t` value of a `FAN_MODE` enumerator. -/
def FAN_MODE.val : FAN_MODE → Nat
  | .FAN_UNDEFINED => 10
  | .FAN_AUTO => 0
  | .FAN_LOW => 2
  | .FAN_MEDIUM => 3
  | .FAN_HIGH => 5

/-- The class `State`: the snapshot taken when turbo is switched on. -/
structure State where
  temp : ℚ
  fan_mode : FAN_MODE
  swing_mode : SWING_MODE
  deriving DecidableEq

/-- Modelled from the spec: the external codec object `IRTcl112Ac` (library
`ir_Tcl.h`, not part of the repository), which the spec treats as a black box.
It is taken to be a register file: each `getX` returns the value the last
`setX` stored, and setters do not touch other registers.  `mode` and `fan`
hold the raw `uint8_t` codes. -/
structure IRTcl112Ac where
  power : Bool
  mode : Nat
  temp : ℚ
  fan : Nat
  swingHorizontal : Bool
  turbo : Bool
  econo : Bool
  health : Bool
  light : Bool
  deriving DecidableEq

def IRTcl112Ac.setPower (on_ : Bool) (c : IRTcl112Ac) : IRTcl112Ac := { c with power := on_ }

def IRTcl112Ac.setMode (mode : Nat) (c : IRTcl112Ac) : IRTcl112Ac := { c with mode := mode }

def IRTcl112Ac.setTemp (celsius : ℚ) (c : IRTcl112Ac) : IRTcl112Ac := { c with temp := celsius }

def IRTcl112Ac.setFan (speed : Nat) (c : IRTcl112Ac) : IRTcl112Ac := { c with fan := speed }

def IRTcl112Ac.setSwingHorizontal (on_ : Bool) (c : IRTcl112Ac) : IRTcl112Ac :=
  { c with swingHorizontal := on_ }

def IRTcl112Ac.setTurbo (on_ : Bool) (c : IRTcl112Ac) : IRTcl112Ac := { c with turbo := on_ }

def IRTcl112Ac.setEcono (on_ : Bool) (c : IRTcl112Ac) : IRTcl112Ac := { c with econo := on_ }

def IRTcl112Ac.setHealth (on_ : Bool) (c : IRTcl112Ac) : IRTcl112Ac := { c with health := on_ }

def IRTcl112Ac.setLight (on_ : Bool) (c : IRTcl112Ac) : IRTcl112Ac := { c with light := on_ }

/-- The private fields of the class `IRDahatsu` that make up the model state
(the receiver, decode buffer and callback list carry no model state). -/
structure IRDahatsu where
  ac_ : IRTcl112Ac
  state_ : Option State
  health_enabled_ : Bool
  light_enabled_ : Bool
  turbo_enabled_ : Bool
  eco_enabled_ : Bool
  set_temp_enabled_ : Bool
  deriving DecidableEq

/-- A call `this->ac_->f(...)`: runs the codec operation `f` on the codec held
by the model and leaves the model's own fields alone. -/
def IRDahatsu.ac (s : IRDahatsu) (f : IRTcl112Ac → IRTcl112Ac) : IRDahatsu :=
  { s with ac_ := f s.ac_ }

def temp_min : ℚ := 16

def temp_max : ℚ := 31

def get_prev_state (s : IRDahatsu) : Option State := s.state_

def get_temp (s : IRDahatsu) : ℚ := s.ac_.temp

def set_temp_allowed (s : IRDahatsu) : Bool := s.set_temp_enabled_

def get_mode (s : IRDahatsu) : AC_MODE :=
  let mode := s.ac_.mode
  if mode = 1 then .MODE_HEAT
  else if mode = 2 then .MODE_DRY
  else if mode = 3 then .MODE_COOL
  else if mode = 7 then .MODE_FAN
  else if mode = 8 then .MODE_AUTO
  else .MODE_UNDEFINED

def is_fan_mode_supported (fan_mode : FAN_MODE) (s : IRDahatsu) : Bool :=
  let mode := s.ac_.mode
  if mode = AC_MODE.MODE_FAN.val then
    if fan_mode = .FAN_AUTO then false else true
  else if mode = AC_MODE.MODE_DRY.val then
    if fan_mode = .FAN_AUTO then true else false
  else true

def get_fan (s : IRDahatsu) : FAN_MODE :=
  let fan_mode := s.ac_.fan
  if fan_mode = 0 then .FAN_AUTO
  else if fan_mode = 2 then .FAN_LOW
  else if fan_mode = 3 then .FAN_MEDIUM
  else if fan_mode = 5 then .FAN_HIGH
  else .FAN_AUTO

def get_swing_mode (s : IRDahatsu) : SWING_MODE :=
  if s.ac_.swingHorizontal then .SWING_HORIZONTAL else .SWING_OFF

def set_swing_mode (swing_mode : SWING_MODE) (s : IRDahatsu) : IRDahatsu :=
  match swing_mode with
  | .SWING_OFF => s.ac (IRTcl112Ac.setSwingHorizontal false)
  | .SWING_HORIZONTAL => s.ac (IRTcl112Ac.setSwingHorizontal true)

def set_light (on_ : Bool) (s : IRDahatsu) : Bool × IRDahatsu :=
  if s.light_enabled_ = false then (false, s)
  else (true, s.ac (IRTcl112Ac.setLight on_))

def get_light (s : IRDahatsu) : Bool := s.ac_.light

def light_allowed (s : IRDahatsu) : Bool := s.light_enabled_

def get_turbo (s : IRDahatsu) : Bool := s.ac_.turbo

def turbo_allowed (s : IRDahatsu) : Bool := s.turbo_enabled_

def set_health (on_ : Bool) (s : IRDahatsu) : Bool × IRDahatsu :=
  if s.health_enabled_ = false then (false, s)
  else (true, s.ac (IRTcl112Ac.setHealth on_))

def get_health (s : IRDahatsu) : Bool := s.ac_.health

def health_allowed (s : IRDahatsu) : Bool := s.health_enabled_

def get_eco (s : IRDahatsu) : Bool := s.ac_.econo

def eco_allowed (s : IRDahatsu) : Bool := s.eco_enabled_

/-- The private `save_state_`: both branches leave a snapshot holding the
current temperature, fan and swing. -/
def save_state_ (s : IRDahatsu) : IRDahatsu :=
  match s.state_ with
  | none => { s with state_ := some ⟨get_temp s, get_fan s, get_swing_mode s⟩ }
  | some _ => { s with state_ := some ⟨get_temp s, get_fan s, get_swing_mode s⟩ }

mutual

def set_temp : Nat → ℚ → IRDahatsu → Option (Bool × IRDahatsu)
  | 0, _, _ => none
  | n + 1, temp, s =>
    if temp < temp_min ∨ temp > temp_max then some (false, s)
    else do
      let s ← change_temp_callback_ n (get_temp s) temp s
      let s := s.ac (IRTcl112Ac.setTemp temp)
      if s.set_temp_enabled_ = false then some (false, s)
      else some (true, s)

def change_temp_callback_ : Nat → ℚ → ℚ → IRDahatsu → Option IRDahatsu
  | 0, _, _, _ => none
  | n + 1, old_temp, new_temp, s =>
    if old_temp = new_temp then some s
    else
      let turbo := get_turbo s
      if turbo = false then some s
      else
        let mode := get_mode s
        if mode = .MODE_COOL ∨ mode = .MODE_HEAT then do
          let (_, s) ← set_turbo n false s
          some s
        else some s

def set_fan : Nat → FAN_MODE → IRDahatsu → Option (Bool × IRDahatsu)
  | 0, _, _ => none
  | n + 1, fan_mode, s =>
    if is_fan_mode_supported fan_mode s = false then some (false, s)
    else
      match fan_mode with
      | .FAN_AUTO => do
        let s ← change_fan_callback_ n (get_fan s) .FAN_AUTO s
        some (true, s.ac (IRTcl112Ac.setFan 0))
      | .FAN_LOW => do
        let s ← change_fan_callback_ n (get_fan s) .FAN_LOW s
        some (true, s.ac (IRTcl112Ac.setFan 2))
      | .FAN_MEDIUM => do
        let s ← change_fan_callback_ n (get_fan s) .FAN_MEDIUM s
        some (true, s.ac (IRTcl112Ac.setFan 3))
      | .FAN_HIGH => do
        let s ← change_fan_callback_ n (get_fan s) .FAN_HIGH s
        some (true, s.ac (IRTcl112Ac.setFan 5))
      | .FAN_UNDEFINED => do
        let s ← change_fan_callback_ n (get_fan s) .FAN_AUTO s
        some (false, s.ac (IRTcl112Ac.setFan 0))

def change_fan_callback_ : Nat → FAN_MODE → FAN_MODE → IRDahatsu → Option IRDahatsu
  | 0, _, _, _ => none
  | n + 1, old_fan_mode, new_fan_mode, s =>
    if old_fan_mode = new_fan_mode then some s
    else
      let turbo := get_turbo s
      if turbo = false then some s
      else
        let mode := get_mode s
        if mode = .MODE_COOL ∨ mode = .MODE_HEAT ∨ mode = .MODE_FAN ∨ mode = .MODE_DRY then do
          let (_, s) ← set_turbo n false s
          some s
        else some s

def set_turbo : Nat → Bool → IRDahatsu → Option (Bool × IRDahatsu)
  | 0, _, _ => none
  | n + 1, on_, s =>
    if s.turbo_enabled_ = false then some (false, s)
    else set_turbo_ n on_ s

def set_eco : Nat → Bool → IRDahatsu → Option (Bool × IRDahatsu)
  | 0, _, _ => none
  | n + 1, on_, s =>
    if s.eco_enabled_ = false then some (false, s)
    else if get_eco s = on_ then some (true, s)
    else do
      let s ← if on_ then (set_turbo n false s).map Prod.snd else some s
      some (true, s.ac (IRTcl112Ac.setEcono on_))

def set_turbo_ : Nat → Bool → IRDahatsu → Option (Bool × IRDahatsu)
  | 0, _, _ => none
  | n + 1, on_, s =>
    if on_ = get_turbo s then some (true, s)
    else if on_ = false then
      if get_turbo s = true then do
        let s := s.ac (IRTcl112Ac.setTurbo false)
        let s ← apply_state_ n s
        some (true, s)
      else some (true, s.ac (IRTcl112Ac.setTurbo on_))
    else do
      let (_, s) ← set_eco n false s
      let mode := get_mode s
      let s ←
        match mode with
        | .MODE_HEAT => do
          let s := save_state_ s
          let (_, s) ← set_temp n temp_max s
          let (_, s) ← set_fan n .FAN_HIGH s
          some (set_swing_mode .SWING_HORIZONTAL s)
        | .MODE_DRY => do
          let s := save_state_ s
          let s := s.ac (IRTcl112Ac.setFan 2)
          some (set_swing_mode .SWING_HORIZONTAL s)
        | .MODE_COOL => do
          let s := save_state_ s
          let (_, s) ← set_temp n temp_min s
          let (_, s) ← set_fan n .FAN_HIGH s
          some (set_swing_mode .SWING_HORIZONTAL s)
        | .MODE_FAN => do
          let s := save_state_ s
          let (_, s) ← set_fan n .FAN_HIGH s
          some (set_swing_mode .SWING_HORIZONTAL s)
        | _ => some s
      some (true, s.ac (IRTcl112Ac.setTurbo on_))

def apply_state_ : Nat → IRDahatsu → Option IRDahatsu
  | 0, _ => none
  | n + 1, s =>
    match s.state_ with
    | none => some s
    | some st => do
      let temp := st.temp
      let fan_mode := st.fan_mode
      let swing_mode := st.swing_mode
      let (_, s) ← set_temp n temp s
      let (_, s) ← set_fan n fan_mode s
      some (set_swing_mode swing_mode s)

end

/-- The private `set_constraints`. -/
def set_constraints (n : Nat) (health_enabled light_enabled turbo_enabled eco_enabled
    set_temp_enabled : Bool) (default_fan_mode : FAN_MODE) (s : IRDahatsu) :
    Option IRDahatsu := do
  let s := { s with
    health_enabled_ := health_enabled
    light_enabled_ := light_enabled
    turbo_enabled_ := turbo_enabled
    eco_enabled_ := eco_enabled
    set_temp_enabled_ := set_temp_enabled }
  let health := s.ac_.health
  let light := s.ac_.light
  let turbo := s.ac_.turbo
  let eco := s.ac_.econo
  let s := if health_enabled = false ∧ health = true
    then s.ac (IRTcl112Ac.setHealth false) else s
  let s := if light_enabled = false ∧ light = true
    then s.ac (IRTcl112Ac.setLight false) else s
  let s ← if turbo = true then (set_turbo_ n false s).map Prod.snd else some s
  let s := if eco_enabled = false ∧ eco = true
    then s.ac (IRTcl112Ac.setEcono false) else s
  if is_fan_mode_supported (get_fan s) s = false then
    (set_fan n default_fan_mode s).map Prod.snd
  else some s

def set_mode (n : Nat) (mode : AC_MODE) (s : IRDahatsu) : Option IRDahatsu :=
  match mode with
  | .MODE_HEAT => do
    let s := s.ac (IRTcl112Ac.setMode 1)
    set_constraints n true true true true true .FAN_MEDIUM s
  | .MODE_DRY => do
    let (_, s) ← set_turbo n false s
    let s := s.ac (IRTcl112Ac.setMode 2)
    set_constraints n true true true false false .FAN_AUTO s
  | .MODE_COOL => do
    let (_, s) ← set_turbo n false s
    let s := s.ac (IRTcl112Ac.setMode 3)
    set_constraints n true true true true true .FAN_MEDIUM s
  | .MODE_FAN => do
    let s := s.ac (IRTcl112Ac.setMode 7)
    set_constraints n true true true false false .FAN_MEDIUM s
  | .MODE_AUTO => do
    let s := s.ac (IRTcl112Ac.setMode 8)
    set_constraints n true true false false false .FAN_MEDIUM s
  | _ => some s

def set_hvac_mode (n : Nat) (mode : AC_MODE) (s : IRDahatsu) : Option IRDahatsu := do
  let s ← if mode ≠ get_mode s then set_mode n mode s else some s
  if mode = .MODE_OFF then some (s.ac (IRTcl112Ac.setPower false))
  else some (s.ac (IRTcl112Ac.setPower true))

def get_hvac_mode (s : IRDahatsu) : AC_MODE :=
  let power_on := s.ac_.power
  if power_on = false then .MODE_OFF else get_mode s

/-! ### Closed forms

The fuel-indexed functions above terminate in a bounded number of calls: a
nested `set_turbo(false)` clears the turbo flag before it restores the
snapshot, so the callbacks it reaches return at once.  The definitions below
give the result of each function without fuel; the lemmas in the second half
of the file show that the fuel-indexed functions compute exactly these values
once the fuel covers the call depth. -/

/-- Raw code that `set_fan` hands to the codec for each level. -/
def fan_code : FAN_MODE → Nat
  | .FAN_AUTO => 0
  | .FAN_LOW => 2
  | .FAN_MEDIUM => 3
  | .FAN_HIGH => 5
  | .FAN_UNDEFINED => 0

/-- Level that `get_fan` reports for a raw fan code. -/
def fan_of_code (code : Nat) : FAN_MODE :=
  if code = 0 then .FAN_AUTO
  else if code = 2 then .FAN_LOW
  else if code = 3 then .FAN_MEDIUM
  else if code = 5 then .FAN_HIGH
  else .FAN_AUTO

/-- Answer of `is_fan_mode_supported` as a function of the raw mode code. -/
def fan_allowed (mode : Nat) (fan_mode : FAN_MODE) : Bool :=
  if mode = 7 then (if fan_mode = .FAN_AUTO then false else true)
  else if mode = 2 then (if fan_mode = .FAN_AUTO then true else false)
  else true

/-- Result of `set_temp` once its callback has run and left the state `s`. -/
def store_temp (temp : ℚ) (s : IRDahatsu) : Bool × IRDahatsu :=
  (s.set_temp_enabled_, s.ac (IRTcl112Ac.setTemp temp))

/-- Result of `set_fan`'s switch once its callback has run and left `s`. -/
def store_fan (fan_mode : FAN_MODE) (s : IRDahatsu) : Bool × IRDahatsu :=
  (decide (fan_mode ≠ .FAN_UNDEFINED), s.ac (IRTcl112Ac.setFan (fan_code fan_mode)))

/-- Closed form of `apply_state_` on a state whose turbo flag is off. -/
def restore (s : IRDahatsu) : IRDahatsu :=
  match s.state_ with
  | none => s
  | some st =>
    let s := if st.temp < temp_min ∨ st.temp > temp_max then s else (store_temp st.temp s).2
    let s := if is_fan_mode_supported st.fan_mode s = false then s
      else (store_fan st.fan_mode s).2
    set_swing_mode st.swing_mode s

/-- Closed form of `set_turbo_(false)`. -/
def turbo_off_ (s : IRDahatsu) : IRDahatsu :=
  if get_turbo s = false then s
  else restore (s.ac (IRTcl112Ac.setTurbo false))

/-- Closed form of `set_turbo(false)`. -/
def turbo_off (s : IRDahatsu) : Bool × IRDahatsu :=
  if s.turbo_enabled_ = false then (false, s) else (true, turbo_off_ s)

/-- Closed form of `change_temp_callback_`. -/
def temp_callback (old_temp new_temp : ℚ) (s : IRDahatsu) : IRDahatsu :=
  if old_temp = new_temp then s
  else if get_turbo s = false then s
  else if get_mode s = .MODE_COOL ∨ get_mode s = .MODE_HEAT then (turbo_off s).2
  else s

/-- Closed form of `change_fan_callback_`. -/
def fan_callback (old_fan_mode new_fan_mode : FAN_MODE) (s : IRDahatsu) : IRDahatsu :=
  if old_fan_mode = new_fan_mode then s
  else if get_turbo s = false then s
  else if get_mode s = .MODE_COOL ∨ get_mode s = .MODE_HEAT ∨ get_mode s = .MODE_FAN
      ∨ get_mode s = .MODE_DRY then (turbo_off s).2
  else s

/-- Closed form of `set_temp`. -/
def set_temp_result (temp : ℚ) (s : IRDahatsu) : Bool × IRDahatsu :=
  if temp < temp_min ∨ temp > temp_max then (false, s)
  else store_temp temp (temp_callback (get_temp s) temp s)

/-- Closed form of `set_fan`. -/
def set_fan_result (fan_mode : FAN_MODE) (s : IRDahatsu) : Bool × IRDahatsu :=
  if is_fan_mode_supported fan_mode s = false then (false, s)
  else
    let target := if fan_mode = .FAN_UNDEFINED then FAN_MODE.FAN_AUTO else fan_mode
    store_fan fan_mode (fan_callback (get_fan s) target s)

/-- Closed form of `set_eco`. -/
def set_eco_result (on_ : Bool) (s : IRDahatsu) : Bool × IRDahatsu :=
  if s.eco_enabled_ = false then (false, s)
  else if get_eco s = on_ then (true, s)
  else
    let s := if on_ then (turbo_off s).2 else s
    (true, s.ac (IRTcl112Ac.setEcono on_))

/-- Closed form of the switch-on branch of `set_turbo_`. -/
def turbo_on_ (s : IRDahatsu) : IRDahatsu :=
  let s := (set_eco_result false s).2
  let s :=
    match get_mode s with
    | .MODE_HEAT =>
      let s := save_state_ s
      let s := (set_temp_result temp_max s).2
      let s := (set_fan_result .FAN_HIGH s).2
      set_swing_mode .SWING_HORIZONTAL s
    | .MODE_DRY =>
      let s := save_state_ s
      let s := s.ac (IRTcl112Ac.setFan 2)
      set_swing_mode .SWING_HORIZONTAL s
    | .MODE_COOL =>
      let s := save_state_ s
      let s := (set_temp_result temp_min s).2
      let s := (set_fan_result .FAN_HIGH s).2
      set_swing_mode .SWING_HORIZONTAL s
    | .MODE_FAN =>
      let s := save_state_ s
      let s := (set_fan_result .FAN_HIGH s).2
      set_swing_mode .SWING_HORIZONTAL s
    | _ => s
  s.ac (IRTcl112Ac.setTurbo true)

/-- Closed form of `set_turbo_`. -/
def set_turbo__result (on_ : Bool) (s : IRDahatsu) : Bool × IRDahatsu :=
  if on_ = get_turbo s then (true, s)
  else if on_ = false then (true, turbo_off_ s)
  else (true, turbo_on_ s)

/-- Closed form of `set_turbo`. -/
def set_turbo_result (on_ : Bool) (s : IRDahatsu) : Bool × IRDahatsu :=
  if s.turbo_enabled_ = false then (false, s) else set_turbo__result on_ s

/-- Closed form of `set_constraints`. -/
def set_constraints_result (health_enabled light_enabled turbo_enabled eco_enabled
    set_temp_enabled : Bool) (default_fan_mode : FAN_MODE) (s : IRDahatsu) : IRDahatsu :=
  let s := { s with
    health_enabled_ := health_enabled
    light_enabled_ := light_enabled
    turbo_enabled_ := turbo_enabled
    eco_enabled_ := eco_enabled
    set_temp_enabled_ := set_temp_enabled }
  let health := s.ac_.health
  let light := s.ac_.light
  let turbo := s.ac_.turbo
  let eco := s.ac_.econo
  let s := if health_enabled = false ∧ health = true
    then s.ac (IRTcl112Ac.setHealth false) else s
  let s := if light_enabled = false ∧ light = true
    then s.ac (IRTcl112Ac.setLight false) else s
  let s := if turbo = true then turbo_off_ s else s
  let s := if eco_enabled = false ∧ eco = true
    then s.ac (IRTcl112Ac.setEcono false) else s
  if is_fan_mode_supported (get_fan s) s = false then (set_fan_result default_fan_mode s).2
  else s

/-- State that `set_constraints` holds just before its final fan check, in
straight-line form: the flags are stored, each conditional switch-off stores
`current && allowed`, and the turbo unwinding is `turbo_off_`. -/
def constraints_core (health_enabled light_enabled turbo_enabled eco_enabled
    set_temp_enabled : Bool) (s : IRDahatsu) : IRDahatsu :=
  let s0 : IRDahatsu := { s with
    health_enabled_ := health_enabled
    light_enabled_ := light_enabled
    turbo_enabled_ := turbo_enabled
    eco_enabled_ := eco_enabled
    set_temp_enabled_ := set_temp_enabled }
  let s1 := s0.ac (IRTcl112Ac.setHealth (s.ac_.health && health_enabled))
  let s2 := s1.ac (IRTcl112Ac.setLight (s.ac_.light && light_enabled))
  let s3 := turbo_off_ s2
  s3.ac (IRTcl112Ac.setEcono (s.ac_.econo && eco_enabled))

/-- Closed form of `set_mode`. -/
def set_mode_result (mode : AC_MODE) (s : IRDahatsu) : IRDahatsu :=
  match mode with
  | .MODE_HEAT =>
    set_constraints_result true true true true true .FAN_MEDIUM
      (s.ac (IRTcl112Ac.setMode 1))
  | .MODE_DRY =>
    let s := (turbo_off s).2
    set_constraints_result true true true false false .FAN_AUTO
      (s.ac (IRTcl112Ac.setMode 2))
  | .MODE_COOL =>
    let s := (turbo_off s).2
    set_constraints_result true true true true true .FAN_MEDIUM
      (s.ac (IRTcl112Ac.setMode 3))
  | .MODE_FAN =>
    set_constraints_result true true true false false .FAN_MEDIUM
      (s.ac (IRTcl112Ac.setMode 7))
  | .MODE_AUTO =>
    set_constraints_result true true false false false .FAN_MEDIUM
      (s.ac (IRTcl112Ac.setMode 8))
  | _ => s

/-- The permission flags that `set_mode` passes to `set_constraints` for each
mode: health, light, turbo, eco, set-temperature. -/
def mode_constraints : AC_MODE → Option (Bool × Bool × Bool × Bool × Bool)
  | .MODE_HEAT => some (true, true, true, true, true)
  | .MODE_DRY => some (true, true, true, false, false)
  | .MODE_COOL => some (true, true, true, true, true)
  | .MODE_FAN => some (true, true, true, false, false)
  | .MODE_AUTO => some (true, true, false, false, false)
  | _ => none

/-- The permission flags held by the state are those `set_mode` establishes
for the active mode. -/
def constraints_applied (s : IRDahatsu) : Prop :=
  mode_constraints (get_mode s)
    = some (s.health_enabled_, s.light_enabled_, s.turbo_enabled_, s.eco_enabled_,
        s.set_temp_enabled_)

instance (s : IRDahatsu) : Decidable (constraints_applied s) :=
  inferInstanceAs (Decidable (mode_constraints (get_mode s)
    = some (s.health_enabled_, s.light_enabled_, s.turbo_enabled_, s.eco_enabled_,
        s.set_temp_enabled_)))

/-- Everything a temperature, fan, swing or turbo-off operation leaves alone:
the snapshot, the five permission flags, and the codec's mode, power, eco,
health and light registers; moreover such an operation never switches turbo
on. -/
def Frame (s s' : IRDahatsu) : Prop :=
  s'.state_ = s.state_ ∧ s'.health_enabled_ = s.health_enabled_
    ∧ s'.light_enabled_ = s.light_enabled_ ∧ s'.turbo_enabled_ = s.turbo_enabled_
    ∧ s'.eco_enabled_ = s.eco_enabled_ ∧ s'.set_temp_enabled_ = s.set_temp_enabled_
    ∧ s'.ac_.mode = s.ac_.mode ∧ s'.ac_.power = s.ac_.power ∧ s'.ac_.econo = s.ac_.econo
    ∧ s'.ac_.health = s.ac_.health ∧ s'.ac_.light = s.ac_.light
    ∧ (s'.ac_.turbo = true → s.ac_.turbo = true)

/-! ### Concrete states used to run the model -/

/-- Mode Cool at 24 degrees, fan Low, swing off, nothing switched on; the
flags are those of Cool. -/
def cool_low : IRDahatsu :=
  ⟨⟨true, 3, 24, 2, false, false, false, false, false⟩, none, true, true, true, true, true⟩

/-- The state `cool_low` with the fan on Auto. -/
def cool_auto : IRDahatsu :=
  ⟨⟨true, 3, 24, 0, false, false, false, false, false⟩, none, true, true, true, true, true⟩

/-- The state `cool_low` after turbo was switched on: 16 degrees, fan High,
swing horizontal, and the snapshot of the settings before. -/
def cool_boost : IRDahatsu :=
  ⟨⟨true, 3, 16, 5, true, true, false, false, false⟩, some ⟨24, .FAN_LOW, .SWING_OFF⟩,
    true, true, true, true, true⟩

/-- The state `cool_boost` after turbo was switched off again. -/
def cool_restored : IRDahatsu :=
  ⟨⟨true, 3, 24, 2, false, false, false, false, false⟩, some ⟨24, .FAN_LOW, .SWING_OFF⟩,
    true, true, true, true, true⟩

/-- Mode Dry as `set_mode` leaves it when called on `cool_low`. -/
def dry_auto : IRDahatsu :=
  ⟨⟨true, 2, 24, 0, false, false, false, false, false⟩, none, true, true, true, false, false⟩

/-- The state `dry_auto` after turbo was switched on. -/
def dry_boost : IRDahatsu :=
  ⟨⟨true, 2, 24, 2, true, true, false, false, false⟩, some ⟨24, .FAN_AUTO, .SWING_OFF⟩,
    true, true, true, false, false⟩

/-- Mode Fan with the fan on Medium; the flags are those of Fan. -/
def fan_medium : IRDahatsu :=
  ⟨⟨true, 7, 24, 3, false, false, false, false, false⟩, none, true, true, true, false, false⟩

/-! ### Sequences of calls -/

/-- The fan list `fan_modes` of the class. -/
def fan_modes : List FAN_MODE := [.FAN_AUTO, .FAN_LOW, .FAN_MEDIUM, .FAN_HIGH]

/-- Closed form of `set_hvac_mode`. -/
def set_hvac_mode_result (mode : AC_MODE) (s : IRDahatsu) : IRDahatsu :=
  let s := if mode ≠ get_mode s then set_mode_result mode s else s
  if mode = .MODE_OFF then s.ac (IRTcl112Ac.setPower false)
  else s.ac (IRTcl112Ac.setPower true)

/-- One call of a public mutator of `IRDahatsu`, with its argument. -/
inductive Call where
  | set_mode (mode : AC_MODE)
  | set_hvac_mode (mode : AC_MODE)
  | set_temp (temp : ℚ)
  | set_fan (fan_mode : FAN_MODE)
  | set_swing_mode (swing_mode : SWING_MODE)
  | set_health (on_ : Bool)
  | set_light (on_ : Bool)
  | set_turbo (on_ : Bool)
  | set_eco (on_ : Bool)

/-- Runs one call with fuel `n` and keeps the state it leaves. -/
def Call.run (n : Nat) : Call → IRDahatsu → Option IRDahatsu
  | .set_mode mode, s => Dahatsu.set_mode n mode s
  | .set_hvac_mode mode, s => Dahatsu.set_hvac_mode n mode s
  | .set_temp temp, s => (Dahatsu.set_temp n temp s).map Prod.snd
  | .set_fan fan_mode, s => (Dahatsu.set_fan n fan_mode s).map Prod.snd
  | .set_swing_mode swing_mode, s => some (Dahatsu.set_swing_mode swing_mode s)
  | .set_health on_, s => some (Dahatsu.set_health on_ s).2
  | .set_light on_, s => some (Dahatsu.set_light on_ s).2
  | .set_turbo on_, s => (Dahatsu.set_turbo n on_ s).map Prod.snd
  | .set_eco on_, s => (Dahatsu.set_eco n on_ s).map Prod.snd

/-- Runs a sequence of calls, first to last. -/
def run_calls (n : Nat) : List Call → IRDahatsu → Option IRDahatsu
  | [], s => some s
  | c :: cs, s => (c.run n s).bind (run_calls n cs)

/-- Closed form of `Call.run`. -/
def Call.result : Call → IRDahatsu → IRDahatsu
  | .set_mode mode, s => set_mode_result mode s
  | .set_hvac_mode mode, s => set_hvac_mode_result mode s
  | .set_temp temp, s => (set_temp_result temp s).2
  | .set_fan fan_mode, s => (set_fan_result fan_mode s).2
  | .set_swing_mode swing_mode, s => Dahatsu.set_swing_mode swing_mode s
  | .set_health on_, s => (Dahatsu.set_health on_ s).2
  | .set_light on_, s => (Dahatsu.set_light on_ s).2
  | .set_turbo on_, s => (set_turbo_result on_ s).2
  | .set_eco on_, s => (set_eco_result on_ s).2

/-- Closed form of `run_calls`. -/
def results : List Call → IRDahatsu → IRDahatsu
  | [], s => s
  | c :: cs, s => results cs (c.result s)

/-- A call that passes a fan level passes one from the fan list. -/
def Call.listed : Call → Prop
  | .set_fan fan_mode => fan_mode ∈ fan_modes
  | _ => True

/-- Turbo and eco are not both on, eco is on only where it is allowed, and
eco is allowed only where turbo is. -/
def Exclusive (s : IRDahatsu) : Prop :=
  (s.ac_.turbo = true → s.ac_.econo = false)
    ∧ (s.ac_.econo = true → s.eco_enabled_ = true)
    ∧ (s.eco_enabled_ = true → s.turbo_enabled_ = true)

/-- The snapshot, when there is one, holds a fan level that `get_fan` can
report (never `FAN_UNDEFINED`). -/
def SnapshotListed (s : IRDahatsu) : Prop :=
  ∀ st, s.state_ = some st → st.fan_mode ≠ .FAN_UNDEFINED

/-- The fan level in force is supported in the active mode, or turbo is on in
mode Dry over a snapshot that holds fan Auto. -/
def FanLegal (s : IRDahatsu) : Prop :=
  SnapshotListed s
    ∧ (is_fan_mode_supported (get_fan s) s = true
        ∨ (s.ac_.mode = 2 ∧ s.ac_.turbo = true
            ∧ ∃ st, s.state_ = some st ∧ st.fan_mode = .FAN_AUTO))

/-- Mode Auto as `set_mode` leaves it when called on `cool_low`. -/
def auto_low : IRDahatsu :=
  ⟨⟨true, 8, 24, 2, false, false, false, false, false⟩, none, true, true, false, false, false⟩

/-- Mode Fan with turbo on, fan High, over a snapshot whose fan level is
`FAN_UNDEFINED`. -/
def fan_boost_undefined : IRDahatsu :=
  ⟨⟨true, 7, 24, 5, true, true, false, false, false⟩, some ⟨24, .FAN_UNDEFINED, .SWING_OFF⟩,
    true, true, true, false, false⟩

/-! ### String commands and decoded frames -/

/-- The static `parse_swing_mode`: an unrecognised string is logged and read
as `SWING_OFF`. -/
def parse_swing_mode (swing_mode : String) : SWING_MODE :=
  if esphome.str_equals_case_insensitive swing_mode "OFF" then .SWING_OFF
  else if esphome.str_equals_case_insensitive swing_mode "HORIZONTAL" then .SWING_HORIZONTAL
  else .SWING_OFF

/-- The overload `set_swing_mode(const std::string&)`. -/
def set_swing_mode_str (swing_mode_str : String) (s : IRDahatsu) : IRDahatsu :=
  let swing_mode := parse_swing_mode swing_mode_str
  set_swing_mode swing_mode s

/-- Modelled from the spec: `IRTcl112Ac::setRaw` of the external codec, which
"overwrites the full internal representation from the raw bits": the
registers decoded from the received frame replace the codec's registers. -/
def IRTcl112Ac.setRaw (new_code : IRTcl112Ac) (_c : IRTcl112Ac) : IRTcl112Ac := new_code

/-- The member `loop`.  `decoded` is what `ir_receiver_->decode` delivered:
`none` when it returned false, the registers of the decoded frame otherwise.
The boolean of the result says whether `state_callback_` was called. -/
def loop (n : Nat) (decoded : Option IRTcl112Ac) (s : IRDahatsu) : Option (Bool × IRDahatsu) :=
  match decoded with
  | none => some (false, s)
  | some frame => do
    let s := s.ac (IRTcl112Ac.setRaw frame)
    let turbo := get_turbo s
    let s ← set_mode n (get_mode s) s
    let (_, s) ← set_turbo n turbo s
    some (true, s)

/-- A decoded frame: mode Auto with the turbo bit set. -/
def auto_turbo_frame : IRTcl112Ac := ⟨true, 8, 24, 0, false, true, false, false, false⟩

/-- A decoded frame: mode Cool with the turbo bit set. -/
def cool_turbo_frame : IRTcl112Ac := ⟨true, 3, 24, 0, false, true, false, false, false⟩

end Dahatsu

namespace Daikin

/-- The enum `SWING_MODE` of `IRDaikin.h`. -/
inductive SWING_MODE where
  | SWING_OFF
  | SWING_HORIZONTAL
  deriving DecidableEq

/-- The enum `FAN_MODE` of `IRDaikin.h`. -/
inductive FAN_MODE where
  | FAN_UNDEFINED
  | FAN_AUTO
  | FAN_HIGH
  | FAN_TURBO
  | FAN_MEDIUM
  | FAN_LOW
  | FAN_QUIET
  deriving DecidableEq

/-- The enum `AC_MODE` of `IRDaikin.h`. -/
inductive AC_MODE where
  | MODE_UNDEFINED
  | MODE_DRY
  | MODE_COOL
  | MODE_FAN
  | MODE_HEAT
  | MODE_AUTO
  | MODE_OFF
  deriving DecidableEq

/-- Underlying `uint8_t` value of an `AC_MODE` enumerator. -/
def AC_MODE.val : AC_MODE → Nat
  | .MODE_UNDEFINED => 0
  | .MODE_DRY => 1
  | .MODE_COOL => 2
  | .MODE_FAN => 4
  | .MODE_HEAT => 8
  | .MODE_AUTO => 10
  | .MODE_OFF => 11

/-- Modelled from the spec: the external codec object `IRDaikin64` (library
`ir_Daikin.h`, not part of the repository), which the spec treats as a black
box.  `raw` is the 64-bit command word behind `getRaw`/`setRaw`; the other
fields are registers, each `getX` returning what the last `setX` stored. -/
structure IRDaikin64 where
  raw : Nat
  temp : Nat
  fan : Nat
  swingVertical : Bool
  sleep : Bool
  turbo : Bool
  quiet : Bool
  powerToggle : Bool
  deriving DecidableEq

def IRDaikin64.setRaw (data : Nat) (c : IRDaikin64) : IRDaikin64 := { c with raw := data }

def IRDaikin64.setTemp (temp : Nat) (c : IRDaikin64) : IRDaikin64 := { c with temp := temp }

def IRDaikin64.setFan (speed : Nat) (c : IRDaikin64) : IRDaikin64 := { c with fan := speed }

def IRDaikin64.setSwingVertical (on_ : Bool) (c : IRDaikin64) : IRDaikin64 :=
  { c with swingVertical := on_ }

def IRDaikin64.setSleep (on_ : Bool) (c : IRDaikin64) : IRDaikin64 := { c with sleep := on_ }

def IRDaikin64.setTurbo (on_ : Bool) (c : IRDaikin64) : IRDaikin64 := { c with turbo := on_ }

def IRDaikin64.setQuiet (on_ : Bool) (c : IRDaikin64) : IRDaikin64 := { c with quiet := on_ }

def IRDaikin64.setPowerToggle (on_ : Bool) (c : IRDaikin64) : IRDaikin64 :=
  { c with powerToggle := on_ }

/-- Modelled from the spec: `IRDaikin64::getMode`, taken to read the 4-bit
field at bit offset 8 of the command word, the field that `set_mode_` writes. -/
def IRDaikin64.getMode (c : IRDaikin64) : Nat := (c.raw >>> 8) % 16

/-- The private fields of the class `IRDaikin` that make up the model state. -/
structure IRDaikin where
  ac_ : IRDaikin64
  power_on_ : Bool
  set_temp_enabled_ : Bool
  turbo_enabled_ : Bool
  quiet_enabled_ : Bool
  sleep_enabled_ : Bool
  prev_fan_mode_ : FAN_MODE
  deriving DecidableEq

/-- A call `this->ac_->f(...)`: runs the codec operation `f` on the codec held
by the model and leaves the model's own fields alone. -/
def IRDaikin.ac (s : IRDaikin) (f : IRDaikin64 → IRDaikin64) : IRDaikin :=
  { s with ac_ := f s.ac_ }

def temp_min : Nat := 16

def temp_max : Nat := 30

def UINT64_MAX : Nat := 2 ^ 64 - 1

def set_power_state (on_ : Bool) (s : IRDaikin) : IRDaikin := { s with power_on_ := on_ }

def get_power_state (s : IRDaikin) : Bool := s.power_on_

def set_temp (temp : Nat) (s : IRDaikin) : Bool × IRDaikin :=
  if temp < temp_min ∨ temp > temp_max then (false, s)
  else
    let s := s.ac (IRDaikin64.setTemp temp)
    if s.set_temp_enabled_ = false then (false, s)
    else (true, s)

def get_temp (s : IRDaikin) : Nat := s.ac_.temp

def set_temp_allowed (s : IRDaikin) : Bool := s.set_temp_enabled_

def get_mode (s : IRDaikin) : AC_MODE :=
  let mode := s.ac_.getMode
  if mode = 1 then .MODE_DRY
  else if mode = 2 then .MODE_COOL
  else if mode = 4 then .MODE_FAN
  else if mode = 8 then .MODE_HEAT
  else if mode = 10 then .MODE_AUTO
  else .MODE_UNDEFINED

def is_fan_mode_supported (fan_mode : FAN_MODE) (s : IRDaikin) : Bool :=
  let mode := s.ac_.getMode
  if fan_mode = .FAN_QUIET then s.quiet_enabled_
  else if fan_mode = .FAN_TURBO then s.turbo_enabled_
  else if mode = AC_MODE.MODE_FAN.val ∧ fan_mode = .FAN_AUTO then false
  else true

def set_fan (fan_mode : FAN_MODE) (s : IRDaikin) : Bool × IRDaikin :=
  if is_fan_mode_supported fan_mode s = false then (false, s)
  else
    match fan_mode with
    | .FAN_AUTO => (true, { s.ac (IRDaikin64.setFan 1) with prev_fan_mode_ := .FAN_AUTO })
    | .FAN_LOW => (true, { s.ac (IRDaikin64.setFan 8) with prev_fan_mode_ := .FAN_LOW })
    | .FAN_MEDIUM =>
      (true, { s.ac (IRDaikin64.setFan 4) with prev_fan_mode_ := .FAN_MEDIUM })
    | .FAN_TURBO => (true, s.ac (IRDaikin64.setFan 3))
    | .FAN_QUIET => (true, s.ac (IRDaikin64.setFan 9))
    | .FAN_HIGH => (true, { s.ac (IRDaikin64.setFan 2) with prev_fan_mode_ := .FAN_HIGH })
    | .FAN_UNDEFINED => (true, s.ac (IRDaikin64.setFan 1))

def get_fan (s : IRDaikin) : FAN_MODE :=
  let fan_mode := s.ac_.fan
  if fan_mode = 1 then .FAN_AUTO
  else if fan_mode = 2 then .FAN_HIGH
  else if fan_mode = 3 then .FAN_TURBO
  else if fan_mode = 4 then .FAN_MEDIUM
  else if fan_mode = 8 then .FAN_LOW
  else if fan_mode = 9 then .FAN_QUIET
  else .FAN_AUTO

def get_prev_fan (s : IRDaikin) : FAN_MODE := s.prev_fan_mode_

/-- The private `re_initialize_fan_mode_`. -/
def re_initialize_fan_mode_ (default_fan_mode : FAN_MODE) (s : IRDaikin) : IRDaikin :=
  let fan_mode := get_fan s
  if is_fan_mode_supported fan_mode s then s
  else if is_fan_mode_supported s.prev_fan_mode_ s then (set_fan s.prev_fan_mode_ s).2
  else (set_fan default_fan_mode s).2

/-- The private `set_constraints_`. -/
def set_constraints_ (turbo_enabled quiet_enabled sleep_enabled set_temp_enabled : Bool)
    (s : IRDaikin) : IRDaikin :=
  let s := { s with
    turbo_enabled_ := turbo_enabled
    quiet_enabled_ := quiet_enabled
    sleep_enabled_ := sleep_enabled
    set_temp_enabled_ := set_temp_enabled }
  let s := re_initialize_fan_mode_ .FAN_MEDIUM s
  let turbo := s.ac_.turbo
  let quiet := s.ac_.quiet
  let sleep := s.ac_.sleep
  let s := if s.turbo_enabled_ = false ∧ turbo = true
    then (set_fan s.prev_fan_mode_ (s.ac (IRDaikin64.setTurbo false))).2 else s
  let s := if s.quiet_enabled_ = false ∧ quiet = true
    then (set_fan s.prev_fan_mode_ (s.ac (IRDaikin64.setQuiet false))).2 else s
  if s.sleep_enabled_ = false ∧ sleep = true
    then s.ac (IRDaikin64.setSleep false) else s

/-- The private `set_mode_`: writes the 4-bit mode field at bit offset 8 of
the 64-bit command word. -/
def set_mode_ (mode : Nat) (s : IRDaikin) : IRDaikin :=
  let raw_data := s.ac_.raw
  let offset := 8
  let nbits := 4
  if offset ≥ 64 ∨ nbits = 0 then s
  else
    let mask := UINT64_MAX >>> (64 - (if nbits > 64 then 64 else nbits))
    let raw_data := raw_data &&& (UINT64_MAX ^^^ (mask <<< offset))
    let raw_data := raw_data ||| ((mode &&& mask) <<< offset)
    s.ac (IRDaikin64.setRaw raw_data)

def set_mode (mode : AC_MODE) (s : IRDaikin) : IRDaikin :=
  match mode with
  | .MODE_HEAT => set_constraints_ true true true true (set_mode_ 8 s)
  | .MODE_DRY => set_constraints_ false false false true (set_mode_ 1 s)
  | .MODE_COOL => set_constraints_ true true true true (set_mode_ 2 s)
  | .MODE_FAN => set_constraints_ false false false false (set_mode_ 4 s)
  | .MODE_AUTO => set_constraints_ false false true true (set_mode_ 10 s)
  | _ => s

/-- A concrete state: mode Cool (command word `0x7C16161607204216`, mode field
2), 20 degrees, fan Medium, believed on, with the flags of Cool. -/
def cool_20 : IRDaikin :=
  ⟨⟨0x7C16161607204216, 20, 4, false, false, false, false, false⟩, true, true, true, true,
    true, .FAN_MEDIUM⟩

/-- The member `toggle_power`: raises the codec's power-toggle bit and inverts
the believed power. -/
def toggle_power (s : IRDaikin) : IRDaikin :=
  let s := s.ac (IRDaikin64.setPowerToggle true)
  let power := get_power_state s
  let new_power := !power
  set_power_state new_power s

def set_hvac_mode (mode : AC_MODE) (s : IRDaikin) : IRDaikin :=
  let s := set_mode mode s
  let s := if mode ≠ .MODE_OFF ∧ get_power_state s = false then toggle_power s else s
  if mode = .MODE_OFF ∧ get_power_state s = true then toggle_power s else s

def get_hvac_mode (s : IRDaikin) : AC_MODE :=
  if get_power_state s = false then .MODE_OFF else get_mode s

def get_swing_mode (s : IRDaikin) : SWING_MODE :=
  if s.ac_.swingVertical then .SWING_HORIZONTAL else .SWING_OFF

def set_swing_mode (swing_mode : SWING_MODE) (s : IRDaikin) : IRDaikin :=
  match swing_mode with
  | .SWING_OFF => s.ac (IRDaikin64.setSwingVertical false)
  | .SWING_HORIZONTAL => s.ac (IRDaikin64.setSwingVertical true)

def set_sleep (on_ : Bool) (s : IRDaikin) : Bool × IRDaikin :=
  if s.sleep_enabled_ = false then (false, s)
  else (true, s.ac (IRDaikin64.setSleep on_))

def get_sleep (s : IRDaikin) : Bool := s.ac_.sleep

def sleep_allowed (s : IRDaikin) : Bool := s.sleep_enabled_

/-- Everything a fan operation of `IRDaikin` leaves alone: the command word,
temperature, swing, sleep and power-toggle registers, the believed power and
the four permission flags. -/
def DFrame (s s' : IRDaikin) : Prop :=
  s'.ac_.raw = s.ac_.raw ∧ s'.ac_.temp = s.ac_.temp
    ∧ s'.ac_.swingVertical = s.ac_.swingVertical ∧ s'.ac_.sleep = s.ac_.sleep
    ∧ s'.ac_.powerToggle = s.ac_.powerToggle ∧ s'.power_on_ = s.power_on_
    ∧ s'.set_temp_enabled_ = s.set_temp_enabled_ ∧ s'.turbo_enabled_ = s.turbo_enabled_
    ∧ s'.quiet_enabled_ = s.quiet_enabled_ ∧ s'.sleep_enabled_ = s.sleep_enabled_

/-- A concrete state: `cool_20` with the sleep flag on and the turbo fan level
selected. -/
def cool_sleep_turbo : IRDaikin :=
  ⟨⟨0x7C16161607204216, 20, 3, false, true, true, false, false⟩, true, true, true, true,
    true, .FAN_HIGH⟩

/-- A concrete state: `cool_20` believed off. -/
def cool_20_off : IRDaikin :=
  ⟨⟨0x7C16161607204216, 20, 4, false, false, false, false, false⟩, false, true, true, true,
    true, .FAN_MEDIUM⟩

/-! ### String commands and the restore at start-up -/

/-- The static `parse_fan_mode`. -/
def parse_fan_mode (fan_mode : String) : FAN_MODE :=
  if esphome.str_equals_case_insensitive fan_mode "AUTO" then .FAN_AUTO
  else if esphome.str_equals_case_insensitive fan_mode "QUIET" then .FAN_QUIET
  else if esphome.str_equals_case_insensitive fan_mode "LOW" then .FAN_LOW
  else if esphome.str_equals_case_insensitive fan_mode "MEDIUM" then .FAN_MEDIUM
  else if esphome.str_equals_case_insensitive fan_mode "HIGH" then .FAN_HIGH
  else if esphome.str_equals_case_insensitive fan_mode "TURBO" then .FAN_TURBO
  else .FAN_UNDEFINED

/-- The static `parse_mode`. -/
def parse_mode (mode : String) : AC_MODE :=
  if esphome.str_equals_case_insensitive mode "OFF" then .MODE_OFF
  else if esphome.str_equals_case_insensitive mode "AUTO" then .MODE_AUTO
  else if esphome.str_equals_case_insensitive mode "COOL" then .MODE_COOL
  else if esphome.str_equals_case_insensitive mode "HEAT" then .MODE_HEAT
  else if esphome.str_equals_case_insensitive mode "FAN_ONLY" then .MODE_FAN
  else if esphome.str_equals_case_insensitive mode "DRY" then .MODE_DRY
  else .MODE_UNDEFINED

/-- The overload `set_hvac_mode(const std::string&)`: an unrecognised string
is logged and nothing is set. -/
def set_hvac_mode_str (mode_str : String) (s : IRDaikin) : IRDaikin :=
  let mode := parse_mode mode_str
  if mode = .MODE_UNDEFINED then s else set_hvac_mode mode s

/-- The overload `set_fan(const std::string&)`. -/
def set_fan_str (fan_mode_str : String) (s : IRDaikin) : Bool × IRDaikin :=
  let fan_mode := parse_fan_mode fan_mode_str
  if fan_mode = .FAN_UNDEFINED then (false, s) else set_fan fan_mode s

/-- The overload `set_swing_mode(const std::string&)`. -/
def set_swing_mode_str (swing_mode : String) (s : IRDaikin) : IRDaikin :=
  if esphome.str_equals_case_insensitive swing_mode "OFF" then set_swing_mode .SWING_OFF s
  else if esphome.str_equals_case_insensitive swing_mode "HORIZONTAL" then
    set_swing_mode .SWING_HORIZONTAL s
  else s

/-- The member `initialize` (restore at start-up); `temp` is a `uint8_t`. -/
def initialize_ (hvac_mode_str mode_str fan_mode_str prev_fan_mode_str swing_mode_str : String)
    (temp : Nat) (sleep : Bool) (s : IRDaikin) : IRDaikin :=
  let hvac_mode := parse_mode hvac_mode_str
  let mode := parse_mode mode_str
  let prev_fan_mode := parse_fan_mode prev_fan_mode_str
  let s :=
    if hvac_mode = .MODE_OFF then
      let s := set_power_state false s
      if mode ≠ .MODE_OFF ∨ mode ≠ .MODE_UNDEFINED then set_mode mode s else s
    else
      let s := set_power_state true s
      set_hvac_mode hvac_mode s
  let s := (set_fan_str fan_mode_str s).2
  let s : IRDaikin :=
    if prev_fan_mode = .FAN_UNDEFINED then { s with prev_fan_mode_ := .FAN_MEDIUM }
    else { s with prev_fan_mode_ := prev_fan_mode }
  let s := set_swing_mode_str swing_mode_str s
  let s := if temp ≥ temp_min ∧ temp ≤ temp_max then s.ac (IRDaikin64.setTemp temp) else s
  (set_sleep sleep s).2

/-! ### Names of the enumerators -/

/-- The static `mode_to_str`. -/
def mode_to_str : AC_MODE → String
  | .MODE_HEAT => "heat"
  | .MODE_DRY => "dry"
  | .MODE_COOL => "cool"
  | .MODE_FAN => "fan_only"
  | .MODE_AUTO => "auto"
  | .MODE_UNDEFINED => "undefined"
  | .MODE_OFF => "off"

/-- The static `fan_mode_to_str`. -/
def fan_mode_to_str : FAN_MODE → String
  | .FAN_AUTO => "auto"
  | .FAN_LOW => "low"
  | .FAN_MEDIUM => "medium"
  | .FAN_TURBO => "turbo"
  | .FAN_QUIET => "quiet"
  | .FAN_HIGH => "high"
  | .FAN_UNDEFINED => "undefined"

/-- The static `swing_mode_to_str`. -/
def swing_mode_to_str : SWING_MODE → String
  | .SWING_OFF => "off"
  | .SWING_HORIZONTAL => "horizontal"

def get_hvac_mode_str (s : IRDaikin) : String := mode_to_str (get_hvac_mode s)

def get_mode_str (s : IRDaikin) : String := mode_to_str (get_mode s)

def get_fan_str (s : IRDaikin) : String := fan_mode_to_str (get_fan s)

def get_prev_fan_str (s : IRDaikin) : String := fan_mode_to_str (get_prev_fan s)

def get_swing_mode_str (s : IRDaikin) : String := swing_mode_to_str (get_swing_mode s)

/-- The fan level f is in force, is the previous fan and is supported. -/
def FanSettled (f : FAN_MODE) (s : IRDaikin) : Prop :=
  get_fan s = f ∧ s.prev_fan_mode_ = f ∧ is_fan_mode_supported f s = true

/-! ### Transmission and the constraint table -/

/-- The fan list `fan_modes` of the class. -/
def fan_modes : List FAN_MODE :=
  [.FAN_AUTO, .FAN_QUIET, .FAN_LOW, .FAN_MEDIUM, .FAN_HIGH, .FAN_TURBO]

/-- The member `send`: the codec transmits its command word and registers as
they stand, then the power-toggle bit is cleared.  The result is the frame
transmitted and the state afterwards. -/
def send (s : IRDaikin) : IRDaikin64 × IRDaikin :=
  (s.ac_, s.ac (IRDaikin64.setPowerToggle false))

/-- The permission flags that `set_mode` passes to `set_constraints_` for each
mode: turbo, quiet, sleep, set-temperature. -/
def mode_constraints : AC_MODE → Option (Bool × Bool × Bool × Bool)
  | .MODE_HEAT => some (true, true, true, true)
  | .MODE_DRY => some (false, false, false, true)
  | .MODE_COOL => some (true, true, true, true)
  | .MODE_FAN => some (false, false, false, false)
  | .MODE_AUTO => some (false, false, true, true)
  | _ => none

/-- The permission flags held by the state are those `set_mode` establishes
for the active mode. -/
def constraints_applied (s : IRDaikin) : Prop :=
  mode_constraints (get_mode s)
    = some (s.turbo_enabled_, s.quiet_enabled_, s.sleep_enabled_, s.set_temp_enabled_)

instance (s : IRDaikin) : Decidable (constraints_applied s) :=
  inferInstanceAs (Decidable (mode_constraints (get_mode s)
    = some (s.turbo_enabled_, s.quiet_enabled_, s.sleep_enabled_, s.set_temp_enabled_)))

/-- A concrete state: mode Heat (mode field 8), 22 degrees, fan Quiet,
vertical swing and sleep on, believed on, previous fan Low, with the flags of
Heat. -/
def heat_quiet : IRDaikin :=
  ⟨⟨0x7C16161607204816, 22, 9, true, true, false, true, false⟩, true, true, true, true, true,
    .FAN_LOW⟩

end Daikin

namespace Tracker

/-- The enum `PowerState` of `PowerTracker.h`. -/
inductive PowerState where
  | UNKNOWN
  | DOWN
  | UP
  | STABLE
  deriving DecidableEq

/-- A `float` sample as `set_power` receives it: not a number, or a number.
Numbers are embedded as rationals (the infinities and the rounding of float
arithmetic are outside the model). -/
inductive Sample where
  | nan
  | num (x : ℚ)
  deriving DecidableEq

/-- Number of values of `unsigned long`, which is 32 bits wide on the targets
of the firmware (ESP8266, ESP32). -/
def ULONG_SIZE : Nat := 2 ^ 32

/-- The fields of the class `PowerTracker`.  The callback manager
`power_callback_` is represented by its history: the arguments of every
`power_callback_.call`, oldest first. -/
structure PowerTracker where
  power_ : ℚ
  power_time_ : Nat
  power_stable_time_ : Nat
  stable_power_timeout_ : Nat
  initialized_ : Bool
  max_power_in_off_state_ : Nat
  power_state_ : PowerState
  power_callback_ : List ℚ
  increase_count_ : Nat
  increase_value_ : ℚ
  decrease_count_ : Nat
  decrease_value_ : ℚ
  stable_power_ : ℚ
  deriving DecidableEq

/-- The call `power_callback_.call(power)`. -/
def PowerTracker.call (t : PowerTracker) (power : ℚ) : PowerTracker :=
  { t with power_callback_ := t.power_callback_ ++ [power] }

/-- The constructor.  `now` is the reading of the external clock `millis()`;
`power` is the indeterminate value the member `power_`, which has no
initialiser, holds until `initialize` runs.  The three arguments are
`uint16_t`. -/
def create (now : Nat) (power : ℚ) (power_stable_time_seconds stable_power_timeout_seconds
    max_power_in_off_state : Nat) : PowerTracker where
  power_ := power
  power_time_ := now % ULONG_SIZE
  power_stable_time_ := power_stable_time_seconds % 2 ^ 16 * 1000
  stable_power_timeout_ := stable_power_timeout_seconds % 2 ^ 16 * 1000
  initialized_ := false
  max_power_in_off_state_ := max_power_in_off_state % 2 ^ 16
  power_state_ := .UNKNOWN
  power_callback_ := []
  increase_count_ := 0
  increase_value_ := 0
  decrease_count_ := 0
  decrease_value_ := 0
  stable_power_ := 0

def is_initialized (t : PowerTracker) : Bool := t.initialized_

def reset (t : PowerTracker) : PowerTracker := { t with initialized_ := false }

/-- The private `set_stable_power_`; `now` is the reading of `millis()`. -/
def set_stable_power_ (now : Nat) (power : ℚ) (t : PowerTracker) : PowerTracker :=
  { t with
    power_state_ := .STABLE
    power_time_ := now % ULONG_SIZE
    stable_power_ := power
    power_ := power
    increase_count_ := 0
    increase_value_ := 0
    decrease_count_ := 0
    decrease_value_ := 0 }

/-- The member `initialize`; `now` is the reading of `millis()`. -/
def initialize_ (now : Nat) (power : ℚ) (t : PowerTracker) : PowerTracker :=
  set_stable_power_ now power { t with initialized_ := true }

def is_power_unknown (t : PowerTracker) : Bool := decide (t.power_state_ = .UNKNOWN)

def is_power_stable (t : PowerTracker) : Bool := decide (t.power_state_ = .STABLE)

def power_on (t : PowerTracker) : Bool :=
  if t.power_ > (t.max_power_in_off_state_ : ℚ) then true else false

/-- The difference `millis() - power_time_` of two `unsigned long`. -/
def change_time (now : Nat) (t : PowerTracker) : Nat :=
  (now % ULONG_SIZE + (ULONG_SIZE - t.power_time_ % ULONG_SIZE)) % ULONG_SIZE

/-- The branch of `set_power` for a sample that differs from `power_`.  The
differences, sums and products are exact here, while the source computes them
in 32-bit `float`, rounding each result to nearest.  A comparison made here
therefore agrees with the source wherever rounding cannot change its outcome;
for the step test `power - stable_power_ > 100` that is wherever the exact
difference is at most 100 or above 100 + 2^-18, half a unit in the last place
of 100 (a difference in between is rounded to 100 by the source). -/
def track (now : Nat) (power : ℚ) (t : PowerTracker) : PowerTracker :=
  let t :=
    if power > t.power_ then
      { t with
        power_state_ := .UP
        increase_count_ := (t.increase_count_ + 1) % ULONG_SIZE
        increase_value_ := t.increase_value_ + (power - t.power_) }
    else
      { t with
        power_state_ := .DOWN
        decrease_count_ := (t.decrease_count_ + 1) % ULONG_SIZE
        decrease_value_ := t.decrease_value_ + (t.power_ - power) }
  if power - t.stable_power_ > 100 then (set_stable_power_ now power t).call power
  else
    let total_power_change : ℚ :=
      |(t.increase_count_ : ℚ) * t.increase_value_ - (t.decrease_count_ : ℚ) * t.decrease_value_|
    let changes_count := (t.increase_count_ + t.decrease_count_) % ULONG_SIZE
    if changes_count > 4
        ∧ (total_power_change = 0 ∨ total_power_change = |t.stable_power_ - power|) then
      (set_stable_power_ now power t).call power
    else if t.increase_count_ > 6 then (set_stable_power_ now power t).call power
    else { t with power_ := power, power_time_ := now % ULONG_SIZE }

/-- The member `set_power`.  `now` is the reading of the external clock
`millis()`, taken as one reading for the whole call. -/
def set_power (now : Nat) (power : Sample) (t : PowerTracker) : PowerTracker :=
  if t.initialized_ = false then t
  else
    match power with
    | .nan => t
    | .num power =>
      if t.power_ ≠ power then track now power t
      else
        let change_time := change_time now t
        if t.power_state_ = .STABLE then
          if change_time ≥ t.stable_power_timeout_ then
            ({ t with power_time_ := now % ULONG_SIZE }).call power
          else t
        else if change_time ≥ t.power_stable_time_ then
          (set_stable_power_ now power t).call power
        else t

/-- Feeds the same sample once per clock reading of the list, in order. -/
def feed (power : Sample) : List Nat → PowerTracker → PowerTracker
  | [], t => t
  | now :: rest, t => feed power rest (set_power now power t)

/-- A tracker seeded with 400 at time 0: stable at 400, off-limit 20. -/
def stable_400 : PowerTracker := initialize_ 0 400 (create 0 0 60 300 20)

/-- A tracker seeded with 5 at time 0 that then saw 7 at time 1000: not
stable, last recorded value 7. -/
def rising_7 : PowerTracker := set_power 1000 (.num 7) (initialize_ 0 5 (create 0 0 60 300 20))

/-! ### Sequences of calls -/

/-- One call of a public mutator of `PowerTracker`, with its arguments and
the clock reading at the call. -/
inductive Op where
  | set_power (now : Nat) (power : Sample)
  | initialize_ (now : Nat) (power : ℚ)
  | reset

/-- Runs one call. -/
def Op.run : Op → PowerTracker → PowerTracker
  | .set_power now power, t => Tracker.set_power now power t
  | .initialize_ now power, t => Tracker.initialize_ now power t
  | .reset, t => Tracker.reset t

/-- Runs a sequence of calls, first to last. -/
def run_ops : List Op → PowerTracker → PowerTracker
  | [], t => t
  | op :: ops, t => run_ops ops (op.run t)

/-- A Stable tracker holds its stable value as last recorded value and has
zeroed run counters. -/
def StableSettled (t : PowerTracker) : Prop :=
  t.power_state_ = .STABLE →
    t.power_ = t.stable_power_ ∧ t.increase_count_ = 0 ∧ t.increase_value_ = 0
      ∧ t.decrease_count_ = 0 ∧ t.decrease_value_ = 0

/-- The accumulated deltas account for the distance between the last recorded
value and the stable value, and neither is negative. -/
def Accumulated (t : PowerTracker) : Prop :=
  t.increase_value_ - t.decrease_value_ = t.power_ - t.stable_power_
    ∧ 0 ≤ t.increase_value_ ∧ 0 ≤ t.decrease_value_

/-- The state after `set_power` stabilised on the sample p, starting from t:
the callback fired once with p, the tracker is Stable at p and the run
counters are zero. -/
def Settled (p : ℚ) (t x : PowerTracker) : Prop :=
  x.power_callback_ = t.power_callback_ ++ [p] ∧ x.power_state_ = .STABLE
    ∧ x.stable_power_ = p ∧ x.power_ = p ∧ x.increase_count_ = 0 ∧ x.increase_value_ = 0
    ∧ x.decrease_count_ = 0 ∧ x.decrease_value_ = 0 ∧ x.initialized_ = t.initialized_

/-- The first step of `set_power` on a sample that differs from `power_`:
the classification and the rising or falling counter and delta. -/
def count_change (power : ℚ) (t : PowerTracker) : PowerTracker :=
  if power > t.power_ then
    { t with
      power_state_ := .UP
      increase_count_ := (t.increase_count_ + 1) % ULONG_SIZE
      increase_value_ := t.increase_value_ + (power - t.power_) }
  else
    { t with
      power_state_ := .DOWN
      decrease_count_ := (t.decrease_count_ + 1) % ULONG_SIZE
      decrease_value_ := t.decrease_value_ + (t.power_ - power) }

/-- The tracker `stable_400` after six samples that rise by 1 each. -/
def rising_run_6 : PowerTracker :=
  run_ops [.set_power 1 (.num 401), .set_power 2 (.num 402), .set_power 3 (.num 403),
    .set_power 4 (.num 404), .set_power 5 (.num 405), .set_power 6 (.num 406)] stable_400

end Tracker

namespace Climate

/-- The JSON message that `publish_state_` builds for the info topic. -/
structure StateMessage where
  hvac : String
  fm : String
  t : Nat
  sm : String
  sleep : Bool
  sleep_al : Bool
  set_temp_al : Bool
  prev_fan_mode : String
  mode : String
  fan_modes_al : List String
  deriving DecidableEq

/-- The fields of the class `DaikinClimateComponent` that the handlers read or
write.  The MQTT client and the infrared transmitter are external; they are
represented by their histories: `published_` holds the messages handed to
`publish_json` for the info topic and `sent_` the frames handed to the
transmitter, oldest first. -/
structure DaikinClimateComponent where
  ir_climate_ : Daikin.IRDaikin
  power_ : Tracker.Sample
  prev_resend_state_ : Bool
  discovery_topic_sended_ : Bool
  init_state_from_retain_message_ : Bool
  initialized_ : Bool
  setup_initialized_ : Bool
  initialize_started_at_ : Nat
  power_tracker_ : Tracker.PowerTracker
  published_ : List StateMessage
  sent_ : List Daikin.IRDaikin64
  deriving DecidableEq

/-- The message built by the lambda of `publish_state_`. -/
def state_message (s : Daikin.IRDaikin) : StateMessage where
  hvac := Daikin.get_hvac_mode_str s
  fm := Daikin.get_fan_str s
  t := Daikin.get_temp s
  sm := Daikin.get_swing_mode_str s
  sleep := Daikin.get_sleep s
  sleep_al := Daikin.sleep_allowed s
  set_temp_al := Daikin.set_temp_allowed s
  prev_fan_mode := Daikin.get_prev_fan_str s
  mode := Daikin.get_mode_str s
  fan_modes_al :=
    (Daikin.fan_modes.filter (fun fan_mode => Daikin.is_fan_mode_supported fan_mode s)).map
      Daikin.fan_mode_to_str

/-- The private `publish_state_`: hands the state message to the MQTT client.
Whether the client accepted it (the returned boolean) is decided outside the
model and is not used by the handlers below. -/
def publish_state_ (c : DaikinClimateComponent) : DaikinClimateComponent :=
  { c with published_ := c.published_ ++ [state_message c.ir_climate_] }

/-- The call `ir_climate_->send()`. -/
def send (c : DaikinClimateComponent) : DaikinClimateComponent :=
  { c with
    ir_climate_ := (Daikin.send c.ir_climate_).2
    sent_ := c.sent_ ++ [(Daikin.send c.ir_climate_).1] }

/-- The private `power_stable_callback_`; `power` is only logged. -/
def power_stable_callback_ (_power : ℚ) (c : DaikinClimateComponent) : DaikinClimateComponent :=
  let hvac_mode := Daikin.get_hvac_mode c.ir_climate_
  let sensor_power_on := Tracker.power_on c.power_tracker_
  let current_power_on := decide (hvac_mode ≠ .MODE_OFF)
  if sensor_power_on = current_power_on then c
  else if sensor_power_on = false ∧ current_power_on = true then
    publish_state_ { c with ir_climate_ := Daikin.set_power_state false c.ir_climate_ }
  else if sensor_power_on = true ∧ current_power_on = false then
    publish_state_ { c with ir_climate_ := Daikin.set_power_state true c.ir_climate_ }
  else c

/-- The handler that `setup` subscribes to `mode_command_topic_`. -/
def mode_command_topic_callback (payload : String) (c : DaikinClimateComponent) :
    DaikinClimateComponent :=
  let c := { c with power_tracker_ := Tracker.reset c.power_tracker_ }
  let c := { c with ir_climate_ := Daikin.set_hvac_mode_str payload c.ir_climate_ }
  let c := send c
  publish_state_ c

/-- The handler that `setup` subscribes to `fan_mode_command_topic_`: it
transmits only when `set_fan` accepted the payload. -/
def fan_mode_command_topic_callback (payload : String) (c : DaikinClimateComponent) :
    DaikinClimateComponent :=
  let r := Daikin.set_fan_str payload c.ir_climate_
  let c := { c with ir_climate_ := r.2 }
  let c := if r.1 = true then send c else c
  publish_state_ c

/-- A component whose model is `cool_20` and whose tracker is `stable_400`,
set up and initialized, with nothing published or sent yet. -/
def running : DaikinClimateComponent :=
  ⟨Daikin.cool_20, .num 400, false, true, false, true, true, 0, Tracker.stable_400, [], []⟩

/-- The component `running` with a model that is believed off. -/
def running_off : DaikinClimateComponent :=
  ⟨Daikin.cool_20_off, .num 400, false, true, false, true, true, 0, Tracker.stable_400, [],
    []⟩

end Climate

/-! ## Theorems -/

namespace Dahatsu

/-! ### Fuel: the embedded functions compute their closed forms -/

theorem ite_some {α : Type} (c : Prop) [Decidable c] (a b : α) :
    (if c then some a else some b) = some (if c then a else b) := by
  split <;> rfl

@[simp] theorem ac_ac_ (s : IRDahatsu) (f : IRTcl112Ac → IRTcl112Ac) :
    (s.ac f).ac_ = f s.ac_ := rfl

@[simp] theorem ac_state_ (s : IRDahatsu) (f : IRTcl112Ac → IRTcl112Ac) :
    (s.ac f).state_ = s.state_ := rfl

@[simp] theorem ac_health_enabled_ (s : IRDahatsu) (f : IRTcl112Ac → IRTcl112Ac) :
    (s.ac f).health_enabled_ = s.health_enabled_ := rfl

@[simp] theorem ac_light_enabled_ (s : IRDahatsu) (f : IRTcl112Ac → IRTcl112Ac) :
    (s.ac f).light_enabled_ = s.light_enabled_ := rfl

@[simp] theorem ac_turbo_enabled_ (s : IRDahatsu) (f : IRTcl112Ac → IRTcl112Ac) :
    (s.ac f).turbo_enabled_ = s.turbo_enabled_ := rfl

@[simp] theorem ac_eco_enabled_ (s : IRDahatsu) (f : IRTcl112Ac → IRTcl112Ac) :
    (s.ac f).eco_enabled_ = s.eco_enabled_ := rfl

@[simp] theorem ac_set_temp_enabled_ (s : IRDahatsu) (f : IRTcl112Ac → IRTcl112Ac) :
    (s.ac f).set_temp_enabled_ = s.set_temp_enabled_ := rfl

theorem change_temp_callback_off (n : Nat) (o t : ℚ) (s : IRDahatsu)
    (h : s.ac_.turbo = false) : change_temp_callback_ (n + 1) o t s = some s := by
  simp [change_temp_callback_, get_turbo, h]

theorem change_fan_callback_off (n : Nat) (o f : FAN_MODE) (s : IRDahatsu)
    (h : s.ac_.turbo = false) : change_fan_callback_ (n + 1) o f s = some s := by
  simp [change_fan_callback_, get_turbo, h]

theorem set_temp_off (n : Nat) (t : ℚ) (s : IRDahatsu) (h : s.ac_.turbo = false) :
    set_temp (n + 2) t s
      = some (if t < temp_min ∨ t > temp_max then (false, s) else store_temp t s) := by
  rw [set_temp, change_temp_callback_off n _ _ s h]
  by_cases hr : t < temp_min ∨ t > temp_max
  · simp [hr]
  · cases he : s.set_temp_enabled_ <;> simp [hr, store_temp, he]

theorem set_fan_off (n : Nat) (f : FAN_MODE) (s : IRDahatsu) (h : s.ac_.turbo = false) :
    set_fan (n + 2) f s
      = some (if is_fan_mode_supported f s = false then (false, s) else store_fan f s) := by
  by_cases hs : is_fan_mode_supported f s = false
  · cases f <;> simp [set_fan, hs]
  · cases f <;> simp [set_fan, hs, change_fan_callback_off n _ _ s h, store_fan, fan_code]

theorem store_temp_turbo (t : ℚ) (s : IRDahatsu) :
    (store_temp t s).2.ac_.turbo = s.ac_.turbo := rfl

theorem store_fan_turbo (f : FAN_MODE) (s : IRDahatsu) :
    (store_fan f s).2.ac_.turbo = s.ac_.turbo := rfl

theorem apply_state_off (n : Nat) (s : IRDahatsu) (h : s.ac_.turbo = false) :
    apply_state_ (n + 3) s = some (restore s) := by
  rw [apply_state_, restore]
  cases hst : s.state_ with
  | none => rfl
  | some st =>
    simp only [set_temp_off n _ s h, Option.bind_eq_bind, Option.some_bind]
    by_cases hr : st.temp < temp_min ∨ st.temp > temp_max
    · simp only [hr, if_true, set_fan_off n _ s h]
      split <;> rfl
    · simp only [hr, if_false]
      rw [set_fan_off n _ _ (by rw [store_temp_turbo]; exact h)]
      split <;> rfl

theorem set_turbo__false (n : Nat) (s : IRDahatsu) :
    set_turbo_ (n + 4) false s = some (true, turbo_off_ s) := by
  rw [set_turbo_, turbo_off_]
  cases ht : s.ac_.turbo
  · simp [get_turbo, ht]
  · simp [get_turbo, ht, apply_state_off n _ (show (s.ac (IRTcl112Ac.setTurbo false)).ac_.turbo
      = false from rfl)]

theorem set_turbo_false (n : Nat) (s : IRDahatsu) :
    set_turbo (n + 5) false s = some (turbo_off s) := by
  rw [set_turbo, turbo_off, set_turbo__false]
  cases s.turbo_enabled_ <;> simp

theorem change_temp_callback_eq (n : Nat) (o t : ℚ) (s : IRDahatsu) :
    change_temp_callback_ (n + 6) o t s = some (temp_callback o t s) := by
  rw [change_temp_callback_, temp_callback, set_turbo_false]
  by_cases h1 : o = t
  · simp [h1]
  · by_cases h2 : get_turbo s = false
    · simp [h1, h2]
    · by_cases h3 : get_mode s = .MODE_COOL ∨ get_mode s = .MODE_HEAT <;> simp [h1, h2, h3]

theorem change_fan_callback_eq (n : Nat) (o f : FAN_MODE) (s : IRDahatsu) :
    change_fan_callback_ (n + 6) o f s = some (fan_callback o f s) := by
  rw [change_fan_callback_, fan_callback, set_turbo_false]
  by_cases h1 : o = f
  · simp [h1]
  · by_cases h2 : get_turbo s = false
    · simp [h1, h2]
    · by_cases h3 : get_mode s = .MODE_COOL ∨ get_mode s = .MODE_HEAT ∨ get_mode s = .MODE_FAN
        ∨ get_mode s = .MODE_DRY <;> simp [h1, h2, h3]

theorem set_temp_eq (n : Nat) (t : ℚ) (s : IRDahatsu) :
    set_temp (n + 7) t s = some (set_temp_result t s) := by
  rw [set_temp, set_temp_result, change_temp_callback_eq]
  by_cases hr : t < temp_min ∨ t > temp_max
  · simp [hr]
  · cases he : (temp_callback (get_temp s) t s).set_temp_enabled_ <;>
      simp [hr, store_temp, he]

theorem set_fan_eq (n : Nat) (f : FAN_MODE) (s : IRDahatsu) :
    set_fan (n + 7) f s = some (set_fan_result f s) := by
  by_cases hs : is_fan_mode_supported f s = false
  · cases f <;> simp [set_fan, set_fan_result, hs]
  · cases f <;>
      simp [set_fan, set_fan_result, hs, change_fan_callback_eq, store_fan, fan_code]

theorem set_eco_eq (n : Nat) (on_ : Bool) (s : IRDahatsu) :
    set_eco (n + 6) on_ s = some (set_eco_result on_ s) := by
  rw [set_eco, set_eco_result, set_turbo_false]
  by_cases h1 : s.eco_enabled_ = false
  · simp [h1]
  · by_cases h2 : get_eco s = on_
    · simp [h1, h2]
    · cases on_ <;> simp [h1, h2]

theorem set_turbo__eq (n : Nat) (on_ : Bool) (s : IRDahatsu) :
    set_turbo_ (n + 8) on_ s = some (set_turbo__result on_ s) := by
  rw [set_turbo__result]
  by_cases h1 : on_ = get_turbo s
  · simp [set_turbo_, h1]
  · cases on_
    · have h := set_turbo__false (n + 4) s
      rw [h]; simp [h1]
    · rw [set_turbo_]
      simp only [h1, if_false, Bool.true_eq_false, set_eco_eq, set_temp_eq, set_fan_eq,
        Option.bind_eq_bind, Option.some_bind, turbo_on_]
      split <;> simp_all

theorem set_turbo_eq (n : Nat) (on_ : Bool) (s : IRDahatsu) :
    set_turbo (n + 9) on_ s = some (set_turbo_result on_ s) := by
  rw [set_turbo, set_turbo_result, set_turbo__eq]
  cases s.turbo_enabled_ <;> simp

theorem set_constraints_eq (n : Nat) (he li tu ec st : Bool) (df : FAN_MODE) (s : IRDahatsu) :
    set_constraints (n + 7) he li tu ec st df s
      = some (set_constraints_result he li tu ec st df s) := by
  have h4 : ∀ x : IRDahatsu, set_turbo_ (n + 7) false x = some (true, turbo_off_ x) :=
    fun x => set_turbo__false (n + 3) x
  cases ht : s.ac_.turbo <;>
    simp only [set_constraints, set_constraints_result, h4, set_fan_eq, Option.bind_eq_bind,
      Option.map_some', ite_some, Option.some_bind, ht, if_true, if_false, Bool.false_eq_true]

theorem set_mode_eq (n : Nat) (m : AC_MODE) (s : IRDahatsu) :
    set_mode (n + 7) m s = some (set_mode_result m s) := by
  have h5 : ∀ x : IRDahatsu, set_turbo (n + 7) false x = some (turbo_off x) :=
    fun x => set_turbo_false (n + 2) x
  cases m <;> simp [set_mode, set_mode_result, h5, set_constraints_eq]

theorem set_temp_ge {n : Nat} (h : 7 ≤ n) (t : ℚ) (s : IRDahatsu) :
    set_temp n t s = some (set_temp_result t s) := by
  obtain ⟨k, rfl⟩ := Nat.exists_eq_add_of_le' h
  exact set_temp_eq k t s

theorem set_fan_ge {n : Nat} (h : 7 ≤ n) (f : FAN_MODE) (s : IRDahatsu) :
    set_fan n f s = some (set_fan_result f s) := by
  obtain ⟨k, rfl⟩ := Nat.exists_eq_add_of_le' h
  exact set_fan_eq k f s

theorem set_eco_ge {n : Nat} (h : 6 ≤ n) (on_ : Bool) (s : IRDahatsu) :
    set_eco n on_ s = some (set_eco_result on_ s) := by
  obtain ⟨k, rfl⟩ := Nat.exists_eq_add_of_le' h
  exact set_eco_eq k on_ s

theorem set_turbo_ge {n : Nat} (h : 9 ≤ n) (on_ : Bool) (s : IRDahatsu) :
    set_turbo n on_ s = some (set_turbo_result on_ s) := by
  obtain ⟨k, rfl⟩ := Nat.exists_eq_add_of_le' h
  exact set_turbo_eq k on_ s

theorem set_mode_ge {n : Nat} (h : 7 ≤ n) (m : AC_MODE) (s : IRDahatsu) :
    set_mode n m s = some (set_mode_result m s) := by
  obtain ⟨k, rfl⟩ := Nat.exists_eq_add_of_le' h
  exact set_mode_eq k m s


theorem get_mode_heat_iff (s : IRDahatsu) : get_mode s = .MODE_HEAT ↔ s.ac_.mode = 1 := by
  simp only [get_mode]; constructor
  · intro h; split_ifs at h; simp_all
  · intro h; simp [h]

theorem get_mode_dry_iff (s : IRDahatsu) : get_mode s = .MODE_DRY ↔ s.ac_.mode = 2 := by
  simp only [get_mode]; constructor
  · intro h; split_ifs at h; simp_all
  · intro h; simp [h]

theorem get_mode_cool_iff (s : IRDahatsu) : get_mode s = .MODE_COOL ↔ s.ac_.mode = 3 := by
  simp only [get_mode]; constructor
  · intro h; split_ifs at h; simp_all
  · intro h; simp [h]

theorem get_mode_fan_iff (s : IRDahatsu) : get_mode s = .MODE_FAN ↔ s.ac_.mode = 7 := by
  simp only [get_mode]; constructor
  · intro h; split_ifs at h; simp_all
  · intro h; simp [h]

theorem get_mode_auto_iff (s : IRDahatsu) : get_mode s = .MODE_AUTO ↔ s.ac_.mode = 8 := by
  simp only [get_mode]; constructor
  · intro h; split_ifs at h; simp_all
  · intro h; simp [h]

theorem get_fan_eq (s : IRDahatsu) : get_fan s = fan_of_code s.ac_.fan := rfl

theorem is_fan_mode_supported_eq (f : FAN_MODE) (s : IRDahatsu) :
    is_fan_mode_supported f s = fan_allowed s.ac_.mode f := rfl

theorem save_state__eq (s : IRDahatsu) :
    save_state_ s = { s with state_ := some ⟨get_temp s, get_fan s, get_swing_mode s⟩ } := by
  unfold save_state_; cases s.state_ <;> rfl

theorem fan_of_code_cases (x : Nat) :
    fan_of_code x = .FAN_AUTO ∨ fan_of_code x = .FAN_LOW ∨ fan_of_code x = .FAN_MEDIUM
      ∨ fan_of_code x = .FAN_HIGH := by
  unfold fan_of_code; split_ifs <;> simp

theorem fan_of_code_fan_code (x : Nat) :
    fan_of_code (fan_code (fan_of_code x)) = fan_of_code x := by
  rcases fan_of_code_cases x with h | h | h | h <;> rw [h] <;> rfl

theorem fan_of_code_fan_code_of_ne (f : FAN_MODE) (h : f ≠ .FAN_UNDEFINED) :
    fan_of_code (fan_code f) = f := by
  cases f <;> first | rfl | exact absurd rfl h

theorem fan_of_code_ne_undefined (x : Nat) : fan_of_code x ≠ .FAN_UNDEFINED := by
  rcases fan_of_code_cases x with h | h | h | h <;> rw [h] <;> simp

theorem set_swing_mode_eq (m : SWING_MODE) (s : IRDahatsu) :
    set_swing_mode m s = s.ac (IRTcl112Ac.setSwingHorizontal (decide (m = .SWING_HORIZONTAL))) := by
  cases m <;> rfl

theorem get_swing_mode_set_swing_mode (m : SWING_MODE) (s : IRDahatsu) :
    get_swing_mode (set_swing_mode m s) = m := by
  cases m <;> rfl

theorem set_eco_result_false (s : IRDahatsu) :
    (set_eco_result false s).2
      = s.ac (IRTcl112Ac.setEcono (s.ac_.econo && !s.eco_enabled_)) := by
  obtain ⟨⟨_, _, _, _, _, _, econo, _, _⟩, _, _, _, _, ec, _⟩ := s
  cases ec <;> cases econo <;> rfl

theorem temp_max_not_lt_temp_min : ¬ temp_max < temp_min := by
  norm_num [temp_min, temp_max]

theorem Frame.refl (s : IRDahatsu) : Frame s s := by
  simp [Frame]

theorem Frame.trans {a b c : IRDahatsu} (h1 : Frame a b) (h2 : Frame b c) : Frame a c := by
  obtain ⟨a1, a2, a3, a4, a5, a6, a7, a8, a9, a10, a11, a12⟩ := h1
  obtain ⟨b1, b2, b3, b4, b5, b6, b7, b8, b9, b10, b11, b12⟩ := h2
  exact ⟨b1.trans a1, b2.trans a2, b3.trans a3, b4.trans a4, b5.trans a5, b6.trans a6,
    b7.trans a7, b8.trans a8, b9.trans a9, b10.trans a10, b11.trans a11, fun h => a12 (b12 h)⟩

theorem Frame_store_temp (t : ℚ) (s : IRDahatsu) : Frame s (store_temp t s).2 := by
  simp [Frame, store_temp, IRDahatsu.ac, IRTcl112Ac.setTemp]

theorem Frame_store_fan (f : FAN_MODE) (s : IRDahatsu) : Frame s (store_fan f s).2 := by
  simp [Frame, store_fan, IRDahatsu.ac, IRTcl112Ac.setFan]

theorem Frame_set_swing_mode (m : SWING_MODE) (s : IRDahatsu) : Frame s (set_swing_mode m s) := by
  simp [Frame, set_swing_mode_eq, IRDahatsu.ac, IRTcl112Ac.setSwingHorizontal]

theorem Frame_setTurbo_false (s : IRDahatsu) : Frame s (s.ac (IRTcl112Ac.setTurbo false)) := by
  simp [Frame, IRDahatsu.ac, IRTcl112Ac.setTurbo]

theorem Frame_restore (s : IRDahatsu) : Frame s (restore s) := by
  unfold restore
  split
  · exact Frame.refl s
  · rename_i st _
    have hA : Frame s (if st.temp < temp_min ∨ st.temp > temp_max then s
        else (store_temp st.temp s).2) := by
      split
      · exact Frame.refl s
      · exact Frame_store_temp _ _
    have hB : ∀ x : IRDahatsu, Frame x (if is_fan_mode_supported st.fan_mode x = false then x
        else (store_fan st.fan_mode x).2) := by
      intro x
      split
      · exact Frame.refl x
      · exact Frame_store_fan _ _
    exact Frame.trans (Frame.trans hA (hB _)) (Frame_set_swing_mode _ _)

theorem Frame_turbo_off_ (s : IRDahatsu) : Frame s (turbo_off_ s) := by
  unfold turbo_off_
  split
  · exact Frame.refl s
  · exact Frame.trans (Frame_setTurbo_false s) (Frame_restore _)

theorem Frame_turbo_off (s : IRDahatsu) : Frame s (turbo_off s).2 := by
  unfold turbo_off
  split
  · exact Frame.refl s
  · exact Frame_turbo_off_ s

theorem Frame_temp_callback (o t : ℚ) (s : IRDahatsu) : Frame s (temp_callback o t s) := by
  unfold temp_callback
  split_ifs
  · exact Frame.refl s
  · exact Frame.refl s
  · exact Frame_turbo_off s
  · exact Frame.refl s

theorem Frame_fan_callback (o f : FAN_MODE) (s : IRDahatsu) : Frame s (fan_callback o f s) := by
  unfold fan_callback
  split_ifs
  · exact Frame.refl s
  · exact Frame.refl s
  · exact Frame_turbo_off s
  · exact Frame.refl s

theorem Frame_set_temp_result (t : ℚ) (s : IRDahatsu) : Frame s (set_temp_result t s).2 := by
  unfold set_temp_result
  split
  · exact Frame.refl s
  · exact Frame.trans (Frame_temp_callback _ _ s) (Frame_store_temp _ _)

theorem Frame_set_fan_result (f : FAN_MODE) (s : IRDahatsu) : Frame s (set_fan_result f s).2 := by
  unfold set_fan_result
  split
  · exact Frame.refl s
  · exact Frame.trans (Frame_fan_callback _ _ s) (Frame_store_fan _ _)

theorem restore_turbo (s : IRDahatsu) : (restore s).ac_.turbo = s.ac_.turbo := by
  unfold restore
  split
  · rfl
  · simp only [set_swing_mode_eq, store_temp, store_fan]
    split_ifs <;> rfl

theorem turbo_off__turbo (s : IRDahatsu) : (turbo_off_ s).ac_.turbo = false := by
  unfold turbo_off_
  split
  · assumption
  · rw [restore_turbo]; rfl


@[simp] theorem turbo_off__state_ (s : IRDahatsu) :
    (turbo_off_ s).state_ = s.state_ := (Frame_turbo_off_ s).1

@[simp] theorem turbo_off__health_enabled_ (s : IRDahatsu) :
    (turbo_off_ s).health_enabled_ = s.health_enabled_ := (Frame_turbo_off_ s).2.1

@[simp] theorem turbo_off__light_enabled_ (s : IRDahatsu) :
    (turbo_off_ s).light_enabled_ = s.light_enabled_ := (Frame_turbo_off_ s).2.2.1

@[simp] theorem turbo_off__turbo_enabled_ (s : IRDahatsu) :
    (turbo_off_ s).turbo_enabled_ = s.turbo_enabled_ := (Frame_turbo_off_ s).2.2.2.1

@[simp] theorem turbo_off__eco_enabled_ (s : IRDahatsu) :
    (turbo_off_ s).eco_enabled_ = s.eco_enabled_ := (Frame_turbo_off_ s).2.2.2.2.1

@[simp] theorem turbo_off__set_temp_enabled_ (s : IRDahatsu) :
    (turbo_off_ s).set_temp_enabled_ = s.set_temp_enabled_ := (Frame_turbo_off_ s).2.2.2.2.2.1

@[simp] theorem turbo_off__mode (s : IRDahatsu) :
    (turbo_off_ s).ac_.mode = s.ac_.mode := (Frame_turbo_off_ s).2.2.2.2.2.2.1

@[simp] theorem turbo_off__power (s : IRDahatsu) :
    (turbo_off_ s).ac_.power = s.ac_.power := (Frame_turbo_off_ s).2.2.2.2.2.2.2.1

@[simp] theorem turbo_off__econo (s : IRDahatsu) :
    (turbo_off_ s).ac_.econo = s.ac_.econo := (Frame_turbo_off_ s).2.2.2.2.2.2.2.2.1

@[simp] theorem turbo_off__health (s : IRDahatsu) :
    (turbo_off_ s).ac_.health = s.ac_.health := (Frame_turbo_off_ s).2.2.2.2.2.2.2.2.2.1

@[simp] theorem turbo_off__light (s : IRDahatsu) :
    (turbo_off_ s).ac_.light = s.ac_.light := (Frame_turbo_off_ s).2.2.2.2.2.2.2.2.2.2.1

@[simp] theorem turbo_off_state_ (s : IRDahatsu) :
    (turbo_off s).2.state_ = s.state_ := (Frame_turbo_off s).1

@[simp] theorem turbo_off_health_enabled_ (s : IRDahatsu) :
    (turbo_off s).2.health_enabled_ = s.health_enabled_ := (Frame_turbo_off s).2.1

@[simp] theorem turbo_off_light_enabled_ (s : IRDahatsu) :
    (turbo_off s).2.light_enabled_ = s.light_enabled_ := (Frame_turbo_off s).2.2.1

@[simp] theorem turbo_off_turbo_enabled_ (s : IRDahatsu) :
    (turbo_off s).2.turbo_enabled_ = s.turbo_enabled_ := (Frame_turbo_off s).2.2.2.1

@[simp] theorem turbo_off_eco_enabled_ (s : IRDahatsu) :
    (turbo_off s).2.eco_enabled_ = s.eco_enabled_ := (Frame_turbo_off s).2.2.2.2.1

@[simp] theorem turbo_off_set_temp_enabled_ (s : IRDahatsu) :
    (turbo_off s).2.set_temp_enabled_ = s.set_temp_enabled_ := (Frame_turbo_off s).2.2.2.2.2.1

@[simp] theorem turbo_off_mode (s : IRDahatsu) :
    (turbo_off s).2.ac_.mode = s.ac_.mode := (Frame_turbo_off s).2.2.2.2.2.2.1

@[simp] theorem turbo_off_power (s : IRDahatsu) :
    (turbo_off s).2.ac_.power = s.ac_.power := (Frame_turbo_off s).2.2.2.2.2.2.2.1

@[simp] theorem turbo_off_econo (s : IRDahatsu) :
    (turbo_off s).2.ac_.econo = s.ac_.econo := (Frame_turbo_off s).2.2.2.2.2.2.2.2.1

@[simp] theorem turbo_off_health (s : IRDahatsu) :
    (turbo_off s).2.ac_.health = s.ac_.health := (Frame_turbo_off s).2.2.2.2.2.2.2.2.2.1

@[simp] theorem turbo_off_light (s : IRDahatsu) :
    (turbo_off s).2.ac_.light = s.ac_.light := (Frame_turbo_off s).2.2.2.2.2.2.2.2.2.2.1

@[simp] theorem set_temp_result_state_ (t : ℚ) (s : IRDahatsu) :
    (set_temp_result t s).2.state_ = s.state_ := (Frame_set_temp_result t s).1

@[simp] theorem set_temp_result_health_enabled_ (t : ℚ) (s : IRDahatsu) :
    (set_temp_result t s).2.health_enabled_ = s.health_enabled_ := (Frame_set_temp_result t s).2.1

@[simp] theorem set_temp_result_light_enabled_ (t : ℚ) (s : IRDahatsu) :
    (set_temp_result t s).2.light_enabled_ = s.light_enabled_ := (Frame_set_temp_result t s).2.2.1

@[simp] theorem set_temp_result_turbo_enabled_ (t : ℚ) (s : IRDahatsu) :
    (set_temp_result t s).2.turbo_enabled_ = s.turbo_enabled_ := (Frame_set_temp_result t s).2.2.2.1

@[simp] theorem set_temp_result_eco_enabled_ (t : ℚ) (s : IRDahatsu) :
    (set_temp_result t s).2.eco_enabled_ = s.eco_enabled_ := (Frame_set_temp_result t s).2.2.2.2.1

@[simp] theorem set_temp_result_set_temp_enabled_ (t : ℚ) (s : IRDahatsu) :
    (set_temp_result t s).2.set_temp_enabled_ = s.set_temp_enabled_ := (Frame_set_temp_result t s).2.2.2.2.2.1

@[simp] theorem set_temp_result_mode (t : ℚ) (s : IRDahatsu) :
    (set_temp_result t s).2.ac_.mode = s.ac_.mode := (Frame_set_temp_result t s).2.2.2.2.2.2.1

@[simp] theorem set_temp_result_power (t : ℚ) (s : IRDahatsu) :
    (set_temp_result t s).2.ac_.power = s.ac_.power := (Frame_set_temp_result t s).2.2.2.2.2.2.2.1

@[simp] theorem set_temp_result_econo (t : ℚ) (s : IRDahatsu) :
    (set_temp_result t s).2.ac_.econo = s.ac_.econo := (Frame_set_temp_result t s).2.2.2.2.2.2.2.2.1

@[simp] theorem set_temp_result_health (t : ℚ) (s : IRDahatsu) :
    (set_temp_result t s).2.ac_.health = s.ac_.health := (Frame_set_temp_result t s).2.2.2.2.2.2.2.2.2.1

@[simp] theorem set_temp_result_light (t : ℚ) (s : IRDahatsu) :
    (set_temp_result t s).2.ac_.light = s.ac_.light := (Frame_set_temp_result t s).2.2.2.2.2.2.2.2.2.2.1

@[simp] theorem set_fan_result_state_ (f : FAN_MODE) (s : IRDahatsu) :
    (set_fan_result f s).2.state_ = s.state_ := (Frame_set_fan_result f s).1

@[simp] theorem set_fan_result_health_enabled_ (f : FAN_MODE) (s : IRDahatsu) :
    (set_fan_result f s).2.health_enabled_ = s.health_enabled_ := (Frame_set_fan_result f s).2.1

@[simp] theorem set_fan_result_light_enabled_ (f : FAN_MODE) (s : IRDahatsu) :
    (set_fan_result f s).2.light_enabled_ = s.light_enabled_ := (Frame_set_fan_result f s).2.2.1

@[simp] theorem set_fan_result_turbo_enabled_ (f : FAN_MODE) (s : IRDahatsu) :
    (set_fan_result f s).2.turbo_enabled_ = s.turbo_enabled_ := (Frame_set_fan_result f s).2.2.2.1

@[simp] theorem set_fan_result_eco_enabled_ (f : FAN_MODE) (s : IRDahatsu) :
    (set_fan_result f s).2.eco_enabled_ = s.eco_enabled_ := (Frame_set_fan_result f s).2.2.2.2.1

@[simp] theorem set_fan_result_set_temp_enabled_ (f : FAN_MODE) (s : IRDahatsu) :
    (set_fan_result f s).2.set_temp_enabled_ = s.set_temp_enabled_ := (Frame_set_fan_result f s).2.2.2.2.2.1

@[simp] theorem set_fan_result_mode (f : FAN_MODE) (s : IRDahatsu) :
    (set_fan_result f s).2.ac_.mode = s.ac_.mode := (Frame_set_fan_result f s).2.2.2.2.2.2.1

@[simp] theorem set_fan_result_power (f : FAN_MODE) (s : IRDahatsu) :
    (set_fan_result f s).2.ac_.power = s.ac_.power := (Frame_set_fan_result f s).2.2.2.2.2.2.2.1

@[simp] theorem set_fan_result_econo (f : FAN_MODE) (s : IRDahatsu) :
    (set_fan_result f s).2.ac_.econo = s.ac_.econo := (Frame_set_fan_result f s).2.2.2.2.2.2.2.2.1

@[simp] theorem set_fan_result_health (f : FAN_MODE) (s : IRDahatsu) :
    (set_fan_result f s).2.ac_.health = s.ac_.health := (Frame_set_fan_result f s).2.2.2.2.2.2.2.2.2.1

@[simp] theorem set_fan_result_light (f : FAN_MODE) (s : IRDahatsu) :
    (set_fan_result f s).2.ac_.light = s.ac_.light := (Frame_set_fan_result f s).2.2.2.2.2.2.2.2.2.2.1

theorem set_fan_result_turbo (f : FAN_MODE) (s : IRDahatsu) (h : s.ac_.turbo = false) :
    (set_fan_result f s).2.ac_.turbo = false := by
  cases hx : (set_fan_result f s).2.ac_.turbo
  · rfl
  · rw [(Frame_set_fan_result f s).2.2.2.2.2.2.2.2.2.2.2 hx] at h
    exact absurd h (by simp)

theorem set_temp_result_turbo (t : ℚ) (s : IRDahatsu) (h : s.ac_.turbo = false) :
    (set_temp_result t s).2.ac_.turbo = false := by
  cases hx : (set_temp_result t s).2.ac_.turbo
  · rfl
  · rw [(Frame_set_temp_result t s).2.2.2.2.2.2.2.2.2.2.2 hx] at h
    exact absurd h (by simp)

theorem ite_setHealth (x : IRDahatsu) (allowed h : Bool) (hh : h = x.ac_.health) :
    (if allowed = false ∧ h = true then x.ac (IRTcl112Ac.setHealth false) else x)
      = x.ac (IRTcl112Ac.setHealth (h && allowed)) := by
  subst hh
  obtain ⟨⟨_, _, _, _, _, _, _, health, _⟩, _, _, _, _, _, _⟩ := x
  cases allowed <;> cases health <;> rfl

theorem ite_setLight (x : IRDahatsu) (allowed h : Bool) (hh : h = x.ac_.light) :
    (if allowed = false ∧ h = true then x.ac (IRTcl112Ac.setLight false) else x)
      = x.ac (IRTcl112Ac.setLight (h && allowed)) := by
  subst hh
  obtain ⟨⟨_, _, _, _, _, _, _, _, light⟩, _, _, _, _, _, _⟩ := x
  cases allowed <;> cases light <;> rfl

theorem ite_setEcono (x : IRDahatsu) (allowed h : Bool) (hh : h = x.ac_.econo) :
    (if allowed = false ∧ h = true then x.ac (IRTcl112Ac.setEcono false) else x)
      = x.ac (IRTcl112Ac.setEcono (h && allowed)) := by
  subst hh
  obtain ⟨⟨_, _, _, _, _, _, econo, _, _⟩, _, _, _, _, _, _⟩ := x
  cases allowed <;> cases econo <;> rfl

theorem ite_turbo_off_ (x : IRDahatsu) (t : Bool) (ht : t = x.ac_.turbo) :
    (if t = true then turbo_off_ x else x) = turbo_off_ x := by
  subst ht
  cases hx : x.ac_.turbo
  · simp [turbo_off_, get_turbo, hx]
  · simp

theorem set_constraints_result_eq (he li tu ec st : Bool) (df : FAN_MODE) (s : IRDahatsu) :
    set_constraints_result he li tu ec st df s
      = (if is_fan_mode_supported (get_fan (constraints_core he li tu ec st s))
            (constraints_core he li tu ec st s) = false
          then (set_fan_result df (constraints_core he li tu ec st s)).2
          else constraints_core he li tu ec st s) := by
  have e1 := ite_setHealth (IRDahatsu.mk s.ac_ s.state_ he li tu ec st) he s.ac_.health rfl
  have e2 := ite_setLight ((IRDahatsu.mk s.ac_ s.state_ he li tu ec st).ac
    (IRTcl112Ac.setHealth (s.ac_.health && he))) li s.ac_.light rfl
  have e3 := ite_turbo_off_ (((IRDahatsu.mk s.ac_ s.state_ he li tu ec st).ac
    (IRTcl112Ac.setHealth (s.ac_.health && he))).ac (IRTcl112Ac.setLight (s.ac_.light && li)))
    s.ac_.turbo rfl
  have e4 := ite_setEcono (turbo_off_ (((IRDahatsu.mk s.ac_ s.state_ he li tu ec st).ac
    (IRTcl112Ac.setHealth (s.ac_.health && he))).ac (IRTcl112Ac.setLight (s.ac_.light && li))))
    ec s.ac_.econo (by simp [IRDahatsu.ac, IRTcl112Ac.setLight, IRTcl112Ac.setHealth])
  unfold set_constraints_result constraints_core
  simp only []
  rw [e1, e2, e3, e4]

theorem set_constraints_result_spec (he li tu ec st : Bool) (df : FAN_MODE) (s : IRDahatsu) :
    (set_constraints_result he li tu ec st df s).health_enabled_ = he
      ∧ (set_constraints_result he li tu ec st df s).light_enabled_ = li
      ∧ (set_constraints_result he li tu ec st df s).turbo_enabled_ = tu
      ∧ (set_constraints_result he li tu ec st df s).eco_enabled_ = ec
      ∧ (set_constraints_result he li tu ec st df s).set_temp_enabled_ = st
      ∧ (set_constraints_result he li tu ec st df s).ac_.mode = s.ac_.mode
      ∧ (set_constraints_result he li tu ec st df s).state_ = s.state_
      ∧ (set_constraints_result he li tu ec st df s).ac_.turbo = false
      ∧ (set_constraints_result he li tu ec st df s).ac_.health = (s.ac_.health && he)
      ∧ (set_constraints_result he li tu ec st df s).ac_.light = (s.ac_.light && li)
      ∧ (set_constraints_result he li tu ec st df s).ac_.econo = (s.ac_.econo && ec) := by
  rw [set_constraints_result_eq]
  split_ifs <;>
    simp [constraints_core, IRDahatsu.ac, IRTcl112Ac.setHealth, IRTcl112Ac.setLight, IRTcl112Ac.setEcono,
      turbo_off__turbo, set_fan_result_turbo]


theorem turbo_on__turbo (s : IRDahatsu) : (turbo_on_ s).ac_.turbo = true := by
  unfold turbo_on_; rfl

theorem get_mode_congr {x y : IRDahatsu} (h : y.ac_.mode = x.ac_.mode) :
    get_mode y = get_mode x := by
  simp only [get_mode, h]

theorem set_constraints_result_mode (he li tu ec st : Bool) (df : FAN_MODE) (x : IRDahatsu)
    (m : AC_MODE) (hm : get_mode x = m) (hc : mode_constraints m = some (he, li, tu, ec, st))
    (hhe : he = true) (hli : li = true) :
    get_mode (set_constraints_result he li tu ec st df x) = m
      ∧ constraints_applied (set_constraints_result he li tu ec st df x)
      ∧ (set_constraints_result he li tu ec st df x).ac_.turbo = false
      ∧ ((set_constraints_result he li tu ec st df x).ac_.econo = true
          → (set_constraints_result he li tu ec st df x).eco_enabled_ = true)
      ∧ (set_constraints_result he li tu ec st df x).health_enabled_ = true
      ∧ (set_constraints_result he li tu ec st df x).light_enabled_ = true := by
  obtain ⟨h1, h2, h3, h4, h5, h6, _, h8, _, _, h11⟩ :=
    set_constraints_result_spec he li tu ec st df x
  have hg : get_mode (set_constraints_result he li tu ec st df x) = m := by
    rw [get_mode_congr h6, hm]
  refine ⟨hg, ?_, h8, ?_, h1.trans hhe, h2.trans hli⟩
  · unfold constraints_applied
    rw [hg, hc, h1, h2, h3, h4, h5]
  · rw [h11, h4]
    cases ec <;> simp

theorem set_mode_result_spec (m : AC_MODE) (s : IRDahatsu)
    (hm : m = .MODE_HEAT ∨ m = .MODE_DRY ∨ m = .MODE_COOL ∨ m = .MODE_FAN ∨ m = .MODE_AUTO) :
    get_mode (set_mode_result m s) = m
      ∧ constraints_applied (set_mode_result m s)
      ∧ (set_mode_result m s).ac_.turbo = false
      ∧ ((set_mode_result m s).ac_.econo = true → (set_mode_result m s).eco_enabled_ = true)
      ∧ (set_mode_result m s).health_enabled_ = true
      ∧ (set_mode_result m s).light_enabled_ = true := by
  rcases hm with h | h | h | h | h <;> subst h
  · exact set_constraints_result_mode _ _ _ _ _ _ _ _ rfl rfl rfl rfl
  · exact set_constraints_result_mode _ _ _ _ _ _ _ _ rfl rfl rfl rfl
  · exact set_constraints_result_mode _ _ _ _ _ _ _ _ rfl rfl rfl rfl
  · exact set_constraints_result_mode _ _ _ _ _ _ _ _ rfl rfl rfl rfl
  · exact set_constraints_result_mode _ _ _ _ _ _ _ _ rfl rfl rfl rfl


/-- In the four modes with a boost profile the constraints of the mode allow
turbo, so a state that `set_mode` left in one of them has `turbo_allowed`. -/
theorem constraints_applied_turbo_allowed (s : IRDahatsu)
    (hmode : get_mode s = .MODE_HEAT ∨ get_mode s = .MODE_DRY ∨ get_mode s = .MODE_COOL
      ∨ get_mode s = .MODE_FAN)
    (hcons : constraints_applied s) : turbo_allowed s = true := by
  unfold constraints_applied at hcons
  rcases hmode with h | h | h | h <;> rw [h] at hcons <;>
    simp only [mode_constraints, Option.some.injEq, Prod.mk.injEq] at hcons <;>
    exact hcons.2.2.1.symm

/-! ### Claims about `IRDahatsu` -/

/-- C1. Boost round trip: from a state with turbo off, in mode Heat, Dry, Cool
or Fan with that mode's constraints applied, a fan level legal for the mode
and a temperature in [16, 31], `set_turbo(true)` followed by `set_turbo(false)`
returns true both times and leaves `get_temp()`, `get_fan()` and
`get_swing_mode()` as they were before the first call (for any fuel of at
least 9, the depth of the deepest call chain). -/
theorem C1_boost_round_trip (n : Nat) (s : IRDahatsu) (hn : 9 ≤ n)
    (hoff : get_turbo s = false)
    (hmode : get_mode s = .MODE_HEAT ∨ get_mode s = .MODE_DRY ∨ get_mode s = .MODE_COOL
      ∨ get_mode s = .MODE_FAN)
    (hcons : constraints_applied s)
    (hfan : is_fan_mode_supported (get_fan s) s = true)
    (htemp : temp_min ≤ get_temp s ∧ get_temp s ≤ temp_max) :
    ∃ s1 s2, set_turbo n true s = some (true, s1) ∧ set_turbo n false s1 = some (true, s2)
      ∧ get_temp s2 = get_temp s ∧ get_fan s2 = get_fan s
      ∧ get_swing_mode s2 = get_swing_mode s := by
  simp only [set_turbo_ge hn]
  simp only [get_mode_heat_iff, get_mode_dry_iff, get_mode_cool_iff, get_mode_fan_iff] at hmode
  simp only [get_turbo] at hoff
  simp only [get_temp] at htemp
  have h1 : ¬ s.ac_.temp < temp_min := not_lt.mpr htemp.1
  have h2 : ¬ temp_max < s.ac_.temp := not_lt.mpr htemp.2
  simp only [is_fan_mode_supported_eq, get_fan_eq] at hfan
  have hne := fan_of_code_ne_undefined s.ac_.fan
  have hfan' : fan_allowed s.ac_.mode (fan_of_code s.ac_.fan) = true := hfan
  refine ⟨(set_turbo_result true s).2, (set_turbo_result false (set_turbo_result true s).2).2,
    ?_, ?_, ?_, ?_, ?_⟩
  all_goals
    rcases hmode with hm | hm | hm | hm <;>
    simp [constraints_applied, get_mode, mode_constraints, hm] at hcons <;>
    obtain ⟨e1, e2, e3, e4, e5⟩ := hcons <;>
    simp [fan_allowed, hm] at hfan' <;>
    simp [set_turbo_result, set_turbo__result, turbo_on_, turbo_off_, set_eco_result_false,
      set_temp_result, set_fan_result, temp_callback, fan_callback, store_temp, store_fan,
      restore, save_state__eq, set_swing_mode_eq, get_turbo, get_mode, get_temp, get_fan_eq, get_eco,
      get_swing_mode, is_fan_mode_supported_eq, IRDahatsu.ac, IRTcl112Ac.setTemp,
      IRTcl112Ac.setFan, IRTcl112Ac.setTurbo, IRTcl112Ac.setEcono,
      IRTcl112Ac.setSwingHorizontal, temp_max_not_lt_temp_min, h1, h2, hm, hoff, e3, e4,
      fan_of_code_fan_code, fan_of_code_fan_code_of_ne, hne, fan_allowed, *]

theorem C1_boost_round_trip_witness :
    ∃ s1 s2, set_turbo 9 true cool_low = some (true, s1)
      ∧ set_turbo 9 false s1 = some (true, s2)
      ∧ get_temp s2 = get_temp cool_low ∧ get_fan s2 = get_fan cool_low
      ∧ get_swing_mode s2 = get_swing_mode cool_low :=
  C1_boost_round_trip 9 cool_low (by decide) (by decide) (by decide) (by decide) (by decide)
    (by decide)

/-- C2. Boost activation in Cool: from mode Cool (where turbo is allowed, as
`set_mode` leaves it) with turbo off, fan Low and swing Off, at any
temperature t, `set_turbo(true)` returns true and afterwards the mode is still
Cool, turbo reads true, the fan is High, the swing is Horizontal, the
temperature is `temp_min` and the snapshot holds exactly t, Low, Off. -/
theorem C2_boost_activation_cool (n : Nat) (s : IRDahatsu) (hn : 9 ≤ n)
    (hmode : get_mode s = .MODE_COOL) (hallow : turbo_allowed s = true)
    (hoff : get_turbo s = false) (hfan : get_fan s = .FAN_LOW)
    (hswing : get_swing_mode s = .SWING_OFF) :
    ∃ s1, set_turbo n true s = some (true, s1)
      ∧ get_mode s1 = .MODE_COOL ∧ get_turbo s1 = true ∧ get_fan s1 = .FAN_HIGH
      ∧ get_swing_mode s1 = .SWING_HORIZONTAL ∧ get_temp s1 = temp_min
      ∧ get_prev_state s1 = some ⟨get_temp s, .FAN_LOW, .SWING_OFF⟩ := by
  simp only [set_turbo_ge hn]
  rw [get_mode_cool_iff] at hmode
  simp only [turbo_allowed] at hallow
  simp only [get_turbo] at hoff
  rw [get_fan_eq] at hfan
  refine ⟨(set_turbo_result true s).2, ?_, ?_, ?_, ?_, ?_, ?_, ?_⟩
  all_goals
    simp [set_turbo_result, set_turbo__result, turbo_on_, set_eco_result_false,
      set_temp_result, set_fan_result, temp_callback, fan_callback, store_temp, store_fan,
      save_state__eq, set_swing_mode_eq, get_turbo, get_mode, get_temp, get_fan_eq,
      get_swing_mode, get_prev_state, is_fan_mode_supported_eq, IRDahatsu.ac,
      IRTcl112Ac.setTemp, IRTcl112Ac.setFan, IRTcl112Ac.setTurbo, IRTcl112Ac.setEcono,
      IRTcl112Ac.setSwingHorizontal, temp_max_not_lt_temp_min, hmode, hoff, hallow, hfan,
      fan_of_code_fan_code_of_ne, fan_allowed] at hswing ⊢
  · exact hswing

theorem C2_boost_activation_cool_witness :
    ∃ s1, set_turbo 9 true cool_low = some (true, s1)
      ∧ get_mode s1 = .MODE_COOL ∧ get_turbo s1 = true ∧ get_fan s1 = .FAN_HIGH
      ∧ get_swing_mode s1 = .SWING_HORIZONTAL ∧ get_temp s1 = temp_min
      ∧ get_prev_state s1 = some ⟨get_temp cool_low, .FAN_LOW, .SWING_OFF⟩ :=
  C2_boost_activation_cool 9 cool_low (by decide) (by decide) (by decide) (by decide)
    (by decide) (by decide)

/-- C3, as the code does it: when `set_turbo(false)` deactivates an active
turbo that has a saved snapshot, the call returns true, turbo reads off and
the snapshot is applied but stays stored.  Applied means what `apply_state_`
does: the swing becomes the snapshot's; the temperature becomes the
snapshot's when that lies within the bounds and is left as it was otherwise;
the fan becomes the snapshot's when that is a named level the mode supports
and is left as it was when the mode does not support it.  Afterwards
`get_prev_state()` returns the same snapshot. -/
theorem C3_snapshot_kept (n : Nat) (s : IRDahatsu) (st : State) (hn : 9 ≤ n)
    (hon : get_turbo s = true) (hallow : turbo_allowed s = true)
    (hsnap : get_prev_state s = some st) :
    ∃ s1, set_turbo n false s = some (true, s1) ∧ get_turbo s1 = false
      ∧ get_prev_state s1 = some st
      ∧ get_swing_mode s1 = st.swing_mode
      ∧ (temp_min ≤ st.temp ∧ st.temp ≤ temp_max → get_temp s1 = st.temp)
      ∧ (¬ (temp_min ≤ st.temp ∧ st.temp ≤ temp_max) → get_temp s1 = get_temp s)
      ∧ (is_fan_mode_supported st.fan_mode s = true → st.fan_mode ≠ .FAN_UNDEFINED →
          get_fan s1 = st.fan_mode)
      ∧ (is_fan_mode_supported st.fan_mode s = false → get_fan s1 = get_fan s) := by
  simp only [turbo_allowed] at hallow
  have hst : (s.ac (IRTcl112Ac.setTurbo false)).state_ = some st := hsnap
  have hoff : turbo_off_ s = restore (s.ac (IRTcl112Ac.setTurbo false)) := by
    simp [turbo_off_, hon]
  refine ⟨turbo_off_ s, ?_, turbo_off__turbo s, ?_, ?_, ?_, ?_, ?_, ?_⟩
  · rw [set_turbo_ge hn]
    simp [set_turbo_result, set_turbo__result, hallow, hon]
  · simpa [get_prev_state] using hsnap
  · rw [hoff]
    unfold restore
    rw [hst]
    exact get_swing_mode_set_swing_mode _ _
  · intro hr
    have hr' : ¬ (st.temp < temp_min ∨ st.temp > temp_max) := by
      rintro (h | h)
      · exact absurd hr.1 (not_le.mpr h)
      · exact absurd hr.2 (not_le.mpr h)
    rw [hoff]
    unfold restore
    rw [hst]
    simp only [set_swing_mode_eq, store_temp, store_fan, get_temp, if_neg hr']
    split_ifs <;> rfl
  · intro hr
    have hr' : st.temp < temp_min ∨ st.temp > temp_max := by
      by_contra h
      push_neg at h
      exact hr ⟨h.1, h.2⟩
    rw [hoff]
    unfold restore
    rw [hst]
    simp only [set_swing_mode_eq, store_temp, store_fan, get_temp, if_pos hr']
    split_ifs <;> rfl
  · intro hf hne
    have hf' : fan_allowed s.ac_.mode st.fan_mode = true := hf
    rw [hoff]
    unfold restore
    rw [hst]
    simp only [set_swing_mode_eq, store_temp, store_fan, get_fan_eq, is_fan_mode_supported_eq]
    split_ifs <;>
      simp_all [IRDahatsu.ac, IRTcl112Ac.setTemp, IRTcl112Ac.setFan, IRTcl112Ac.setTurbo,
        IRTcl112Ac.setSwingHorizontal, fan_of_code_fan_code_of_ne]
  · intro hf
    have hf' : fan_allowed s.ac_.mode st.fan_mode = false := hf
    rw [hoff]
    unfold restore
    rw [hst]
    simp only [set_swing_mode_eq, store_temp, store_fan, get_fan_eq, is_fan_mode_supported_eq]
    split_ifs <;>
      simp_all [IRDahatsu.ac, IRTcl112Ac.setTemp, IRTcl112Ac.setFan, IRTcl112Ac.setTurbo,
        IRTcl112Ac.setSwingHorizontal]

theorem C3_snapshot_kept_witness :
    ∃ s1, set_turbo 9 false cool_boost = some (true, s1) ∧ get_turbo s1 = false
      ∧ get_prev_state s1 = some ⟨24, .FAN_LOW, .SWING_OFF⟩
      ∧ get_swing_mode s1 = .SWING_OFF ∧ get_temp s1 = 24 ∧ get_fan s1 = .FAN_LOW := by
  obtain ⟨s1, h1, h2, h3, h4, h5, _, h7, _⟩ :=
    C3_snapshot_kept 9 cool_boost ⟨24, .FAN_LOW, .SWING_OFF⟩ (by decide) (by decide)
      (by decide) (by decide)
  exact ⟨s1, h1, h2, h3, h4, h5 (by decide), h7 (by decide) (by decide)⟩

/-- C3 fails as stated: switching turbo off in `cool_boost`, which has turbo on
and holds a snapshot, succeeds and leaves the snapshot in place. -/
theorem C3_snapshot_not_cleared :
    get_turbo cool_boost = true ∧ get_prev_state cool_boost ≠ none
      ∧ set_turbo 9 false cool_boost = some (true, cool_restored)
      ∧ get_turbo cool_restored = false ∧ get_prev_state cool_restored ≠ none := by
  decide

/-- C4. After `set_mode(m)` for m in Heat, Dry, Cool, Fan, Auto, from any
state, every feature that reads enabled is allowed in m: health, light, eco
and turbo. -/
theorem C4_set_mode_features_allowed (n : Nat) (m : AC_MODE) (s : IRDahatsu) (hn : 9 ≤ n)
    (hm : m = .MODE_HEAT ∨ m = .MODE_DRY ∨ m = .MODE_COOL ∨ m = .MODE_FAN ∨ m = .MODE_AUTO) :
    ∃ s1, set_mode n m s = some s1
      ∧ (get_health s1 = true → health_allowed s1 = true)
      ∧ (get_light s1 = true → light_allowed s1 = true)
      ∧ (get_eco s1 = true → eco_allowed s1 = true)
      ∧ (get_turbo s1 = true → turbo_allowed s1 = true) := by
  obtain ⟨_, _, h3, h4, h5, h6⟩ := set_mode_result_spec m s hm
  refine ⟨set_mode_result m s, set_mode_ge (by omega) m s, fun _ => h5, fun _ => h6, h4, ?_⟩
  intro h
  simp only [get_turbo] at h
  rw [h3] at h
  exact absurd h (by simp)

theorem C4_set_mode_features_allowed_witness :
    ∃ s1, set_mode 9 .MODE_DRY cool_boost = some s1
      ∧ (get_health s1 = true → health_allowed s1 = true)
      ∧ (get_light s1 = true → light_allowed s1 = true)
      ∧ (get_eco s1 = true → eco_allowed s1 = true)
      ∧ (get_turbo s1 = true → turbo_allowed s1 = true) :=
  C4_set_mode_features_allowed 9 .MODE_DRY cool_boost (by decide) (by decide)


/-- C5, as the code does it: after `set_mode(Dry)` from any state, turbo and
eco both read false; turbo stays allowed in Dry, so a following
`set_turbo(true)` returns true and switches turbo on. -/
theorem C5_dry_turbo_available (n : Nat) (s : IRDahatsu) (hn : 9 ≤ n) :
    ∃ s1 s2, set_mode n .MODE_DRY s = some s1 ∧ get_turbo s1 = false ∧ get_eco s1 = false
      ∧ set_turbo n true s1 = some (true, s2) ∧ get_turbo s2 = true := by
  obtain ⟨_, h2, h3, h4, _, _⟩ :=
    set_mode_result_spec .MODE_DRY s (Or.inr (Or.inl rfl))
  have hd : get_mode (set_mode_result .MODE_DRY s) = .MODE_DRY :=
    (set_mode_result_spec .MODE_DRY s (Or.inr (Or.inl rfl))).1
  have hflags : (set_mode_result .MODE_DRY s).turbo_enabled_ = true
      ∧ (set_mode_result .MODE_DRY s).eco_enabled_ = false := by
    unfold constraints_applied at h2
    rw [hd] at h2
    simp only [mode_constraints, Option.some.injEq, Prod.mk.injEq] at h2
    exact ⟨h2.2.2.1.symm, h2.2.2.2.1.symm⟩
  have heco : (set_mode_result .MODE_DRY s).ac_.econo = false := by
    cases he : (set_mode_result .MODE_DRY s).ac_.econo
    · rfl
    · have := h4 he
      rw [hflags.2] at this
      exact absurd this (by simp)
  refine ⟨set_mode_result .MODE_DRY s, turbo_on_ (set_mode_result .MODE_DRY s),
    set_mode_ge (by omega) _ s, h3, heco, ?_, turbo_on__turbo _⟩
  rw [set_turbo_ge hn]
  simp [set_turbo_result, set_turbo__result, hflags.1, get_turbo, h3]

theorem C5_dry_turbo_available_witness :
    ∃ s1 s2, set_mode 9 .MODE_DRY cool_low = some s1 ∧ get_turbo s1 = false
      ∧ get_eco s1 = false ∧ set_turbo 9 true s1 = some (true, s2) ∧ get_turbo s2 = true :=
  C5_dry_turbo_available 9 cool_low (by decide)

/-- C5 fails as stated: `set_mode(Dry)` on `cool_low` gives `dry_auto`, and
`set_turbo(true)` there returns true and leaves turbo on. -/
theorem C5_dry_turbo_not_rejected :
    set_mode 9 .MODE_DRY cool_low = some dry_auto
      ∧ set_turbo 9 true dry_auto = some (true, dry_boost) ∧ get_turbo dry_boost = true := by
  decide

/-- C6. For every temperature below `temp_min` or above `temp_max` and every
state, `set_temp` returns false and leaves the whole state as it was. -/
theorem C6_set_temp_out_of_range (n : Nat) (t : ℚ) (s : IRDahatsu) (hn : 1 ≤ n)
    (ht : t < temp_min ∨ t > temp_max) : set_temp n t s = some (false, s) := by
  obtain ⟨k, rfl⟩ := Nat.exists_eq_add_of_le' hn
  rw [set_temp, if_pos ht]

theorem C6_set_temp_out_of_range_witness :
    set_temp 1 (31 + 1 / 2) cool_boost = some (false, cool_boost) :=
  C6_set_temp_out_of_range 1 (31 + 1 / 2) cool_boost (by decide)
    (Or.inr (by norm_num [temp_max]))

/-- C7, as the code does it: in every state `set_temp(temp_min)` and
`set_temp(temp_max)` return true exactly when the active mode allows setting
the temperature (`set_temp_allowed()`), and when it does, `get_temp()` reads
back that bound. -/
theorem C7_set_temp_bounds (n : Nat) (s : IRDahatsu) (hn : 9 ≤ n) :
    ∃ s1 s2, set_temp n temp_min s = some (set_temp_allowed s, s1)
      ∧ set_temp n temp_max s = some (set_temp_allowed s, s2)
      ∧ (set_temp_allowed s = true → get_temp s1 = temp_min ∧ get_temp s2 = temp_max) := by
  have h1 : ¬ (temp_min < temp_min ∨ temp_min > temp_max) := by norm_num [temp_min, temp_max]
  have h2 : ¬ (temp_max < temp_min ∨ temp_max > temp_max) := by norm_num [temp_min, temp_max]
  refine ⟨(set_temp_result temp_min s).2, (set_temp_result temp_max s).2, ?_, ?_, ?_⟩
  · rw [set_temp_ge (by omega)]
    simp only [set_temp_result, if_neg h1, store_temp, set_temp_allowed,
      (Frame_temp_callback _ _ s).2.2.2.2.2.1]
  · rw [set_temp_ge (by omega)]
    simp only [set_temp_result, if_neg h2, store_temp, set_temp_allowed,
      (Frame_temp_callback _ _ s).2.2.2.2.2.1]
  · intro _
    simp only [set_temp_result, if_neg h1, if_neg h2, store_temp, get_temp]
    exact ⟨rfl, rfl⟩

theorem C7_set_temp_bounds_witness :
    ∃ s1 s2, set_temp 9 temp_min cool_boost = some (set_temp_allowed cool_boost, s1)
      ∧ set_temp 9 temp_max cool_boost = some (set_temp_allowed cool_boost, s2)
      ∧ (set_temp_allowed cool_boost = true
          → get_temp s1 = temp_min ∧ get_temp s2 = temp_max) :=
  C7_set_temp_bounds 9 cool_boost (by decide)

/-- C7 fails as stated: in `dry_auto` (mode Dry, temperature not settable)
`set_temp(temp_min)` and `set_temp(temp_max)` return false. -/
theorem C7_set_temp_bounds_refused_in_dry :
    get_mode dry_auto = .MODE_DRY
      ∧ (set_temp 9 temp_min dry_auto).map Prod.fst = some false
      ∧ (set_temp 9 temp_max dry_auto).map Prod.fst = some false := by
  decide

/-- C9, as the code does it: a level for which `is_fan_mode_supported` is
false is rejected with the state unchanged, and for every level other than
`FAN_UNDEFINED` a `set_fan` that returns false has left the state unchanged. -/
theorem C9_set_fan_rejected_unchanged (n : Nat) (level : FAN_MODE) (s : IRDahatsu)
    (hn : 9 ≤ n) :
    (is_fan_mode_supported level s = false → set_fan n level s = some (false, s))
      ∧ (level ≠ .FAN_UNDEFINED →
          ∀ s1, set_fan n level s = some (false, s1) →
            s1 = s ∧ is_fan_mode_supported level s = false) := by
  rw [set_fan_ge (by omega)]
  constructor
  · intro h
    simp [set_fan_result, h]
  · intro hne s1 h
    by_cases hs : is_fan_mode_supported level s = false
    · simp only [set_fan_result, if_pos hs, Option.some.injEq, Prod.mk.injEq, true_and] at h
      exact ⟨h.symm, hs⟩
    · simp [set_fan_result, if_neg hs, store_fan, hne] at h

theorem C9_set_fan_rejected_unchanged_witness :
    (is_fan_mode_supported .FAN_AUTO fan_medium = false
        → set_fan 9 .FAN_AUTO fan_medium = some (false, fan_medium))
      ∧ (FAN_MODE.FAN_AUTO ≠ .FAN_UNDEFINED →
          ∀ s1, set_fan 9 .FAN_AUTO fan_medium = some (false, s1) →
            s1 = fan_medium ∧ is_fan_mode_supported .FAN_AUTO fan_medium = false) :=
  C9_set_fan_rejected_unchanged 9 .FAN_AUTO fan_medium (by decide)

/-- C9 fails as stated: `set_fan(FAN_UNDEFINED)` in `cool_low` returns false
after it has moved the fan from Low to Auto. -/
theorem C9_set_fan_undefined_changes_fan :
    set_fan 9 .FAN_UNDEFINED cool_low = some (false, cool_auto)
      ∧ get_fan cool_low = .FAN_LOW ∧ get_fan cool_auto = .FAN_AUTO := by
  decide

/-- C10, as the code does it: with turbo active (and allowed) in mode Cool,
Heat, Fan or Dry, every `set_fan(level)` that returns true for a level
different from the current `get_fan()` leaves turbo off. -/
theorem C10_set_fan_cancels_turbo (n : Nat) (level : FAN_MODE) (s s1 : IRDahatsu)
    (hn : 9 ≤ n) (hon : get_turbo s = true) (hallow : turbo_allowed s = true)
    (hmode : get_mode s = .MODE_COOL ∨ get_mode s = .MODE_HEAT ∨ get_mode s = .MODE_FAN
      ∨ get_mode s = .MODE_DRY)
    (hlevel : level ≠ get_fan s)
    (hret : set_fan n level s = some (true, s1)) : get_turbo s1 = false := by
  rw [set_fan_ge (by omega)] at hret
  simp only [turbo_allowed] at hallow
  by_cases hs : is_fan_mode_supported level s = false
  · simp [set_fan_result, hs] at hret
  · have hu : level ≠ .FAN_UNDEFINED := by
      intro h
      subst h
      simp [set_fan_result, hs, store_fan] at hret
    have hcb : fan_callback (get_fan s) level s = turbo_off_ s := by
      simp [fan_callback, Ne.symm hlevel, hon, hmode, turbo_off, hallow]
    simp only [set_fan_result, if_neg hs, if_neg hu, hcb, store_fan, Option.some.injEq,
      Prod.mk.injEq] at hret
    rw [← hret.2]
    simp only [get_turbo, ac_ac_, IRTcl112Ac.setFan]
    exact turbo_off__turbo s

theorem C10_set_fan_cancels_turbo_witness :
    get_turbo cool_boost = true ∧ get_turbo (cool_restored.ac (IRTcl112Ac.setFan 3)) = false :=
  ⟨by decide, C10_set_fan_cancels_turbo 9 .FAN_MEDIUM cool_boost
    (cool_restored.ac (IRTcl112Ac.setFan 3)) (by decide) (by decide) (by decide) (by decide)
    (by decide) (by decide)⟩

/-- C10 fails as stated: in `cool_boost` (mode Cool, turbo on, fan High)
`set_fan(High)` returns true and turbo is still on. -/
theorem C10_set_fan_same_level_keeps_turbo :
    get_mode cool_boost = .MODE_COOL ∧ get_turbo cool_boost = true
      ∧ set_fan 9 .FAN_HIGH cool_boost = some (true, cool_boost) := by
  decide

/-! ### Sequences of calls and their invariants -/

theorem set_hvac_mode_ge {n : Nat} (h : 7 ≤ n) (m : AC_MODE) (s : IRDahatsu) :
    set_hvac_mode n m s = some (set_hvac_mode_result m s) := by
  unfold set_hvac_mode set_hvac_mode_result
  simp only [set_mode_ge h, ite_some, Option.bind_eq_bind, Option.some_bind]
  split_ifs <;> rfl

theorem Call_run_ge {n : Nat} (h : 9 ≤ n) (c : Call) (s : IRDahatsu) :
    c.run n s = some (c.result s) := by
  cases c <;>
    simp [Call.run, Call.result, set_mode_ge (show 7 ≤ n by omega),
      set_hvac_mode_ge (show 7 ≤ n by omega), set_temp_ge (show 7 ≤ n by omega),
      set_fan_ge (show 7 ≤ n by omega), set_turbo_ge h, set_eco_ge (show 6 ≤ n by omega)]

theorem run_calls_ge {n : Nat} (h : 9 ≤ n) (cs : List Call) (s : IRDahatsu) :
    run_calls n cs s = some (results cs s) := by
  induction cs generalizing s with
  | nil => rfl
  | cons c cs ih => simp [run_calls, results, Call_run_ge h, ih]

/-- What switching turbo on leaves alone (flags and mode) and what it fixes
(turbo on, eco as `set_eco(false)` left it). -/
theorem turbo_on__spec (s : IRDahatsu) :
    (turbo_on_ s).health_enabled_ = s.health_enabled_
      ∧ (turbo_on_ s).light_enabled_ = s.light_enabled_
      ∧ (turbo_on_ s).turbo_enabled_ = s.turbo_enabled_
      ∧ (turbo_on_ s).eco_enabled_ = s.eco_enabled_
      ∧ (turbo_on_ s).set_temp_enabled_ = s.set_temp_enabled_
      ∧ (turbo_on_ s).ac_.mode = s.ac_.mode
      ∧ (turbo_on_ s).ac_.turbo = true
      ∧ (turbo_on_ s).ac_.econo = (s.ac_.econo && !s.eco_enabled_) := by
  unfold turbo_on_
  simp only [set_eco_result_false]
  split <;>
    simp [save_state__eq, set_swing_mode_eq, IRDahatsu.ac, IRTcl112Ac.setTurbo,
      IRTcl112Ac.setSwingHorizontal, IRTcl112Ac.setFan, IRTcl112Ac.setEcono]

/-- The fan register after `restore`: the snapshot's level when the mode
supports it, the old register otherwise. -/
theorem restore_fan (s : IRDahatsu) :
    (restore s).ac_.fan
      = match s.state_ with
        | none => s.ac_.fan
        | some st =>
          if fan_allowed s.ac_.mode st.fan_mode = true then fan_code st.fan_mode
          else s.ac_.fan := by
  unfold restore
  cases hst : s.state_ with
  | none => rfl
  | some st =>
    simp only [is_fan_mode_supported_eq, set_swing_mode_eq, store_temp, store_fan]
    by_cases hr : st.temp < temp_min ∨ st.temp > temp_max <;>
      by_cases hf : fan_allowed s.ac_.mode st.fan_mode = true <;>
      simp [hr, hf, IRDahatsu.ac, IRTcl112Ac.setTemp, IRTcl112Ac.setFan,
        IRTcl112Ac.setSwingHorizontal]

/-- The swing register after `restore`. -/
theorem restore_swing (s : IRDahatsu) :
    (restore s).ac_.swingHorizontal
      = match s.state_ with
        | none => s.ac_.swingHorizontal
        | some st => decide (st.swing_mode = .SWING_HORIZONTAL) := by
  unfold restore
  cases hst : s.state_ with
  | none => rfl
  | some st => simp [set_swing_mode_eq, IRDahatsu.ac, IRTcl112Ac.setSwingHorizontal]

theorem Exclusive_congr {s x : IRDahatsu} (ht : x.ac_.turbo = s.ac_.turbo)
    (he : x.ac_.econo = s.ac_.econo) (hee : x.eco_enabled_ = s.eco_enabled_)
    (hte : x.turbo_enabled_ = s.turbo_enabled_) (h : Exclusive s) : Exclusive x := by
  unfold Exclusive at h ⊢
  rw [ht, he, hee, hte]; exact h

theorem Exclusive_of_Frame {s x : IRDahatsu} (hf : Frame s x) (h : Exclusive s) :
    Exclusive x := by
  obtain ⟨_, _, _, f4, f5, _, _, _, f9, _, _, f12⟩ := hf
  unfold Exclusive at h ⊢
  rw [f4, f5, f9]
  exact ⟨fun ht => h.1 (f12 ht), h.2.1, h.2.2⟩

theorem Exclusive_set_constraints_result (he li tu ec st : Bool) (df : FAN_MODE)
    (x : IRDahatsu) (hrow : ec = true → tu = true) :
    Exclusive (set_constraints_result he li tu ec st df x) := by
  obtain ⟨_, _, h3, h4, _, _, _, h8, _, _, h11⟩ := set_constraints_result_spec he li tu ec st df x
  unfold Exclusive
  rw [h3, h4, h8, h11]
  refine ⟨fun h => absurd h (by simp), ?_, hrow⟩
  cases ec <;> simp

theorem Exclusive_set_mode_result (m : AC_MODE) (s : IRDahatsu) (h : Exclusive s) :
    Exclusive (set_mode_result m s) := by
  cases m <;> simp only [set_mode_result]
  · exact h
  · exact h
  all_goals exact Exclusive_set_constraints_result _ _ _ _ _ _ _ (by simp)

theorem Exclusive_turbo_off (s : IRDahatsu) (h : Exclusive s) : Exclusive (turbo_off s).2 :=
  Exclusive_of_Frame (Frame_turbo_off s) h

theorem Exclusive_set_turbo_result (on_ : Bool) (s : IRDahatsu) (h : Exclusive s) :
    Exclusive (set_turbo_result on_ s).2 := by
  unfold set_turbo_result set_turbo__result
  split_ifs
  · exact h
  · exact h
  · exact Exclusive_of_Frame (Frame_turbo_off_ s) h
  · obtain ⟨_, _, h3, h4, _, _, h7, h8⟩ := turbo_on__spec s
    unfold Exclusive at h ⊢
    rw [h3, h4, h7, h8]
    refine ⟨fun _ => ?_, fun he => ?_, h.2.2⟩
    · cases hE : s.ac_.econo
      · rfl
      · simp [h.2.1 hE]
    · cases hE : s.ac_.econo
      · simp [hE] at he
      · exact h.2.1 hE

theorem Exclusive_set_eco_result (on_ : Bool) (s : IRDahatsu) (h : Exclusive s) :
    Exclusive (set_eco_result on_ s).2 := by
  by_cases h1 : s.eco_enabled_ = false
  · simp only [set_eco_result, h1, if_true]; exact h
  · by_cases h2 : get_eco s = on_
    · simp only [set_eco_result, h1, h2, if_true, if_false]; exact h
    · have hee : s.eco_enabled_ = true := by simpa using h1
      have hte : s.turbo_enabled_ = true := h.2.2 hee
      cases on_
      · simp only [set_eco_result, h1, h2, if_false]
        refine ⟨fun _ => rfl, fun _ => hee, h.2.2⟩
      · simp only [set_eco_result, h1, h2, if_false, if_true]
        have hf := Frame_turbo_off s
        obtain ⟨_, _, _, f4, f5, _, _, _, _, _, _, _⟩ := hf
        refine ⟨fun ht => ?_, fun _ => ?_, ?_⟩
        · have : (turbo_off s).2.ac_.turbo = true := ht
          simp [turbo_off, hte, turbo_off__turbo] at this
        · show (turbo_off s).2.eco_enabled_ = true
          rw [f5]; exact hee
        · show (turbo_off s).2.eco_enabled_ = true → (turbo_off s).2.turbo_enabled_ = true
          rw [f4, f5]; exact h.2.2

theorem Exclusive_result (c : Call) (s : IRDahatsu) (h : Exclusive s) :
    Exclusive (c.result s) := by
  cases c with
  | set_mode m => exact Exclusive_set_mode_result m s h
  | set_hvac_mode m =>
    simp only [Call.result, set_hvac_mode_result]
    have h1 : Exclusive (if m ≠ get_mode s then set_mode_result m s else s) := by
      split
      · exact Exclusive_set_mode_result m s h
      · exact h
    split <;> exact Exclusive_congr rfl rfl rfl rfl h1
  | set_temp t => exact Exclusive_of_Frame (Frame_set_temp_result t s) h
  | set_fan f => exact Exclusive_of_Frame (Frame_set_fan_result f s) h
  | set_swing_mode m => exact Exclusive_of_Frame (Frame_set_swing_mode m s) h
  | set_health b =>
    simp only [Call.result, set_health]
    split
    · exact h
    · exact Exclusive_congr rfl rfl rfl rfl h
  | set_light b =>
    simp only [Call.result, set_light]
    split
    · exact h
    · exact Exclusive_congr rfl rfl rfl rfl h
  | set_turbo b => exact Exclusive_set_turbo_result b s h
  | set_eco b => exact Exclusive_set_eco_result b s h

theorem Exclusive_results (cs : List Call) (s : IRDahatsu) (h : Exclusive s) :
    Exclusive (results cs s) := by
  induction cs generalizing s with
  | nil => exact h
  | cons c cs ih => exact ih _ (Exclusive_result c s h)

theorem FanLegal_supported (x : IRDahatsu) (hs : SnapshotListed x)
    (hF : fan_allowed x.ac_.mode (fan_of_code x.ac_.fan) = true) : FanLegal x :=
  ⟨hs, Or.inl hF⟩

theorem FanLegal_congr {s x : IRDahatsu} (hm : x.ac_.mode = s.ac_.mode)
    (hf : x.ac_.fan = s.ac_.fan) (ht : x.ac_.turbo = s.ac_.turbo) (hs : x.state_ = s.state_)
    (h : FanLegal s) : FanLegal x := by
  unfold FanLegal SnapshotListed at h ⊢
  rw [is_fan_mode_supported_eq, get_fan_eq] at h ⊢
  rw [hm, hf, ht, hs]; exact h

theorem SnapshotListed_congr {s x : IRDahatsu} (hs : x.state_ = s.state_)
    (h : SnapshotListed s) : SnapshotListed x := by
  unfold SnapshotListed at h ⊢
  rw [hs]; exact h

theorem FanLegal_supported_of (s : IRDahatsu) (h : FanLegal s)
    (hn : ¬ (s.ac_.mode = 2 ∧ s.ac_.turbo = true
      ∧ ∃ st, s.state_ = some st ∧ st.fan_mode = .FAN_AUTO)) :
    fan_allowed s.ac_.mode (fan_of_code s.ac_.fan) = true := by
  rcases h.2 with h | h
  · exact h
  · exact absurd h hn

theorem FanLegal_restore (s : IRDahatsu) (h : FanLegal s) :
    FanLegal (restore (s.ac (IRTcl112Ac.setTurbo false))) := by
  have hfr := Frame_restore (s.ac (IRTcl112Ac.setTurbo false))
  have hst : (restore (s.ac (IRTcl112Ac.setTurbo false))).state_ = s.state_ := hfr.1
  have hmo : (restore (s.ac (IRTcl112Ac.setTurbo false))).ac_.mode = s.ac_.mode :=
    hfr.2.2.2.2.2.2.1
  refine FanLegal_supported _ (SnapshotListed_congr hst h.1) ?_
  rw [hmo, restore_fan]
  have e1 : (s.ac (IRTcl112Ac.setTurbo false)).state_ = s.state_ := rfl
  have e2 : (s.ac (IRTcl112Ac.setTurbo false)).ac_.mode = s.ac_.mode := rfl
  have e3 : (s.ac (IRTcl112Ac.setTurbo false)).ac_.fan = s.ac_.fan := rfl
  rw [e1, e2, e3]
  cases hs : s.state_ with
  | none =>
    refine FanLegal_supported_of s h ?_
    rintro ⟨_, _, st, h1, _⟩
    rw [hs] at h1; exact absurd h1 (by simp)
  | some st =>
    by_cases hf : fan_allowed s.ac_.mode st.fan_mode = true
    · simp only [hf, if_true]
      rw [fan_of_code_fan_code_of_ne _ (h.1 st hs)]; exact hf
    · simp only [hf, if_false]
      refine FanLegal_supported_of s h ?_
      rintro ⟨hm, _, st1, h1, h2⟩
      rw [hs] at h1
      have : st = st1 := Option.some.inj h1
      subst this
      rw [hm, h2] at hf
      exact hf rfl

theorem FanLegal_turbo_off_ (s : IRDahatsu) (h : FanLegal s) : FanLegal (turbo_off_ s) := by
  unfold turbo_off_
  split
  · exact h
  · exact FanLegal_restore s h

theorem FanLegal_turbo_off (s : IRDahatsu) (h : FanLegal s) : FanLegal (turbo_off s).2 := by
  unfold turbo_off
  split
  · exact h
  · exact FanLegal_turbo_off_ s h

theorem FanLegal_set_temp_result (t : ℚ) (s : IRDahatsu) (h : FanLegal s) :
    FanLegal (set_temp_result t s).2 := by
  unfold set_temp_result
  split
  · exact h
  · have hc : FanLegal (temp_callback (get_temp s) t s) := by
      unfold temp_callback
      split_ifs
      · exact h
      · exact h
      · exact FanLegal_turbo_off s h
      · exact h
    exact FanLegal_congr rfl rfl rfl rfl hc

theorem set_fan_result_fan (f : FAN_MODE) (y : IRDahatsu)
    (hsup : fan_allowed y.ac_.mode f = true) : (set_fan_result f y).2.ac_.fan = fan_code f := by
  unfold set_fan_result
  rw [is_fan_mode_supported_eq, hsup]
  rfl

theorem FanLegal_set_fan_result (f : FAN_MODE) (s : IRDahatsu) (hf : f ∈ fan_modes)
    (h : FanLegal s) : FanLegal (set_fan_result f s).2 := by
  by_cases hsup : fan_allowed s.ac_.mode f = true
  · have hne : f ≠ .FAN_UNDEFINED := by
      intro e; subst e; simp [fan_modes] at hf
    refine FanLegal_supported _ (SnapshotListed_congr (set_fan_result_state_ f s) h.1) ?_
    rw [set_fan_result_mode, set_fan_result_fan f s hsup, fan_of_code_fan_code_of_ne f hne]
    exact hsup
  · have e : set_fan_result f s = (false, s) := by
      unfold set_fan_result
      rw [is_fan_mode_supported_eq]
      simp [hsup]
    rw [e]; exact h

theorem FanLegal_set_eco_result (on_ : Bool) (s : IRDahatsu) (h : FanLegal s) :
    FanLegal (set_eco_result on_ s).2 := by
  by_cases h1 : s.eco_enabled_ = false
  · simp only [set_eco_result, h1, if_true]; exact h
  · by_cases h2 : get_eco s = on_
    · simp only [set_eco_result, h1, h2, if_true, if_false]; exact h
    · cases on_
      · simp only [set_eco_result, h1, h2, if_false]
        exact FanLegal_congr rfl rfl rfl rfl h
      · simp only [set_eco_result, h1, h2, if_false, if_true]
        exact FanLegal_congr rfl rfl rfl rfl (FanLegal_turbo_off s h)

theorem SnapshotListed_save_state_ (s : IRDahatsu) : SnapshotListed (save_state_ s) := by
  intro st hst
  rw [save_state__eq] at hst
  rw [← Option.some.inj hst]
  exact fan_of_code_ne_undefined _

theorem FanLegal_turbo_on_ (s : IRDahatsu) (ht : s.ac_.turbo = false) (h : FanLegal s) :
    FanLegal (turbo_on_ s) := by
  have hF : fan_allowed s.ac_.mode (fan_of_code s.ac_.fan) = true := by
    refine FanLegal_supported_of s h ?_
    rintro ⟨_, h2, _⟩
    rw [ht] at h2; exact absurd h2 (by simp)
  have hmode : ∀ x : IRDahatsu, ((set_swing_mode .SWING_HORIZONTAL x).ac
      (IRTcl112Ac.setTurbo true)).ac_.mode = x.ac_.mode := fun _ => rfl
  have hfan : ∀ x : IRDahatsu, ((set_swing_mode .SWING_HORIZONTAL x).ac
      (IRTcl112Ac.setTurbo true)).ac_.fan = x.ac_.fan := fun _ => rfl
  have hstate : ∀ x : IRDahatsu, ((set_swing_mode .SWING_HORIZONTAL x).ac
      (IRTcl112Ac.setTurbo true)).state_ = x.state_ := fun _ => by
    rw [set_swing_mode_eq]; rfl
  have hsm : ∀ x : IRDahatsu, (save_state_ x).ac_.mode = x.ac_.mode := fun x => by
    rw [save_state__eq]
  unfold turbo_on_
  simp only [set_eco_result_false]
  have hFy : fan_allowed (s.ac (IRTcl112Ac.setEcono (s.ac_.econo && !s.eco_enabled_))).ac_.mode
      (fan_of_code (s.ac (IRTcl112Ac.setEcono (s.ac_.econo && !s.eco_enabled_))).ac_.fan)
        = true := hF
  have hsy : SnapshotListed (s.ac (IRTcl112Ac.setEcono (s.ac_.econo && !s.eco_enabled_))) :=
    SnapshotListed_congr rfl h.1
  generalize s.ac (IRTcl112Ac.setEcono (s.ac_.econo && !s.eco_enabled_)) = y at hFy hsy ⊢
  have hsave := SnapshotListed_save_state_ y
  split
  · rename_i hm
    have hm1 : y.ac_.mode = 1 := (get_mode_heat_iff _).1 hm
    refine FanLegal_supported _ (SnapshotListed_congr ?_ hsave) ?_
    · rw [hstate, set_fan_result_state_, set_temp_result_state_]
    · rw [hmode, set_fan_result_mode, set_temp_result_mode, hsm, hm1]
      simp [fan_allowed]
  · rename_i hm
    have hm1 : y.ac_.mode = 2 := (get_mode_dry_iff _).1 hm
    refine ⟨SnapshotListed_congr ?_ hsave, Or.inr ⟨?_, rfl,
      ⟨get_temp y, get_fan y, get_swing_mode y⟩, ?_, ?_⟩⟩
    · rw [hstate]; rfl
    · rw [hmode]
      show (save_state_ y).ac_.mode = 2
      rw [hsm, hm1]
    · rw [hstate]
      show (save_state_ y).state_ = _
      rw [save_state__eq]
    · show fan_of_code y.ac_.fan = .FAN_AUTO
      rw [hm1] at hFy
      rcases fan_of_code_cases y.ac_.fan with e | e | e | e <;> rw [e] at hFy ⊢ <;>
        simp [fan_allowed] at hFy
  · rename_i hm
    have hm1 : y.ac_.mode = 3 := (get_mode_cool_iff _).1 hm
    refine FanLegal_supported _ (SnapshotListed_congr ?_ hsave) ?_
    · rw [hstate, set_fan_result_state_, set_temp_result_state_]
    · rw [hmode, set_fan_result_mode, set_temp_result_mode, hsm, hm1]
      simp [fan_allowed]
  · rename_i hm
    have hm1 : y.ac_.mode = 7 := (get_mode_fan_iff _).1 hm
    refine FanLegal_supported _ (SnapshotListed_congr ?_ hsave) ?_
    · rw [hstate, set_fan_result_state_]
    · have hsup : fan_allowed (save_state_ y).ac_.mode .FAN_HIGH = true := by
        rw [hsm, hm1]; rfl
      rw [hfan, hmode, set_fan_result_fan .FAN_HIGH _ hsup, set_fan_result_mode, hsm, hm1]
      rfl
  · exact FanLegal_supported _ (SnapshotListed_congr rfl hsy) hFy

theorem FanLegal_set_turbo_result (on_ : Bool) (s : IRDahatsu) (h : FanLegal s) :
    FanLegal (set_turbo_result on_ s).2 := by
  unfold set_turbo_result set_turbo__result
  by_cases h1 : s.turbo_enabled_ = false
  · simp only [h1, if_true]; exact h
  · by_cases h2 : on_ = get_turbo s
    · simp only [h1, h2, if_true, if_false]; exact h
    · cases on_
      · simp only [h1, h2, if_true, if_false]
        exact FanLegal_turbo_off_ s h
      · have ht : s.ac_.turbo = false := by
          cases hq : s.ac_.turbo
          · rfl
          · exact absurd (show true = get_turbo s from hq.symm) h2
        have e : (if true = false then (true, turbo_off_ s) else (true, turbo_on_ s))
            = (true, turbo_on_ s) := rfl
        simp only [h1, h2, if_false, e]
        exact FanLegal_turbo_on_ s ht h

theorem constraints_core_mode (he li tu ec st : Bool) (x : IRDahatsu) :
    (constraints_core he li tu ec st x).ac_.mode = x.ac_.mode := by
  simp [constraints_core, IRDahatsu.ac, IRTcl112Ac.setEcono, IRTcl112Ac.setLight,
    IRTcl112Ac.setHealth]

theorem constraints_core_state_ (he li tu ec st : Bool) (x : IRDahatsu) :
    (constraints_core he li tu ec st x).state_ = x.state_ := by
  simp [constraints_core, IRDahatsu.ac]

theorem FanLegal_set_constraints_result (he li tu ec st : Bool) (df : FAN_MODE)
    (x : IRDahatsu) (hs : SnapshotListed x) (hdf : df ≠ .FAN_UNDEFINED)
    (hsup : fan_allowed x.ac_.mode df = true) :
    FanLegal (set_constraints_result he li tu ec st df x) := by
  rw [set_constraints_result_eq]
  have hcs : SnapshotListed (constraints_core he li tu ec st x) :=
    SnapshotListed_congr (constraints_core_state_ he li tu ec st x) hs
  split
  · have hsup1 : fan_allowed (constraints_core he li tu ec st x).ac_.mode df = true := by
      rw [constraints_core_mode]; exact hsup
    refine FanLegal_supported _ (SnapshotListed_congr (set_fan_result_state_ df _) hcs) ?_
    rw [set_fan_result_mode, set_fan_result_fan df _ hsup1, fan_of_code_fan_code_of_ne df hdf]
    exact hsup1
  · rename_i hn
    refine FanLegal_supported _ hcs ?_
    rw [is_fan_mode_supported_eq, get_fan_eq] at hn
    simpa using hn

theorem FanLegal_set_mode_result (m : AC_MODE) (s : IRDahatsu) (h : FanLegal s) :
    FanLegal (set_mode_result m s) := by
  have hoff : SnapshotListed (turbo_off s).2 := (FanLegal_turbo_off s h).1
  cases m <;> simp only [set_mode_result]
  · exact h
  · exact h
  · exact FanLegal_set_constraints_result _ _ _ _ _ _ _ (SnapshotListed_congr rfl h.1)
      (by decide) rfl
  · exact FanLegal_set_constraints_result _ _ _ _ _ _ _ (SnapshotListed_congr rfl hoff)
      (by decide) rfl
  · exact FanLegal_set_constraints_result _ _ _ _ _ _ _ (SnapshotListed_congr rfl hoff)
      (by decide) rfl
  · exact FanLegal_set_constraints_result _ _ _ _ _ _ _ (SnapshotListed_congr rfl h.1)
      (by decide) rfl
  · exact FanLegal_set_constraints_result _ _ _ _ _ _ _ (SnapshotListed_congr rfl h.1)
      (by decide) rfl

theorem FanLegal_result (c : Call) (s : IRDahatsu) (hc : c.listed) (h : FanLegal s) :
    FanLegal (c.result s) := by
  cases c with
  | set_mode m => exact FanLegal_set_mode_result m s h
  | set_hvac_mode m =>
    simp only [Call.result, set_hvac_mode_result]
    have h1 : FanLegal (if m ≠ get_mode s then set_mode_result m s else s) := by
      split
      · exact FanLegal_set_mode_result m s h
      · exact h
    split <;> exact FanLegal_congr rfl rfl rfl rfl h1
  | set_temp t => exact FanLegal_set_temp_result t s h
  | set_fan f => exact FanLegal_set_fan_result f s hc h
  | set_swing_mode m =>
    simp only [Call.result, set_swing_mode_eq]
    exact FanLegal_congr rfl rfl rfl rfl h
  | set_health b =>
    simp only [Call.result, set_health]
    split
    · exact h
    · exact FanLegal_congr rfl rfl rfl rfl h
  | set_light b =>
    simp only [Call.result, set_light]
    split
    · exact h
    · exact FanLegal_congr rfl rfl rfl rfl h
  | set_turbo b => exact FanLegal_set_turbo_result b s h
  | set_eco b => exact FanLegal_set_eco_result b s h

theorem FanLegal_results (cs : List Call) (s : IRDahatsu) (hcs : ∀ c ∈ cs, c.listed)
    (h : FanLegal s) : FanLegal (results cs s) := by
  induction cs generalizing s with
  | nil => exact h
  | cons c cs ih =>
    exact ih _ (fun d hd => hcs d (List.mem_cons_of_mem c hd))
      (FanLegal_result c s (hcs c (List.mem_cons_self c cs)) h)

/-! ### Claims about `IRDahatsu` (continued) -/

/-- C11. Manual temperature during boost: in mode Heat or Cool (constraints
applied) with turbo active over a snapshot (t0, f0, s0) whose fan f0 is a
listed level legal for the mode, `set_temp(t)` for an in-range t different
from the current temperature returns true, and afterwards turbo is off,
`get_temp()` is t, `get_fan()` is f0 and `get_swing_mode()` is s0. -/
theorem C11_set_temp_unwinds_boost (n : Nat) (t : ℚ) (s : IRDahatsu) (snap : State)
    (hn : 9 ≤ n)
    (hmode : get_mode s = .MODE_HEAT ∨ get_mode s = .MODE_COOL)
    (hcons : constraints_applied s) (hon : get_turbo s = true)
    (hsnap : get_prev_state s = some snap)
    (hlisted : snap.fan_mode ∈ fan_modes)
    (hlegal : is_fan_mode_supported snap.fan_mode s = true)
    (ht : temp_min ≤ t ∧ t ≤ temp_max) (hne : t ≠ get_temp s) :
    ∃ s1, set_temp n t s = some (true, s1) ∧ get_turbo s1 = false ∧ get_temp s1 = t
      ∧ get_fan s1 = snap.fan_mode ∧ get_swing_mode s1 = snap.swing_mode := by
  rw [set_temp_ge (by omega)]
  simp only [get_mode_heat_iff, get_mode_cool_iff] at hmode
  simp only [get_turbo] at hon
  simp only [get_prev_state] at hsnap
  simp only [get_temp] at hne
  have h1 : ¬ t < temp_min := not_lt.mpr ht.1
  have h2 : ¬ temp_max < t := not_lt.mpr ht.2
  have hu : snap.fan_mode ≠ .FAN_UNDEFINED := by
    intro h; rw [h] at hlisted; simp [fan_modes] at hlisted
  have hne' : ¬ s.ac_.temp = t := fun h => hne h.symm
  have hflags : s.turbo_enabled_ = true ∧ s.set_temp_enabled_ = true := by
    rcases hmode with hm | hm <;>
      simp [constraints_applied, get_mode, mode_constraints, hm] at hcons <;>
      exact ⟨hcons.2.2.1, hcons.2.2.2.2⟩
  have hcb : temp_callback s.ac_.temp t s = restore (s.ac (IRTcl112Ac.setTurbo false)) := by
    rcases hmode with hm | hm <;>
      simp [temp_callback, hne', get_turbo, hon, get_mode, hm, turbo_off, turbo_off_,
        hflags.1]
  have hres : set_temp_result t s
      = store_temp t (restore (s.ac (IRTcl112Ac.setTurbo false))) := by
    simp [set_temp_result, h1, h2, get_temp, hcb]
  have hallowed : fan_allowed s.ac_.mode snap.fan_mode = true := hlegal
  have hfr := (Frame_restore (s.ac (IRTcl112Ac.setTurbo false))).2.2.2.2.2.1
  refine ⟨(set_temp_result t s).2, ?_, ?_, ?_, ?_, ?_⟩
  · rw [hres]
    simp only [store_temp, hfr, ac_set_temp_enabled_, hflags.2]
  · rw [hres]
    simp only [store_temp, get_turbo, ac_ac_, IRTcl112Ac.setTemp, restore_turbo]
    rfl
  · rw [hres]; rfl
  · rw [hres]
    simp only [store_temp, get_fan_eq, ac_ac_, IRTcl112Ac.setTemp, restore_fan, ac_state_,
      hsnap, IRTcl112Ac.setTurbo, hallowed, if_true]
    exact fan_of_code_fan_code_of_ne _ hu
  · rw [hres]
    simp only [store_temp, get_swing_mode, ac_ac_, IRTcl112Ac.setTemp, restore_swing,
      ac_state_, hsnap]
    cases snap.swing_mode <;> simp

theorem C11_set_temp_unwinds_boost_witness :
    ∃ s1, set_temp 9 20 cool_boost = some (true, s1) ∧ get_turbo s1 = false
      ∧ get_temp s1 = 20 ∧ get_fan s1 = .FAN_LOW ∧ get_swing_mode s1 = .SWING_OFF :=
  C11_set_temp_unwinds_boost 9 20 cool_boost ⟨24, .FAN_LOW, .SWING_OFF⟩ (by decide)
    (by decide) (by decide) (by decide) (by decide) (by decide) (by decide) (by decide)
    (by decide)

/-- C12. Boost/eco mutual exclusion: start from a state with eco off (turbo
off as in the claim, or on) whose permission flags are a row of the table of
`set_mode` (the defaults are the Heat row) and run any sequence of `set_mode`,
`set_hvac_mode`, `set_temp`, `set_fan`, `set_swing_mode`, `set_health`,
`set_light`, `set_turbo`, `set_eco`. The sequence returns, and in the state it
leaves turbo and eco are not both on; there a `set_eco(true)` that returns
true while turbo is on leaves turbo off and eco on, and a `set_turbo(true)`
that returns true leaves eco off. -/
theorem C12_turbo_eco_exclusive (n : Nat) (cs : List Call) (s0 : IRDahatsu) (hn : 9 ≤ n)
    (heco : get_eco s0 = false)
    (hflags : ∃ m, mode_constraints m = some (s0.health_enabled_, s0.light_enabled_,
      s0.turbo_enabled_, s0.eco_enabled_, s0.set_temp_enabled_)) :
    ∃ s, run_calls n cs s0 = some s
      ∧ ¬ (get_turbo s = true ∧ get_eco s = true)
      ∧ (∀ s1, get_turbo s = true → set_eco n true s = some (true, s1) →
          get_turbo s1 = false ∧ get_eco s1 = true)
      ∧ (∀ s1, set_turbo n true s = some (true, s1) → get_eco s1 = false) := by
  have h0 : Exclusive s0 := by
    simp only [get_eco] at heco
    refine ⟨fun _ => heco, fun h => absurd (heco ▸ h) (by simp), ?_⟩
    obtain ⟨m, hm⟩ := hflags
    cases m <;> simp [mode_constraints] at hm <;> simp [hm.2.2.1, hm.2.2.2.1]
  have hx := Exclusive_results cs s0 h0
  refine ⟨results cs s0, run_calls_ge hn cs s0, ?_, ?_, ?_⟩
  · rintro ⟨ht, he⟩
    simp only [get_turbo, get_eco] at ht he
    rw [hx.1 ht] at he
    exact absurd he (by simp)
  · intro s1 ht hret
    rw [set_eco_ge (by omega)] at hret
    simp only [get_turbo] at ht
    have he : (results cs s0).ac_.econo = false := hx.1 ht
    by_cases hee : (results cs s0).eco_enabled_ = false
    · simp [set_eco_result, hee] at hret
    · have hee' : (results cs s0).eco_enabled_ = true := by simpa using hee
      have hte := hx.2.2 hee'
      simp [set_eco_result, hee', get_eco, he, turbo_off, hte] at hret
      rw [← hret]
      simp [get_turbo, get_eco, IRDahatsu.ac, IRTcl112Ac.setEcono, turbo_off__turbo]
  · intro s1 hret
    rw [set_turbo_ge hn] at hret
    have hret := Option.some.inj hret
    have hx' := Exclusive_set_turbo_result true (results cs s0) hx
    rw [hret] at hx'
    by_cases hte : (results cs s0).turbo_enabled_ = false
    · simp [set_turbo_result, hte] at hret
    · have hte' : (results cs s0).turbo_enabled_ = true := by simpa using hte
      have ht1 : s1.ac_.turbo = true := by
        cases hT : (results cs s0).ac_.turbo
        · have e : set_turbo_result true (results cs s0)
              = (true, turbo_on_ (results cs s0)) := by
            simp [set_turbo_result, hte', set_turbo__result, get_turbo, hT]
          rw [e] at hret
          rw [← (Prod.mk.inj hret).2]
          exact (turbo_on__spec _).2.2.2.2.2.2.1
        · have e : set_turbo_result true (results cs s0) = (true, results cs s0) := by
            simp [set_turbo_result, hte', set_turbo__result, get_turbo, hT]
          rw [e] at hret
          rw [← (Prod.mk.inj hret).2]
          exact hT
      exact hx'.1 ht1

theorem C12_turbo_eco_exclusive_witness :
    ∃ s, run_calls 9 [.set_eco true, .set_turbo true, .set_mode .MODE_DRY, .set_turbo true,
        .set_eco true] cool_low = some s
      ∧ ¬ (get_turbo s = true ∧ get_eco s = true)
      ∧ (∀ s1, get_turbo s = true → set_eco 9 true s = some (true, s1) →
          get_turbo s1 = false ∧ get_eco s1 = true)
      ∧ (∀ s1, set_turbo 9 true s = some (true, s1) → get_eco s1 = false) :=
  C12_turbo_eco_exclusive 9 _ cool_low (by decide) (by decide) ⟨.MODE_HEAT, by decide⟩

/-- C13, as the code does it: when `get_turbo()` already equals `on`,
`set_turbo(on)` changes nothing; it returns true when turbo is allowed in the
active mode and false when it is not. -/
theorem C13_set_turbo_same_value (n : Nat) (on_ : Bool) (s : IRDahatsu) (hn : 9 ≤ n)
    (h : get_turbo s = on_) : set_turbo n on_ s = some (turbo_allowed s, s) := by
  rw [set_turbo_ge hn]
  cases ha : s.turbo_enabled_ <;>
    simp [set_turbo_result, set_turbo__result, turbo_allowed, ha, h]

theorem C13_set_turbo_same_value_witness :
    set_turbo 9 true cool_boost = some (turbo_allowed cool_boost, cool_boost) :=
  C13_set_turbo_same_value 9 true cool_boost (by decide) (by decide)

/-- C13 fails as stated: in `auto_low` (mode Auto, as `set_mode` leaves it)
turbo is off, and `set_turbo(false)` returns false. -/
theorem C13_set_turbo_refused_in_auto :
    set_mode 9 .MODE_AUTO cool_low = some auto_low ∧ get_turbo auto_low = false
      ∧ set_turbo 9 false auto_low = some (false, auto_low) := by
  decide

/-- C14. Idempotence of boost activation: where turbo is allowed,
`set_turbo(true)` returns true, and a second `set_turbo(true)` returns true
and leaves exactly the state the first call left. -/
theorem C14_set_turbo_idempotent (n : Nat) (s : IRDahatsu) (hn : 9 ≤ n)
    (hallow : turbo_allowed s = true) :
    ∃ s1, set_turbo n true s = some (true, s1) ∧ set_turbo n true s1 = some (true, s1) := by
  simp only [turbo_allowed] at hallow
  refine ⟨(set_turbo__result true s).2, ?_, ?_⟩
  · rw [set_turbo_ge hn]
    simp only [set_turbo_result, hallow, set_turbo__result]
    split_ifs <;> simp_all
  · rw [set_turbo_ge hn]
    obtain ⟨_, _, h3, _, _, _, h7, _⟩ := turbo_on__spec s
    cases ht : s.ac_.turbo
    · simp [set_turbo_result, set_turbo__result, ht, get_turbo, h3, h7, hallow]
    · simp [set_turbo_result, set_turbo__result, ht, get_turbo, hallow]

theorem C14_set_turbo_idempotent_witness :
    ∃ s1, set_turbo 9 true cool_low = some (true, s1)
      ∧ set_turbo 9 true s1 = some (true, s1) :=
  C14_set_turbo_idempotent 9 cool_low (by decide) (by decide)

/-- C15, as the code does it: fan legality holds outside the Dry boost. Start
from a state where `is_fan_mode_supported(get_fan())` holds and whose snapshot,
if there is one, holds a level of the fan list, and run any sequence of
`set_mode`, `set_hvac_mode`, `set_temp`, `set_fan` with a level of the fan
list, `set_swing_mode`, `set_turbo`, `set_eco`, `set_health`, `set_light`. The
sequence returns, and in the state it leaves `is_fan_mode_supported(get_fan())`
holds unless the mode is Dry and turbo is on. -/
theorem C15_fan_legal_outside_dry_boost (n : Nat) (cs : List Call) (s0 : IRDahatsu)
    (hn : 9 ≤ n) (hcs : ∀ c ∈ cs, c.listed)
    (h0 : is_fan_mode_supported (get_fan s0) s0 = true)
    (hsnap : ∀ st, get_prev_state s0 = some st → st.fan_mode ∈ fan_modes) :
    ∃ s, run_calls n cs s0 = some s
      ∧ (is_fan_mode_supported (get_fan s) s = true
          ∨ (get_mode s = .MODE_DRY ∧ get_turbo s = true)) := by
  have hI : FanLegal s0 := by
    refine ⟨fun st hst e => ?_, Or.inl h0⟩
    have := hsnap st hst
    rw [e] at this
    simp [fan_modes] at this
  have hx := FanLegal_results cs s0 hcs hI
  refine ⟨results cs s0, run_calls_ge hn cs s0, ?_⟩
  rcases hx.2 with h | ⟨hm, ht, _⟩
  · exact Or.inl h
  · exact Or.inr ⟨(get_mode_dry_iff _).2 hm, ht⟩

theorem C15_fan_legal_outside_dry_boost_witness :
    ∃ s, run_calls 9 [.set_mode .MODE_FAN, .set_turbo true, .set_fan .FAN_LOW,
        .set_mode .MODE_DRY, .set_turbo true] cool_auto = some s
      ∧ (is_fan_mode_supported (get_fan s) s = true
          ∨ (get_mode s = .MODE_DRY ∧ get_turbo s = true)) :=
  C15_fan_legal_outside_dry_boost 9 _ cool_auto (by decide)
    (by simp [Call.listed, fan_modes]) (by decide) (by simp [get_prev_state, cool_auto])

/-- C15 fails as stated: in `dry_auto` (mode Dry, fan Auto, which Dry
supports) `set_turbo(true)` puts the fan on Low, which Dry does not support. -/
theorem C15_dry_boost_fan_unsupported :
    is_fan_mode_supported (get_fan dry_auto) dry_auto = true
      ∧ run_calls 9 [.set_turbo true] dry_auto = some dry_boost
      ∧ is_fan_mode_supported (get_fan dry_boost) dry_boost = false := by
  decide

/-- A snapshot that holds `FAN_UNDEFINED` is restored as fan Auto: in mode Fan
`set_turbo(false)` then leaves a fan level that Fan does not support. -/
theorem fan_undefined_snapshot_restored_as_auto :
    is_fan_mode_supported (get_fan fan_boost_undefined) fan_boost_undefined = true
      ∧ ∃ s, run_calls 9 [.set_turbo false] fan_boost_undefined = some s
        ∧ get_mode s = .MODE_FAN ∧ get_turbo s = false
        ∧ is_fan_mode_supported (get_fan s) s = false := by
  refine ⟨by decide, _, rfl, ?_, ?_, ?_⟩ <;> decide

/-! ### Claims about `IRDahatsu` (string commands, decoded frames) -/

/-- C21, as the code does it: absorbing a decoded frame whose raw bits carry
mode m in Heat, Dry, Cool, Fan, Auto and boost flag b returns, and afterwards
`get_mode()` is m; `get_turbo()` is b when m is Heat, Dry, Cool or Fan, and
false when m is Auto, where turbo is not allowed. -/
theorem C21_loop_absorbs_frame (n : Nat) (m : AC_MODE) (b : Bool) (frame : IRTcl112Ac)
    (s : IRDahatsu) (hn : 9 ≤ n)
    (hm : m = .MODE_HEAT ∨ m = .MODE_DRY ∨ m = .MODE_COOL ∨ m = .MODE_FAN ∨ m = .MODE_AUTO)
    (hmode : frame.mode = m.val) (hturbo : frame.turbo = b) :
    ∃ s1, loop n (some frame) s = some (true, s1) ∧ get_mode s1 = m
      ∧ get_turbo s1 = (b && decide (m ≠ .MODE_AUTO)) := by
  have hg : get_mode (s.ac (IRTcl112Ac.setRaw frame)) = m := by
    show get_mode (IRDahatsu.mk frame _ _ _ _ _ _) = m
    rcases hm with h | h | h | h | h <;> subst h <;> simp [get_mode, hmode, AC_MODE.val]
  have hloop : loop n (some frame) s = some (true, (set_turbo_result b
      (set_mode_result m (s.ac (IRTcl112Ac.setRaw frame)))).2) := by
    have ht : get_turbo (s.ac (IRTcl112Ac.setRaw frame)) = b := hturbo
    simp only [loop, hg, ht, set_mode_ge (show 7 ≤ n by omega), set_turbo_ge hn,
      Option.bind_eq_bind, Option.some_bind]
  obtain ⟨h1, h2, h3, _⟩ := set_mode_result_spec m (s.ac (IRTcl112Ac.setRaw frame)) hm
  generalize set_mode_result m (s.ac (IRTcl112Ac.setRaw frame)) = s1 at hloop h1 h2 h3
  refine ⟨_, hloop, ?_⟩
  unfold constraints_applied at h2
  rw [h1] at h2
  by_cases hauto : m = .MODE_AUTO
  · subst hauto
    have hte : s1.turbo_enabled_ = false := by
      simp [mode_constraints] at h2; exact h2.2.2.1
    simp [set_turbo_result, hte, h1, get_turbo, h3]
  · have hte : s1.turbo_enabled_ = true := by
      rcases hm with h | h | h | h | h <;> subst h <;> simp [mode_constraints] at h2
      · exact h2.2.2.1
      · exact h2.2.2.1
      · exact h2.2.2.1
      · exact h2.2.2.1
      · exact absurd rfl hauto
    cases b
    · simp [set_turbo_result, set_turbo__result, hte, get_turbo, h3, h1]
    · have e : set_turbo_result true s1 = (true, turbo_on_ s1) := by
        simp [set_turbo_result, set_turbo__result, hte, get_turbo, h3]
      obtain ⟨_, _, _, _, _, g6, g7, _⟩ := turbo_on__spec s1
      rw [e]
      refine ⟨?_, ?_⟩
      · rw [get_mode_congr g6]; exact h1
      · simp [get_turbo, g7, hauto]

theorem C21_loop_absorbs_frame_witness :
    ∃ s1, loop 9 (some cool_turbo_frame) cool_low = some (true, s1)
      ∧ get_mode s1 = .MODE_COOL
      ∧ get_turbo s1 = (true && decide (AC_MODE.MODE_COOL ≠ .MODE_AUTO)) :=
  C21_loop_absorbs_frame 9 .MODE_COOL true cool_turbo_frame cool_low (by decide) (by decide)
    (by decide) (by decide)

/-- C21 fails as stated: a decoded frame that carries mode Auto with the boost
flag set leaves `get_mode()` at Auto and `get_turbo()` false. -/
theorem C21_auto_frame_loses_turbo :
    auto_turbo_frame.mode = AC_MODE.MODE_AUTO.val ∧ auto_turbo_frame.turbo = true
      ∧ ∃ s1, loop 9 (some auto_turbo_frame) cool_low = some (true, s1)
        ∧ get_mode s1 = .MODE_AUTO ∧ get_turbo s1 = false := by
  refine ⟨by decide, by decide, _, rfl, ?_, ?_⟩ <;> decide

/-- C22 at a failing input: in `cool_boost`, where the swing is horizontal,
`set_swing_mode("foo")` with a string that is neither "off" nor "horizontal"
switches the swing off. -/
theorem C22_unrecognised_swing_switches_off :
    esphome.str_equals_case_insensitive "foo" "OFF" = false
      ∧ esphome.str_equals_case_insensitive "foo" "HORIZONTAL" = false
      ∧ get_swing_mode cool_boost = .SWING_HORIZONTAL
      ∧ get_swing_mode (set_swing_mode_str "foo" cool_boost) = .SWING_OFF
      ∧ set_swing_mode_str "foo" cool_boost ≠ cool_boost := by
  decide

end Dahatsu

namespace Daikin

/-! ### Claims about `IRDaikin` -/

/-- C8 at the failing input: after `set_mode(Fan)` on `cool_20` the temperature
is not settable; `set_temp(25)` then returns false, yet `get_temp()` has moved
from 20 to 25. -/
theorem C8_set_temp_false_but_stored :
    get_temp (set_mode .MODE_FAN cool_20) = 20
      ∧ (set_temp 25 (set_mode .MODE_FAN cool_20)).1 = false
      ∧ get_temp (set_temp 25 (set_mode .MODE_FAN cool_20)).2 = 25 := by
  decide

/-! ### Lemmas about `IRDaikin` -/

/-- What `set_fan` leaves alone: everything but the codec's fan register and
`prev_fan_mode_`. -/
theorem set_fan_frame (f : FAN_MODE) (s : IRDaikin) :
    (set_fan f s).2.ac_.raw = s.ac_.raw ∧ (set_fan f s).2.ac_.temp = s.ac_.temp
      ∧ (set_fan f s).2.ac_.swingVertical = s.ac_.swingVertical
      ∧ (set_fan f s).2.ac_.sleep = s.ac_.sleep ∧ (set_fan f s).2.ac_.turbo = s.ac_.turbo
      ∧ (set_fan f s).2.ac_.quiet = s.ac_.quiet
      ∧ (set_fan f s).2.ac_.powerToggle = s.ac_.powerToggle
      ∧ (set_fan f s).2.power_on_ = s.power_on_
      ∧ (set_fan f s).2.set_temp_enabled_ = s.set_temp_enabled_
      ∧ (set_fan f s).2.turbo_enabled_ = s.turbo_enabled_
      ∧ (set_fan f s).2.quiet_enabled_ = s.quiet_enabled_
      ∧ (set_fan f s).2.sleep_enabled_ = s.sleep_enabled_ := by
  unfold set_fan
  split
  · simp
  · cases f <;> simp [IRDaikin.ac, IRDaikin64.setFan]

theorem getMode_set_mode_ (mode : Nat) (s : IRDaikin) :
    (set_mode_ mode s).ac_.getMode = mode % 16 := by
  simp only [set_mode_, IRDaikin64.getMode, IRDaikin.ac, IRDaikin64.setRaw, UINT64_MAX]
  norm_num
  apply Nat.eq_of_testBit_eq
  intro i
  have h16 : (16 : Nat) = 2 ^ 4 := by norm_num
  rw [h16]
  simp only [Nat.testBit_mod_two_pow, Nat.testBit_shiftRight, Nat.testBit_or, Nat.testBit_and,
    Nat.testBit_shiftLeft]
  by_cases hi : i < 4
  · have c8 : Nat.testBit 18446744073709547775 8 = false := by decide
    have c9 : Nat.testBit 18446744073709547775 9 = false := by decide
    have c10 : Nat.testBit 18446744073709547775 10 = false := by decide
    have c11 : Nat.testBit 18446744073709547775 11 = false := by decide
    have d60 : Nat.testBit 18446744073709551615 60 = true := by decide
    have d61 : Nat.testBit 18446744073709551615 61 = true := by decide
    have d62 : Nat.testBit 18446744073709551615 62 = true := by decide
    have d63 : Nat.testBit 18446744073709551615 63 = true := by decide
    interval_cases i <;> simp [c8, c9, c10, c11, d60, d61, d62, d63]
  · simp [hi]

theorem DFrame_refl (s : IRDaikin) : DFrame s s := by
  simp [DFrame]

theorem DFrame_trans {a b c : IRDaikin} (h1 : DFrame a b) (h2 : DFrame b c) : DFrame a c := by
  obtain ⟨a1, a2, a3, a4, a5, a6, a7, a8, a9, a10⟩ := h1
  obtain ⟨b1, b2, b3, b4, b5, b6, b7, b8, b9, b10⟩ := h2
  exact ⟨b1.trans a1, b2.trans a2, b3.trans a3, b4.trans a4, b5.trans a5, b6.trans a6,
    b7.trans a7, b8.trans a8, b9.trans a9, b10.trans a10⟩

theorem DFrame_set_fan (f : FAN_MODE) (s : IRDaikin) : DFrame s (set_fan f s).2 := by
  obtain ⟨h1, h2, h3, h4, _, _, h7, h8, h9, h10, h11, h12⟩ := set_fan_frame f s
  exact ⟨h1, h2, h3, h4, h7, h8, h9, h10, h11, h12⟩

theorem DFrame_setTurbo (s : IRDaikin) (b : Bool) : DFrame s (s.ac (IRDaikin64.setTurbo b)) := by
  simp [DFrame, IRDaikin.ac, IRDaikin64.setTurbo]

theorem DFrame_setQuiet (s : IRDaikin) (b : Bool) : DFrame s (s.ac (IRDaikin64.setQuiet b)) := by
  simp [DFrame, IRDaikin.ac, IRDaikin64.setQuiet]

theorem DFrame_re_initialize_fan_mode_ (d : FAN_MODE) (s : IRDaikin) :
    DFrame s (re_initialize_fan_mode_ d s) := by
  unfold re_initialize_fan_mode_
  simp only []
  split_ifs
  · exact DFrame_refl s
  · exact DFrame_set_fan _ s
  · exact DFrame_set_fan _ s

theorem set_constraints__steps (A B C D E : IRDaikin) (turbo quiet sleep : Bool)
    (hB : B = re_initialize_fan_mode_ .FAN_MEDIUM A) (hs : sleep = B.ac_.sleep)
    (hC : C = if B.turbo_enabled_ = false ∧ turbo = true
      then (set_fan B.prev_fan_mode_ (B.ac (IRDaikin64.setTurbo false))).2 else B)
    (hD : D = if C.quiet_enabled_ = false ∧ quiet = true
      then (set_fan C.prev_fan_mode_ (C.ac (IRDaikin64.setQuiet false))).2 else C)
    (hE : E = if D.sleep_enabled_ = false ∧ sleep = true
      then D.ac (IRDaikin64.setSleep false) else D) :
    E.turbo_enabled_ = A.turbo_enabled_ ∧ E.quiet_enabled_ = A.quiet_enabled_
      ∧ E.sleep_enabled_ = A.sleep_enabled_ ∧ E.set_temp_enabled_ = A.set_temp_enabled_
      ∧ E.ac_.raw = A.ac_.raw ∧ E.ac_.temp = A.ac_.temp
      ∧ E.ac_.swingVertical = A.ac_.swingVertical ∧ E.ac_.powerToggle = A.ac_.powerToggle
      ∧ E.power_on_ = A.power_on_ ∧ E.ac_.sleep = (A.ac_.sleep && A.sleep_enabled_) := by
  have fB : DFrame A B := hB ▸ DFrame_re_initialize_fan_mode_ _ A
  have fC : DFrame B C := by
    rw [hC]; split
    · exact DFrame_trans (DFrame_setTurbo B false) (DFrame_set_fan _ _)
    · exact DFrame_refl B
  have fD : DFrame C D := by
    rw [hD]; split
    · exact DFrame_trans (DFrame_setQuiet C false) (DFrame_set_fan _ _)
    · exact DFrame_refl C
  obtain ⟨b1, b2, b3, b4, b5, b6, b7, b8, b9, b10⟩ := fB
  obtain ⟨d1, d2, d3, d4, d5, d6, d7, d8, d9, d10⟩ := DFrame_trans (DFrame_trans
    ⟨b1, b2, b3, b4, b5, b6, b7, b8, b9, b10⟩ fC) fD
  rw [hE, hs, b4, d10]
  cases hsl : A.sleep_enabled_ <;> cases hsv : A.ac_.sleep <;>
    simp [IRDaikin.ac, IRDaikin64.setSleep, d1, d2, d3, d4, d5, d6, d7, d8, d9, d10, hsl, hsv]

theorem set_constraints__spec (tu qu sl st : Bool) (s : IRDaikin) :
    (set_constraints_ tu qu sl st s).turbo_enabled_ = tu
      ∧ (set_constraints_ tu qu sl st s).quiet_enabled_ = qu
      ∧ (set_constraints_ tu qu sl st s).sleep_enabled_ = sl
      ∧ (set_constraints_ tu qu sl st s).set_temp_enabled_ = st
      ∧ (set_constraints_ tu qu sl st s).ac_.raw = s.ac_.raw
      ∧ (set_constraints_ tu qu sl st s).ac_.temp = s.ac_.temp
      ∧ (set_constraints_ tu qu sl st s).ac_.swingVertical = s.ac_.swingVertical
      ∧ (set_constraints_ tu qu sl st s).ac_.powerToggle = s.ac_.powerToggle
      ∧ (set_constraints_ tu qu sl st s).power_on_ = s.power_on_
      ∧ (set_constraints_ tu qu sl st s).ac_.sleep = (s.ac_.sleep && sl) :=
  set_constraints__steps (IRDaikin.mk s.ac_ s.power_on_ st tu qu sl s.prev_fan_mode_)
    _ _ _ _ _ _ _ rfl rfl rfl rfl rfl

theorem set_mode__frame (c : Nat) (s : IRDaikin) :
    (set_mode_ c s).ac_.temp = s.ac_.temp ∧ (set_mode_ c s).ac_.fan = s.ac_.fan
      ∧ (set_mode_ c s).ac_.swingVertical = s.ac_.swingVertical
      ∧ (set_mode_ c s).ac_.sleep = s.ac_.sleep
      ∧ (set_mode_ c s).ac_.powerToggle = s.ac_.powerToggle
      ∧ (set_mode_ c s).power_on_ = s.power_on_
      ∧ (set_mode_ c s).prev_fan_mode_ = s.prev_fan_mode_ := by
  simp [set_mode_, IRDaikin.ac, IRDaikin64.setRaw]

/-- The shape of every branch of `set_mode`: the mode code lands in the mode
field, the flags are the ones passed, and the temperature, swing, power
toggle and believed power are as before. -/
theorem set_mode_branch (c : Nat) (tu qu sl st : Bool) (s : IRDaikin) :
    (set_constraints_ tu qu sl st (set_mode_ c s)).ac_.getMode = c % 16
      ∧ (set_constraints_ tu qu sl st (set_mode_ c s)).turbo_enabled_ = tu
      ∧ (set_constraints_ tu qu sl st (set_mode_ c s)).quiet_enabled_ = qu
      ∧ (set_constraints_ tu qu sl st (set_mode_ c s)).sleep_enabled_ = sl
      ∧ (set_constraints_ tu qu sl st (set_mode_ c s)).set_temp_enabled_ = st
      ∧ (set_constraints_ tu qu sl st (set_mode_ c s)).ac_.temp = s.ac_.temp
      ∧ (set_constraints_ tu qu sl st (set_mode_ c s)).ac_.swingVertical = s.ac_.swingVertical
      ∧ (set_constraints_ tu qu sl st (set_mode_ c s)).ac_.powerToggle = s.ac_.powerToggle
      ∧ (set_constraints_ tu qu sl st (set_mode_ c s)).power_on_ = s.power_on_
      ∧ (set_constraints_ tu qu sl st (set_mode_ c s)).ac_.sleep = (s.ac_.sleep && sl) := by
  obtain ⟨h1, h2, h3, h4, h5, h6, h7, h8, h9, h10⟩ :=
    set_constraints__spec tu qu sl st (set_mode_ c s)
  obtain ⟨g1, _, g3, g4, g5, g6, _⟩ := set_mode__frame c s
  refine ⟨?_, h1, h2, h3, h4, h6.trans g1, h7.trans g3, h8.trans g5, h9.trans g6, ?_⟩
  · have := getMode_set_mode_ c s
    unfold IRDaikin64.getMode at this ⊢
    rw [h5]; exact this
  · rw [h10, g4]

theorem set_mode_power_on_ (m : AC_MODE) (s : IRDaikin) :
    (set_mode m s).power_on_ = s.power_on_ := by
  cases m <;> simp only [set_mode]
  · exact (set_mode_branch 1 false false false true s).2.2.2.2.2.2.2.2.1
  · exact (set_mode_branch 2 true true true true s).2.2.2.2.2.2.2.2.1
  · exact (set_mode_branch 4 false false false false s).2.2.2.2.2.2.2.2.1
  · exact (set_mode_branch 8 true true true true s).2.2.2.2.2.2.2.2.1
  · exact (set_mode_branch 10 false false true true s).2.2.2.2.2.2.2.2.1

theorem toggle_power_spec (s : IRDaikin) :
    (toggle_power s).power_on_ = !s.power_on_
      ∧ (toggle_power s).ac_.getMode = s.ac_.getMode
      ∧ (toggle_power s).ac_.powerToggle = true := by
  simp [toggle_power, set_power_state, get_power_state, IRDaikin.ac,
    IRDaikin64.setPowerToggle, IRDaikin64.getMode]

/-- After `set_hvac_mode(m)` the believed power is on exactly when m is not
Off, and the mode field is the one `set_mode(m)` left. -/
theorem set_hvac_mode_spec (m : AC_MODE) (s : IRDaikin) :
    (set_hvac_mode m s).power_on_ = decide (m ≠ .MODE_OFF)
      ∧ (set_hvac_mode m s).ac_.getMode = (set_mode m s).ac_.getMode := by
  unfold set_hvac_mode
  simp only [get_power_state]
  obtain ⟨t1, t2, _⟩ := toggle_power_spec (set_mode m s)
  by_cases hm : m = .MODE_OFF
  · subst hm
    by_cases hq : (set_mode .MODE_OFF s).power_on_ = true
    · simp [hq, t1, t2]
    · simp [hq]
  · by_cases hq : (set_mode m s).power_on_ = true
    · simp [hm, hq]
    · simp [hm, hq, t1, t2]

/-! ### Claims about `IRDaikin` (continued) -/

/-- C16. Legal fan set after `set_mode(m)`, m in Heat, Dry, Cool, Fan, Auto:
Quiet and Turbo are supported exactly when m is Heat or Cool, Auto exactly
when m is not Fan, and Low, Medium and High always. -/
theorem C16_legal_fan_set (m : AC_MODE) (s : IRDaikin)
    (hm : m = .MODE_HEAT ∨ m = .MODE_DRY ∨ m = .MODE_COOL ∨ m = .MODE_FAN ∨ m = .MODE_AUTO) :
    (is_fan_mode_supported .FAN_QUIET (set_mode m s) = true ↔ (m = .MODE_HEAT ∨ m = .MODE_COOL))
      ∧ (is_fan_mode_supported .FAN_TURBO (set_mode m s) = true
          ↔ (m = .MODE_HEAT ∨ m = .MODE_COOL))
      ∧ (is_fan_mode_supported .FAN_AUTO (set_mode m s) = true ↔ m ≠ .MODE_FAN)
      ∧ is_fan_mode_supported .FAN_LOW (set_mode m s) = true
      ∧ is_fan_mode_supported .FAN_MEDIUM (set_mode m s) = true
      ∧ is_fan_mode_supported .FAN_HIGH (set_mode m s) = true := by
  rcases hm with h | h | h | h | h <;> subst h <;> simp only [set_mode]
  · obtain ⟨h1, h2, h3, _⟩ := set_mode_branch 8 true true true true s
    simp [is_fan_mode_supported, h1, h2, h3, AC_MODE.val]
  · obtain ⟨h1, h2, h3, _⟩ := set_mode_branch 1 false false false true s
    simp [is_fan_mode_supported, h1, h2, h3, AC_MODE.val]
  · obtain ⟨h1, h2, h3, _⟩ := set_mode_branch 2 true true true true s
    simp [is_fan_mode_supported, h1, h2, h3, AC_MODE.val]
  · obtain ⟨h1, h2, h3, _⟩ := set_mode_branch 4 false false false false s
    simp [is_fan_mode_supported, h1, h2, h3, AC_MODE.val]
  · obtain ⟨h1, h2, h3, _⟩ := set_mode_branch 10 false false true true s
    simp [is_fan_mode_supported, h1, h2, h3, AC_MODE.val]

theorem C16_legal_fan_set_witness :
    (is_fan_mode_supported .FAN_QUIET (set_mode .MODE_FAN cool_20) = true
        ↔ (AC_MODE.MODE_FAN = .MODE_HEAT ∨ AC_MODE.MODE_FAN = .MODE_COOL))
      ∧ (is_fan_mode_supported .FAN_TURBO (set_mode .MODE_FAN cool_20) = true
          ↔ (AC_MODE.MODE_FAN = .MODE_HEAT ∨ AC_MODE.MODE_FAN = .MODE_COOL))
      ∧ (is_fan_mode_supported .FAN_AUTO (set_mode .MODE_FAN cool_20) = true
          ↔ AC_MODE.MODE_FAN ≠ .MODE_FAN)
      ∧ is_fan_mode_supported .FAN_LOW (set_mode .MODE_FAN cool_20) = true
      ∧ is_fan_mode_supported .FAN_MEDIUM (set_mode .MODE_FAN cool_20) = true
      ∧ is_fan_mode_supported .FAN_HIGH (set_mode .MODE_FAN cool_20) = true :=
  C16_legal_fan_set .MODE_FAN cool_20 (by decide)

/-- C17. Previous-fan tracking: a `set_fan(level)` that returns true stores
level in `previous_fan` when level is Auto, Low, Medium or High and leaves
`previous_fan` alone when level is Turbo or Quiet; a `set_fan` that returns
false leaves the whole state, so the fan and `previous_fan`, unchanged. -/
theorem C17_previous_fan_tracking (level : FAN_MODE) (s : IRDaikin) :
    ((set_fan level s).1 = true →
        ((level = .FAN_AUTO ∨ level = .FAN_LOW ∨ level = .FAN_MEDIUM ∨ level = .FAN_HIGH) →
          get_prev_fan (set_fan level s).2 = level)
        ∧ ((level = .FAN_TURBO ∨ level = .FAN_QUIET) →
          get_prev_fan (set_fan level s).2 = get_prev_fan s))
      ∧ ((set_fan level s).1 = false →
          (set_fan level s).2 = s ∧ get_fan (set_fan level s).2 = get_fan s
            ∧ get_prev_fan (set_fan level s).2 = get_prev_fan s) := by
  unfold set_fan
  by_cases hs : is_fan_mode_supported level s = false
  · simp [hs]
  · cases level <;> simp [hs, get_prev_fan, IRDaikin.ac]

theorem C17_previous_fan_tracking_witness :
    (set_fan .FAN_LOW cool_20).1 = true ∧ get_prev_fan (set_fan .FAN_LOW cool_20).2 = .FAN_LOW :=
  ⟨by decide, ((C17_previous_fan_tracking .FAN_LOW cool_20).1 (by decide)).1 (by decide)⟩

/-- C18. Power-off keeps the configuration: `set_hvac_mode(Off)` leaves the
mode, fan, previous fan, temperature, swing and sleep as they were; a unit
believed on gets the power-toggle flag raised and is then believed off; a unit
already believed off is not changed at all. -/
theorem C18_power_off_keeps_configuration (s : IRDaikin) :
    get_mode (set_hvac_mode .MODE_OFF s) = get_mode s
      ∧ get_fan (set_hvac_mode .MODE_OFF s) = get_fan s
      ∧ get_prev_fan (set_hvac_mode .MODE_OFF s) = get_prev_fan s
      ∧ get_temp (set_hvac_mode .MODE_OFF s) = get_temp s
      ∧ get_swing_mode (set_hvac_mode .MODE_OFF s) = get_swing_mode s
      ∧ get_sleep (set_hvac_mode .MODE_OFF s) = get_sleep s
      ∧ (get_power_state s = true →
          (set_hvac_mode .MODE_OFF s).ac_.powerToggle = true
            ∧ get_power_state (set_hvac_mode .MODE_OFF s) = false)
      ∧ (get_power_state s = false → set_hvac_mode .MODE_OFF s = s) := by
  cases hp : s.power_on_ <;>
    simp [set_hvac_mode, set_mode, toggle_power, set_power_state, get_power_state, get_mode,
      get_fan, get_prev_fan, get_temp, get_swing_mode, get_sleep, IRDaikin.ac,
      IRDaikin64.setPowerToggle, IRDaikin64.getMode, hp]

theorem C18_power_off_keeps_configuration_witness :
    get_power_state cool_20 = true
      ∧ (set_hvac_mode .MODE_OFF cool_20).ac_.powerToggle = true
      ∧ get_power_state (set_hvac_mode .MODE_OFF cool_20) = false :=
  ⟨by decide, (C18_power_off_keeps_configuration cool_20).2.2.2.2.2.2.1 (by decide)⟩

/-- C19. Mode round trip: for m in Off, Heat, Dry, Cool, Fan, Auto and every
prior state, after `set_hvac_mode(m)` `get_hvac_mode()` returns m and the unit
is believed on exactly when m is not Off. -/
theorem C19_mode_round_trip (m : AC_MODE) (s : IRDaikin)
    (hm : m = .MODE_OFF ∨ m = .MODE_HEAT ∨ m = .MODE_DRY ∨ m = .MODE_COOL ∨ m = .MODE_FAN
      ∨ m = .MODE_AUTO) :
    get_hvac_mode (set_hvac_mode m s) = m
      ∧ (get_power_state (set_hvac_mode m s) = true ↔ m ≠ .MODE_OFF) := by
  obtain ⟨hp, hg⟩ := set_hvac_mode_spec m s
  refine ⟨?_, by simp [get_power_state, hp]⟩
  simp only [get_hvac_mode, get_power_state, get_mode, hp, hg]
  rcases hm with h | h | h | h | h | h <;> subst h <;> simp only [set_mode]
  · simp
  · simp [(set_mode_branch 8 true true true true s).1]
  · simp [(set_mode_branch 1 false false false true s).1]
  · simp [(set_mode_branch 2 true true true true s).1]
  · simp [(set_mode_branch 4 false false false false s).1]
  · simp [(set_mode_branch 10 false false true true s).1]

theorem C19_mode_round_trip_witness :
    get_hvac_mode (set_hvac_mode .MODE_HEAT cool_20_off) = .MODE_HEAT
      ∧ (get_power_state (set_hvac_mode .MODE_HEAT cool_20_off) = true
          ↔ AC_MODE.MODE_HEAT ≠ .MODE_OFF) :=
  C19_mode_round_trip .MODE_HEAT cool_20_off (by decide)

/-- C20. Sleep gating: after `set_mode(m)` with m Dry or Fan, `get_sleep()` is
false and `set_sleep(on)` returns false and changes nothing; after
`set_mode(m)` with m Heat, Cool or Auto, `set_sleep(on)` returns true and
`get_sleep()` then equals on. -/
theorem C20_sleep_gating (m : AC_MODE) (on_ : Bool) (s : IRDaikin) :
    ((m = .MODE_DRY ∨ m = .MODE_FAN) →
        get_sleep (set_mode m s) = false
          ∧ set_sleep on_ (set_mode m s) = (false, set_mode m s))
      ∧ ((m = .MODE_HEAT ∨ m = .MODE_COOL ∨ m = .MODE_AUTO) →
          (set_sleep on_ (set_mode m s)).1 = true
            ∧ get_sleep (set_sleep on_ (set_mode m s)).2 = on_) := by
  constructor
  · intro hm
    rcases hm with h | h <;> subst h <;> simp only [set_mode]
    · obtain ⟨_, _, _, h4, _, _, _, _, _, h10⟩ := set_mode_branch 1 false false false true s
      simp [get_sleep, set_sleep, h4, h10]
    · obtain ⟨_, _, _, h4, _, _, _, _, _, h10⟩ := set_mode_branch 4 false false false false s
      simp [get_sleep, set_sleep, h4, h10]
  · intro hm
    rcases hm with h | h | h <;> subst h <;> simp only [set_mode]
    · obtain ⟨_, _, _, h4, _⟩ := set_mode_branch 8 true true true true s
      simp [get_sleep, set_sleep, h4, IRDaikin.ac, IRDaikin64.setSleep]
    · obtain ⟨_, _, _, h4, _⟩ := set_mode_branch 2 true true true true s
      simp [get_sleep, set_sleep, h4, IRDaikin.ac, IRDaikin64.setSleep]
    · obtain ⟨_, _, _, h4, _⟩ := set_mode_branch 10 false false true true s
      simp [get_sleep, set_sleep, h4, IRDaikin.ac, IRDaikin64.setSleep]

theorem C20_sleep_gating_witness :
    get_sleep cool_sleep_turbo = true
      ∧ get_sleep (set_mode .MODE_DRY cool_sleep_turbo) = false
      ∧ set_sleep true (set_mode .MODE_DRY cool_sleep_turbo)
          = (false, set_mode .MODE_DRY cool_sleep_turbo) :=
  ⟨by decide, (C20_sleep_gating .MODE_DRY true cool_sleep_turbo).1 (by decide)⟩

/-! ### Claims about `IRDaikin` (restore at start-up) -/

/-- C23 at a failing input: `cool_20_off` is believed off; `initialize` with
the hvac-mode string "heating", which `parse_mode` does not recognise, leaves
`get_mode()` at Cool but makes the believed power on, although
`set_hvac_mode("heating")` on the same state changes nothing. -/
theorem C23_unrecognised_hvac_mode_powers_on :
    parse_mode "heating" = .MODE_UNDEFINED
      ∧ get_power_state cool_20_off = false
      ∧ get_mode cool_20_off = .MODE_COOL
      ∧ get_mode (initialize_ "heating" "cool" "medium" "medium" "off" 20 false cool_20_off)
          = .MODE_COOL
      ∧ get_power_state
          (initialize_ "heating" "cool" "medium" "medium" "off" 20 false cool_20_off) = true
      ∧ set_hvac_mode_str "heating" cool_20_off = cool_20_off := by
  decide

/-! ### Names of the enumerators -/

theorem str_eq_left {a b : String} (c : String)
    (h : esphome.str_equals_case_insensitive a b = true) :
    esphome.str_equals_case_insensitive a c = esphome.str_equals_case_insensitive b c := by
  simp only [esphome.str_equals_case_insensitive, beq_iff_eq] at h
  simp only [esphome.str_equals_case_insensitive, h]

theorem str_eq_right (a : String) {b c : String}
    (h : esphome.str_equals_case_insensitive b c = true) :
    esphome.str_equals_case_insensitive a b = esphome.str_equals_case_insensitive a c := by
  simp only [esphome.str_equals_case_insensitive, beq_iff_eq] at h
  simp only [esphome.str_equals_case_insensitive, h]

/-- The decision list of `parse_mode` on six tests of which at most one
holds. -/
theorem parse_mode_iff (str : String) (m : AC_MODE) (hm : m ≠ .MODE_UNDEFINED) :
    parse_mode str = m ↔ esphome.str_equals_case_insensitive str (mode_to_str m) = true := by
  have x1 := @str_eq_left str "OFF"
  have x2 := @str_eq_left str "AUTO"
  have x3 := @str_eq_left str "COOL"
  have x4 := @str_eq_left str "HEAT"
  have x5 := @str_eq_left str "FAN_ONLY"
  have x6 := @str_eq_left str "DRY"
  unfold parse_mode
  cases m
  · exact absurd rfl hm
  all_goals
    simp only [mode_to_str]
    first
      | rw [str_eq_right str (show esphome.str_equals_case_insensitive "dry" "DRY" = true by decide)]
      | rw [str_eq_right str (show esphome.str_equals_case_insensitive "cool" "COOL" = true by decide)]
      | rw [str_eq_right str (show esphome.str_equals_case_insensitive "fan_only" "FAN_ONLY" = true by decide)]
      | rw [str_eq_right str (show esphome.str_equals_case_insensitive "heat" "HEAT" = true by decide)]
      | rw [str_eq_right str (show esphome.str_equals_case_insensitive "auto" "AUTO" = true by decide)]
      | rw [str_eq_right str (show esphome.str_equals_case_insensitive "off" "OFF" = true by decide)]
    by_cases h1 : esphome.str_equals_case_insensitive str "OFF" = true
    · have := x1 "AUTO" h1; have := x1 "COOL" h1; have := x1 "HEAT" h1
      have := x1 "FAN_ONLY" h1; have := x1 "DRY" h1
      simp_all +decide
    · by_cases h2 : esphome.str_equals_case_insensitive str "AUTO" = true
      · have := x2 "COOL" h2; have := x2 "HEAT" h2
        have := x2 "FAN_ONLY" h2; have := x2 "DRY" h2
        simp_all +decide
      · by_cases h3 : esphome.str_equals_case_insensitive str "COOL" = true
        · have := x3 "HEAT" h3; have := x3 "FAN_ONLY" h3; have := x3 "DRY" h3
          simp_all +decide
        · by_cases h4 : esphome.str_equals_case_insensitive str "HEAT" = true
          · have := x4 "FAN_ONLY" h4; have := x4 "DRY" h4
            simp_all +decide
          · by_cases h5 : esphome.str_equals_case_insensitive str "FAN_ONLY" = true
            · have := x5 "DRY" h5
              simp_all +decide
            · by_cases h6 : esphome.str_equals_case_insensitive str "DRY" = true
              · simp_all +decide
              · simp_all +decide

/-- The decision list of `parse_fan_mode` on six tests of which at most one
holds. -/
theorem parse_fan_mode_iff (str : String) (f : FAN_MODE) (hf : f ≠ .FAN_UNDEFINED) :
    parse_fan_mode str = f
      ↔ esphome.str_equals_case_insensitive str (fan_mode_to_str f) = true := by
  have x1 := @str_eq_left str "AUTO"
  have x2 := @str_eq_left str "QUIET"
  have x3 := @str_eq_left str "LOW"
  have x4 := @str_eq_left str "MEDIUM"
  have x5 := @str_eq_left str "HIGH"
  unfold parse_fan_mode
  cases f
  · exact absurd rfl hf
  all_goals
    simp only [fan_mode_to_str]
    first
      | rw [str_eq_right str (show esphome.str_equals_case_insensitive "auto" "AUTO" = true by decide)]
      | rw [str_eq_right str (show esphome.str_equals_case_insensitive "high" "HIGH" = true by decide)]
      | rw [str_eq_right str (show esphome.str_equals_case_insensitive "turbo" "TURBO" = true by decide)]
      | rw [str_eq_right str (show esphome.str_equals_case_insensitive "medium" "MEDIUM" = true by decide)]
      | rw [str_eq_right str (show esphome.str_equals_case_insensitive "low" "LOW" = true by decide)]
      | rw [str_eq_right str (show esphome.str_equals_case_insensitive "quiet" "QUIET" = true by decide)]
    by_cases h1 : esphome.str_equals_case_insensitive str "AUTO" = true
    · have := x1 "QUIET" h1; have := x1 "LOW" h1; have := x1 "MEDIUM" h1
      have := x1 "HIGH" h1; have := x1 "TURBO" h1
      simp_all +decide
    · by_cases h2 : esphome.str_equals_case_insensitive str "QUIET" = true
      · have := x2 "LOW" h2; have := x2 "MEDIUM" h2
        have := x2 "HIGH" h2; have := x2 "TURBO" h2
        simp_all +decide
      · by_cases h3 : esphome.str_equals_case_insensitive str "LOW" = true
        · have := x3 "MEDIUM" h3; have := x3 "HIGH" h3; have := x3 "TURBO" h3
          simp_all +decide
        · by_cases h4 : esphome.str_equals_case_insensitive str "MEDIUM" = true
          · have := x4 "HIGH" h4; have := x4 "TURBO" h4
            simp_all +decide
          · by_cases h5 : esphome.str_equals_case_insensitive str "HIGH" = true
            · have := x5 "TURBO" h5
              simp_all +decide
            · by_cases h6 : esphome.str_equals_case_insensitive str "TURBO" = true
              · simp_all +decide
              · simp_all +decide

/-! ### Claims about `IRDaikin` (names) -/

/-- C37. Name round trip: `parse_mode(mode_to_str(m))` is m for every mode and
`parse_fan_mode(fan_mode_to_str(f))` is f for every fan level; a parser
returns a value other than Undefined exactly on the strings that equal the
name of that value up to case, so every other string is mapped to
Undefined. -/
theorem C37_name_round_trip (m : AC_MODE) (f : FAN_MODE) (str : String) :
    parse_mode (mode_to_str m) = m
      ∧ parse_fan_mode (fan_mode_to_str f) = f
      ∧ (m ≠ .MODE_UNDEFINED →
          (parse_mode str = m
            ↔ esphome.str_equals_case_insensitive str (mode_to_str m) = true))
      ∧ (f ≠ .FAN_UNDEFINED →
          (parse_fan_mode str = f
            ↔ esphome.str_equals_case_insensitive str (fan_mode_to_str f) = true)) :=
  ⟨by cases m <;> decide, by cases f <;> decide, parse_mode_iff str m, parse_fan_mode_iff str f⟩

theorem C37_name_round_trip_witness :
    parse_mode "Fan_Only" = .MODE_FAN ∧ parse_fan_mode "QUIET" = .FAN_QUIET
      ∧ parse_mode "fan" = .MODE_UNDEFINED :=
  ⟨((C37_name_round_trip .MODE_FAN .FAN_QUIET "Fan_Only").2.2.1 (by decide)).2 (by decide),
    ((C37_name_round_trip .MODE_FAN .FAN_QUIET "QUIET").2.2.2 (by decide)).2 (by decide),
    by decide⟩

/-! ### The fan after a change of mode -/

theorem is_fan_mode_supported_congr (f : FAN_MODE) {Y Z : IRDaikin}
    (h1 : Z.ac_.raw = Y.ac_.raw) (h2 : Z.turbo_enabled_ = Y.turbo_enabled_)
    (h3 : Z.quiet_enabled_ = Y.quiet_enabled_) :
    is_fan_mode_supported f Z = is_fan_mode_supported f Y := by
  simp [is_fan_mode_supported, IRDaikin64.getMode, h1, h2, h3]

theorem is_fan_mode_supported_DFrame (f : FAN_MODE) {Y Z : IRDaikin} (h : DFrame Y Z) :
    is_fan_mode_supported f Z = is_fan_mode_supported f Y :=
  is_fan_mode_supported_congr f h.1 h.2.2.2.2.2.2.2.1 h.2.2.2.2.2.2.2.2.1

theorem set_fan_of_unsupported (f : FAN_MODE) (Y : IRDaikin)
    (h : is_fan_mode_supported f Y = false) : (set_fan f Y).2 = Y := by
  simp [set_fan, h]

theorem get_fan_set_fan (f : FAN_MODE) (Y : IRDaikin) (hf : f ≠ .FAN_UNDEFINED)
    (h : is_fan_mode_supported f Y = true) : get_fan (set_fan f Y).2 = f := by
  cases f <;> first | exact absurd rfl hf | simp [set_fan, h, get_fan, IRDaikin.ac, IRDaikin64.setFan]

theorem prev_set_fan (f : FAN_MODE) (Y : IRDaikin) :
    (set_fan f Y).2.prev_fan_mode_ = f ∨ (set_fan f Y).2.prev_fan_mode_ = Y.prev_fan_mode_ := by
  unfold set_fan
  split
  · exact Or.inr rfl
  · cases f <;> simp [IRDaikin.ac]

/-- Setting the fan to the previous fan of a state whose fan is settled on
that level keeps it settled. -/
theorem FanSettled_set_fan_prev (f : FAN_MODE) (Y Z : IRDaikin) (hf : f ≠ .FAN_UNDEFINED)
    (hY : FanSettled f Y) (hZ : DFrame Y Z) (hp : Z.prev_fan_mode_ = Y.prev_fan_mode_) :
    FanSettled f (set_fan Z.prev_fan_mode_ Z).2 := by
  obtain ⟨_, h2, h3⟩ := hY
  have hs : is_fan_mode_supported f Z = true := by
    rw [is_fan_mode_supported_DFrame f hZ]; exact h3
  rw [hp, h2]
  refine ⟨get_fan_set_fan f Z hf hs, ?_, ?_⟩
  · rcases prev_set_fan f Z with h | h
    · exact h
    · rw [h, hp, h2]
  · rw [is_fan_mode_supported_DFrame f (DFrame_set_fan f Z)]; exact hs

/-- The state `re_initialize_fan_mode_(FAN_MEDIUM)` leaves: untouched when the
fan is supported, else settled on the previous fan or on Medium. -/
theorem re_initialize_fan_mode__cases (A : IRDaikin)
    (hprev : A.prev_fan_mode_ ≠ .FAN_UNDEFINED) :
    (is_fan_mode_supported (get_fan A) A = true ∧ re_initialize_fan_mode_ .FAN_MEDIUM A = A)
      ∨ (is_fan_mode_supported (get_fan A) A = false
          ∧ is_fan_mode_supported A.prev_fan_mode_ A = true
          ∧ FanSettled A.prev_fan_mode_ (re_initialize_fan_mode_ .FAN_MEDIUM A))
      ∨ (is_fan_mode_supported (get_fan A) A = false
          ∧ is_fan_mode_supported A.prev_fan_mode_ A = false
          ∧ FanSettled .FAN_MEDIUM (re_initialize_fan_mode_ .FAN_MEDIUM A)) := by
  have hds : is_fan_mode_supported .FAN_MEDIUM A = true := by simp [is_fan_mode_supported]
  unfold re_initialize_fan_mode_
  simp only []
  by_cases h1 : is_fan_mode_supported (get_fan A) A = true
  · left; exact ⟨h1, by simp [h1]⟩
  · have h1' : is_fan_mode_supported (get_fan A) A = false := by simpa using h1
    by_cases h2 : is_fan_mode_supported A.prev_fan_mode_ A = true
    · right; left
      refine ⟨h1', h2, ?_⟩
      simp only [h1', h2, if_true, Bool.false_eq_true, if_false]
      refine ⟨get_fan_set_fan _ A hprev h2, ?_, ?_⟩
      · rcases prev_set_fan A.prev_fan_mode_ A with h | h <;> exact h
      · rw [is_fan_mode_supported_DFrame _ (DFrame_set_fan _ A)]; exact h2
    · have h2' : is_fan_mode_supported A.prev_fan_mode_ A = false := by simpa using h2
      right; right
      refine ⟨h1', h2', ?_⟩
      simp only [h1', h2', Bool.false_eq_true, if_false]
      have hu : (set_fan .FAN_MEDIUM A).2.prev_fan_mode_ = .FAN_MEDIUM := by
        simp [set_fan, hds]
      refine ⟨get_fan_set_fan .FAN_MEDIUM A (by decide) hds, hu, ?_⟩
      rw [is_fan_mode_supported_DFrame _ (DFrame_set_fan _ A)]; exact hds

theorem FanSettled_steps (f : FAN_MODE) (B C D E : IRDaikin) (turbo quiet sleep : Bool)
    (hf : f ≠ .FAN_UNDEFINED) (hB : FanSettled f B)
    (hC : C = if B.turbo_enabled_ = false ∧ turbo = true
      then (set_fan B.prev_fan_mode_ (B.ac (IRDaikin64.setTurbo false))).2 else B)
    (hD : D = if C.quiet_enabled_ = false ∧ quiet = true
      then (set_fan C.prev_fan_mode_ (C.ac (IRDaikin64.setQuiet false))).2 else C)
    (hE : E = if D.sleep_enabled_ = false ∧ sleep = true
      then D.ac (IRDaikin64.setSleep false) else D) :
    get_fan E = f := by
  have fC : FanSettled f C := by
    rw [hC]; split
    · exact FanSettled_set_fan_prev f B (B.ac (IRDaikin64.setTurbo false)) hf hB
        (DFrame_setTurbo B false) rfl
    · exact hB
  have fD : FanSettled f D := by
    rw [hD]; split
    · exact FanSettled_set_fan_prev f C (C.ac (IRDaikin64.setQuiet false)) hf fC
        (DFrame_setQuiet C false) rfl
    · exact fC
  rw [hE]; split
  · exact fD.1
  · exact fD.1

/-- The fan that `set_constraints_` leaves, when the codec's turbo and quiet
flags say that the fan level is Turbo or Quiet: the fan as it was if the new
flags support it, else the previous fan if they support that, else Medium. -/
theorem set_constraints__fan_steps (A B C D E : IRDaikin) (turbo quiet sleep : Bool)
    (hB : B = re_initialize_fan_mode_ .FAN_MEDIUM A)
    (ht : turbo = B.ac_.turbo) (hq : quiet = B.ac_.quiet)
    (hC : C = if B.turbo_enabled_ = false ∧ turbo = true
      then (set_fan B.prev_fan_mode_ (B.ac (IRDaikin64.setTurbo false))).2 else B)
    (hD : D = if C.quiet_enabled_ = false ∧ quiet = true
      then (set_fan C.prev_fan_mode_ (C.ac (IRDaikin64.setQuiet false))).2 else C)
    (hE : E = if D.sleep_enabled_ = false ∧ sleep = true
      then D.ac (IRDaikin64.setSleep false) else D)
    (hturbo : A.ac_.turbo = decide (A.ac_.fan = 3))
    (hquiet : A.ac_.quiet = decide (A.ac_.fan = 9))
    (hprev : A.prev_fan_mode_ ≠ .FAN_UNDEFINED) :
    get_fan E
      = (if is_fan_mode_supported (get_fan A) A = true then get_fan A
        else if is_fan_mode_supported A.prev_fan_mode_ A = true then A.prev_fan_mode_
        else .FAN_MEDIUM) := by
  rcases re_initialize_fan_mode__cases A hprev with ⟨h1, e⟩ | ⟨h1, h2, hs⟩ | ⟨h1, h2, hs⟩
  · rw [e] at hB
    subst hB
    have nt : ¬ (B.turbo_enabled_ = false ∧ turbo = true) := by
      rintro ⟨a, b⟩
      rw [ht, hturbo] at b
      have hf3 : B.ac_.fan = 3 := by simpa using b
      simp [is_fan_mode_supported, get_fan, hf3, a] at h1
    have nq : ¬ (B.quiet_enabled_ = false ∧ quiet = true) := by
      rintro ⟨a, b⟩
      rw [hq, hquiet] at b
      have hf9 : B.ac_.fan = 9 := by simpa using b
      simp [is_fan_mode_supported, get_fan, hf9, a] at h1
    rw [if_neg nt] at hC
    subst hC
    rw [if_neg nq] at hD
    subst hD
    rw [if_pos h1, hE]
    split <;> rfl
  · rw [← hB] at hs
    rw [if_neg (by simp [h1]), if_pos h2]
    exact FanSettled_steps _ B C D E turbo quiet sleep hprev hs hC hD hE
  · rw [← hB] at hs
    rw [if_neg (by simp [h1]), if_neg (by simp [h2])]
    exact FanSettled_steps _ B C D E turbo quiet sleep (by decide) hs hC hD hE

theorem set_constraints__fan (tu qu sl st : Bool) (X : IRDaikin)
    (hturbo : X.ac_.turbo = decide (X.ac_.fan = 3))
    (hquiet : X.ac_.quiet = decide (X.ac_.fan = 9))
    (hprev : X.prev_fan_mode_ ≠ .FAN_UNDEFINED) :
    get_fan (set_constraints_ tu qu sl st X)
      = (if is_fan_mode_supported (get_fan X) (set_constraints_ tu qu sl st X) = true
          then get_fan X
        else if is_fan_mode_supported X.prev_fan_mode_ (set_constraints_ tu qu sl st X) = true
          then X.prev_fan_mode_
        else .FAN_MEDIUM) := by
  obtain ⟨h1, h2, _, _, h5, _⟩ := set_constraints__spec tu qu sl st X
  have e : ∀ f, is_fan_mode_supported f (set_constraints_ tu qu sl st X)
      = is_fan_mode_supported f (IRDaikin.mk X.ac_ X.power_on_ st tu qu sl X.prev_fan_mode_) :=
    fun f => is_fan_mode_supported_congr f h5 h1 h2
  rw [e, e]
  exact set_constraints__fan_steps (IRDaikin.mk X.ac_ X.power_on_ st tu qu sl X.prev_fan_mode_)
    _ _ _ _ _ _ _ rfl rfl rfl rfl rfl rfl hturbo hquiet hprev

theorem get_fan_turbo_iff (s : IRDaikin) : get_fan s = .FAN_TURBO ↔ s.ac_.fan = 3 := by
  simp only [get_fan]; constructor
  · intro h; split_ifs at h; simp_all
  · intro h; simp [h]

theorem get_fan_quiet_iff (s : IRDaikin) : get_fan s = .FAN_QUIET ↔ s.ac_.fan = 9 := by
  simp only [get_fan]; constructor
  · intro h; split_ifs at h; simp_all
  · intro h; simp [h]

/-- The previous fan stays a named level under `set_fan`. -/
theorem get_prev_fan_set_fan_named (f : FAN_MODE) (s : IRDaikin)
    (h : get_prev_fan s ≠ .FAN_UNDEFINED) : get_prev_fan (set_fan f s).2 ≠ .FAN_UNDEFINED := by
  rcases prev_set_fan f s with e | e
  · by_cases hf : f = .FAN_UNDEFINED
    · subst hf
      have : (set_fan .FAN_UNDEFINED s).2.prev_fan_mode_ = s.prev_fan_mode_ := by
        unfold set_fan
        split <;> simp [IRDaikin.ac]
      simpa [get_prev_fan, this] using h
    · simpa [get_prev_fan, e] using hf
  · simpa [get_prev_fan, e] using h

/-- After `initialize` the previous fan is a named level, whatever the
arguments and the state before. -/
theorem get_prev_fan_initialize__named (hvac_mode_str mode_str fan_mode_str prev_fan_mode_str
    swing_mode_str : String) (temp : Nat) (sleep : Bool) (s : IRDaikin) :
    get_prev_fan (initialize_ hvac_mode_str mode_str fan_mode_str prev_fan_mode_str
      swing_mode_str temp sleep s) ≠ .FAN_UNDEFINED := by
  have hsw : ∀ (w : String) (x : IRDaikin),
      (set_swing_mode_str w x).prev_fan_mode_ = x.prev_fan_mode_ := by
    intro w x
    unfold set_swing_mode_str set_swing_mode
    split_ifs <;> simp [IRDaikin.ac]
  have hsl : ∀ (b : Bool) (x : IRDaikin), (set_sleep b x).2.prev_fan_mode_ = x.prev_fan_mode_ := by
    intro b x
    unfold set_sleep
    split_ifs <;> simp [IRDaikin.ac]
  simp only [initialize_, get_prev_fan, hsl]
  split_ifs <;> simp_all [IRDaikin.ac]

/-! ### Claims about `IRDaikin` (fan after a change of mode) -/

/-- C36. Fan remap on mode change, taking the codec's turbo and quiet flags
to be the fan levels Turbo and Quiet and the previous fan to be a named
level: for m in Heat, Dry, Cool, Fan, Auto, after `set_mode(m)` the fan is as
before if m supports it, else the previous fan if m supports that, else
Medium; in every case `is_fan_mode_supported(get_fan())` holds. -/
theorem C36_fan_remap (m : AC_MODE) (s : IRDaikin)
    (hm : m = .MODE_HEAT ∨ m = .MODE_DRY ∨ m = .MODE_COOL ∨ m = .MODE_FAN ∨ m = .MODE_AUTO)
    (hturbo : s.ac_.turbo = decide (get_fan s = .FAN_TURBO))
    (hquiet : s.ac_.quiet = decide (get_fan s = .FAN_QUIET))
    (hprev : get_prev_fan s ≠ .FAN_UNDEFINED) :
    get_fan (set_mode m s)
        = (if is_fan_mode_supported (get_fan s) (set_mode m s) = true then get_fan s
          else if is_fan_mode_supported (get_prev_fan s) (set_mode m s) = true
            then get_prev_fan s
          else .FAN_MEDIUM)
      ∧ is_fan_mode_supported (get_fan (set_mode m s)) (set_mode m s) = true := by
  have key : ∀ (c : Nat) (tu qu sl st : Bool),
      get_fan (set_constraints_ tu qu sl st (set_mode_ c s))
        = (if is_fan_mode_supported (get_fan s) (set_constraints_ tu qu sl st (set_mode_ c s))
              = true then get_fan s
          else if is_fan_mode_supported (get_prev_fan s)
              (set_constraints_ tu qu sl st (set_mode_ c s)) = true then get_prev_fan s
          else .FAN_MEDIUM) := by
    intro c tu qu sl st
    have e1 : (set_mode_ c s).ac_.fan = s.ac_.fan := (set_mode__frame c s).2.1
    have e2 : (set_mode_ c s).prev_fan_mode_ = s.prev_fan_mode_ :=
      (set_mode__frame c s).2.2.2.2.2.2
    have e3 : (set_mode_ c s).ac_.turbo = s.ac_.turbo := by
      simp [set_mode_, IRDaikin.ac, IRDaikin64.setRaw]
    have e4 : (set_mode_ c s).ac_.quiet = s.ac_.quiet := by
      simp [set_mode_, IRDaikin.ac, IRDaikin64.setRaw]
    have e5 : get_fan (set_mode_ c s) = get_fan s := by simp only [get_fan, e1]
    have h := set_constraints__fan tu qu sl st (set_mode_ c s)
      (by rw [e3, e1, hturbo]; simp [get_fan_turbo_iff])
      (by rw [e4, e1, hquiet]; simp [get_fan_quiet_iff])
      (by rw [e2]; exact hprev)
    rw [e5, e2] at h
    exact h
  have fin : get_fan (set_mode m s)
        = (if is_fan_mode_supported (get_fan s) (set_mode m s) = true then get_fan s
          else if is_fan_mode_supported (get_prev_fan s) (set_mode m s) = true
            then get_prev_fan s
          else .FAN_MEDIUM) := by
    rcases hm with h | h | h | h | h <;> subst h <;> exact key _ _ _ _ _
  refine ⟨fin, ?_⟩
  rw [fin]
  split_ifs with h1 h2
  · exact h1
  · exact h2
  · simp [is_fan_mode_supported]

theorem C36_fan_remap_witness :
    get_fan (set_mode .MODE_DRY cool_sleep_turbo)
        = (if is_fan_mode_supported (get_fan cool_sleep_turbo)
              (set_mode .MODE_DRY cool_sleep_turbo) = true then get_fan cool_sleep_turbo
          else if is_fan_mode_supported (get_prev_fan cool_sleep_turbo)
              (set_mode .MODE_DRY cool_sleep_turbo) = true then get_prev_fan cool_sleep_turbo
          else .FAN_MEDIUM)
      ∧ is_fan_mode_supported (get_fan (set_mode .MODE_DRY cool_sleep_turbo))
          (set_mode .MODE_DRY cool_sleep_turbo) = true :=
  C36_fan_remap .MODE_DRY cool_sleep_turbo (by decide) (by decide) (by decide) (by decide)

/-! ### Publishing a state and restoring it -/

theorem get_fan_ne_undefined (s : IRDaikin) : get_fan s ≠ .FAN_UNDEFINED := by
  unfold get_fan
  simp only []
  split_ifs <;> simp

theorem getMode_of_get_mode (s : IRDaikin) (c : Nat) (m : AC_MODE)
    (hm : get_mode s = m)
    (hrow : (m = .MODE_HEAT ∧ c = 8) ∨ (m = .MODE_DRY ∧ c = 1) ∨ (m = .MODE_COOL ∧ c = 2)
      ∨ (m = .MODE_FAN ∧ c = 4) ∨ (m = .MODE_AUTO ∧ c = 10)) :
    s.ac_.getMode = c := by
  unfold get_mode at hm
  simp only [] at hm
  rcases hrow with ⟨h, rfl⟩ | ⟨h, rfl⟩ | ⟨h, rfl⟩ | ⟨h, rfl⟩ | ⟨h, rfl⟩ <;> subst h <;>
    split_ifs at hm <;> simp_all

/-- The tail of `initialize`: from the state `s2` that the power and mode
step left, the fan, previous fan, swing, temperature and sleep are set to the
values given, and the command word, the believed power and the power-toggle
flag stay as in `s2`. -/
theorem initialize__tail (s2 s3 s4 s5 s6 s7 : IRDaikin) (f p : FAN_MODE) (w : SWING_MODE)
    (t : Nat) (b : Bool)
    (h3 : s3 = (set_fan f s2).2)
    (h4 : s4 = { s3 with prev_fan_mode_ := p })
    (h5 : s5 = set_swing_mode w s4)
    (h6 : s6 = s5.ac (IRDaikin64.setTemp t))
    (h7 : s7 = (set_sleep b s6).2)
    (hf : f ≠ .FAN_UNDEFINED) (hsup : is_fan_mode_supported f s2 = true)
    (hb : b = true → s2.sleep_enabled_ = true)
    (hs : s2.sleep_enabled_ = false → s2.ac_.sleep = false) :
    get_fan s7 = f ∧ get_prev_fan s7 = p ∧ get_swing_mode s7 = w ∧ get_temp s7 = t
      ∧ get_sleep s7 = b ∧ s7.ac_.raw = s2.ac_.raw ∧ s7.power_on_ = s2.power_on_
      ∧ s7.ac_.powerToggle = s2.ac_.powerToggle := by
  obtain ⟨g1, g2, g3, g4, _, _, g7, g8, _, _, _, g12⟩ := set_fan_frame f s2
  have gf := get_fan_set_fan f s2 hf hsup
  rw [← h3] at g1 g2 g3 g4 g7 g8 g12 gf
  have e7 : s7 = if s2.sleep_enabled_ = false then s6 else s6.ac (IRDaikin64.setSleep b) := by
    rw [h7]
    have : s6.sleep_enabled_ = s2.sleep_enabled_ := by
      rw [h6, h5, h4]; cases w <;> exact g12
    unfold set_sleep
    rw [this]
    split <;> rfl
  have hfan : get_fan s6 = f := by
    rw [h6, h5, h4]; cases w <;> exact gf
  have hsl6 : s6.ac_.sleep = s2.ac_.sleep := by
    rw [h6, h5, h4]; cases w <;> exact g4
  have hraw : s6.ac_.raw = s2.ac_.raw := by
    rw [h6, h5, h4]; cases w <;> exact g1
  have hpw : s6.power_on_ = s2.power_on_ := by
    rw [h6, h5, h4]; cases w <;> exact g8
  have hpt : s6.ac_.powerToggle = s2.ac_.powerToggle := by
    rw [h6, h5, h4]; cases w <;> exact g7
  have hprev : s6.prev_fan_mode_ = p := by
    rw [h6, h5, h4]; cases w <;> rfl
  have hsw : get_swing_mode s6 = w := by
    rw [h6, h5, h4]; cases w <;> rfl
  have htemp : s6.ac_.temp = t := by
    rw [h6]; rfl
  rw [e7]
  by_cases hen : s2.sleep_enabled_ = false
  · rw [if_pos hen]
    refine ⟨hfan, hprev, hsw, htemp, ?_, hraw, hpw, hpt⟩
    show s6.ac_.sleep = b
    rw [hsl6, hs hen]
    cases b
    · rfl
    · rw [hb rfl] at hen; exact absurd hen (by simp)
  · rw [if_neg hen]
    exact ⟨hfan, hprev, hsw, htemp, rfl, hraw, hpw, hpt⟩

theorem is_fan_mode_supported_of_getMode (f : FAN_MODE) {Y Z : IRDaikin}
    (h1 : Z.ac_.getMode = Y.ac_.getMode) (h2 : Z.turbo_enabled_ = Y.turbo_enabled_)
    (h3 : Z.quiet_enabled_ = Y.quiet_enabled_) :
    is_fan_mode_supported f Z = is_fan_mode_supported f Y := by
  simp only [is_fan_mode_supported, h1, h2, h3]

theorem parse_mode_mode_to_str (m : AC_MODE) : parse_mode (mode_to_str m) = m := by
  cases m <;> decide

theorem parse_fan_mode_fan_mode_to_str (f : FAN_MODE) :
    parse_fan_mode (fan_mode_to_str f) = f := by
  cases f <;> decide

theorem set_swing_mode_str_swing_mode_to_str (w : SWING_MODE) (s : IRDaikin) :
    set_swing_mode_str (swing_mode_to_str w) s = set_swing_mode w s := by
  cases w <;> rfl

theorem set_hvac_mode_of_on (m : AC_MODE) (s : IRDaikin) (hm : m ≠ .MODE_OFF)
    (hp : s.power_on_ = true) : set_hvac_mode m s = set_mode m s := by
  have h := set_mode_power_on_ m s
  rw [hp] at h
  simp [set_hvac_mode, get_power_state, h, hm]

/-- What `initialize` computes on the strings and values published for A. -/
theorem initialize__of_published (A B : IRDaikin)
    (hmode : get_mode A = .MODE_HEAT ∨ get_mode A = .MODE_DRY ∨ get_mode A = .MODE_COOL
      ∨ get_mode A = .MODE_FAN ∨ get_mode A = .MODE_AUTO)
    (hprev : get_prev_fan A ≠ .FAN_UNDEFINED)
    (htemp : temp_min ≤ get_temp A ∧ get_temp A ≤ temp_max) :
    initialize_ (get_hvac_mode_str A) (get_mode_str A) (get_fan_str A) (get_prev_fan_str A)
        (get_swing_mode_str A) (get_temp A) (get_sleep A) B
      = (set_sleep (get_sleep A)
          ((set_swing_mode (get_swing_mode A)
            { (set_fan (get_fan A) (set_mode (get_mode A) (set_power_state A.power_on_ B))).2
              with prev_fan_mode_ := get_prev_fan A }).ac
            (IRDaikin64.setTemp (get_temp A)))).2 := by
  have hne : get_mode A ≠ .MODE_OFF := by
    rcases hmode with h | h | h | h | h <;> rw [h] <;> decide
  have hfu : get_fan A ≠ .FAN_UNDEFINED := get_fan_ne_undefined A
  have hstep : (if parse_mode (get_hvac_mode_str A) = .MODE_OFF then
        (if parse_mode (get_mode_str A) ≠ .MODE_OFF
            ∨ parse_mode (get_mode_str A) ≠ .MODE_UNDEFINED
          then set_mode (parse_mode (get_mode_str A)) (set_power_state false B)
          else set_power_state false B)
      else set_hvac_mode (parse_mode (get_hvac_mode_str A)) (set_power_state true B))
      = set_mode (get_mode A) (set_power_state A.power_on_ B) := by
    simp only [get_hvac_mode_str, get_mode_str, parse_mode_mode_to_str, get_hvac_mode,
      get_power_state]
    by_cases hp : A.power_on_ = true
    · simp [hp, hne, set_hvac_mode_of_on _ _ hne, set_power_state]
    · have hp' : A.power_on_ = false := by simpa using hp
      simp [hp', hne]
  unfold initialize_
  simp only []
  rw [hstep]
  simp only [get_fan_str, get_prev_fan_str, parse_fan_mode_fan_mode_to_str, set_fan_str,
    get_swing_mode_str, set_swing_mode_str_swing_mode_to_str, hfu, hprev, if_false,
    htemp, ge_iff_le, and_self, if_true]

/-- The round trip for one row of the table of `set_mode`: mode code c with
the flags tu, qu, sl, st. -/
theorem round_trip_row (A B : IRDaikin) (c : Nat) (tu qu sl st : Bool)
    (hc : A.ac_.getMode = c) (hc16 : c % 16 = c)
    (htu : A.turbo_enabled_ = tu) (hqu : A.quiet_enabled_ = qu) (hsl : A.sleep_enabled_ = sl)
    (hfan : is_fan_mode_supported (get_fan A) A = true)
    (hsleep : get_sleep A = true → sleep_allowed A = true) (R : IRDaikin)
    (hR : R = (set_sleep (get_sleep A)
          ((set_swing_mode (get_swing_mode A)
            { (set_fan (get_fan A)
                (set_constraints_ tu qu sl st (set_mode_ c (set_power_state A.power_on_ B)))).2
              with prev_fan_mode_ := get_prev_fan A }).ac
            (IRDaikin64.setTemp (get_temp A)))).2) :
    get_hvac_mode R = get_hvac_mode A ∧ get_mode R = get_mode A ∧ get_fan R = get_fan A
      ∧ get_prev_fan R = get_prev_fan A ∧ get_swing_mode R = get_swing_mode A
      ∧ get_temp R = get_temp A ∧ get_sleep R = get_sleep A
      ∧ R.ac_.powerToggle = B.ac_.powerToggle := by
  obtain ⟨b1, b2, b3, b4, _, _, _, b8, b9, b10⟩ :=
    set_mode_branch c tu qu sl st (set_power_state A.power_on_ B)
  rw [hc16] at b1
  have hsup : is_fan_mode_supported (get_fan A)
      (set_constraints_ tu qu sl st (set_mode_ c (set_power_state A.power_on_ B))) = true := by
    rw [is_fan_mode_supported_of_getMode (get_fan A) (b1.trans hc.symm) (b2.trans htu.symm)
      (b3.trans hqu.symm)]
    exact hfan
  have hb : get_sleep A = true →
      (set_constraints_ tu qu sl st
        (set_mode_ c (set_power_state A.power_on_ B))).sleep_enabled_ = true := by
    intro h
    rw [b4, ← hsl]
    exact hsleep h
  have hs : (set_constraints_ tu qu sl st
        (set_mode_ c (set_power_state A.power_on_ B))).sleep_enabled_ = false →
      (set_constraints_ tu qu sl st
        (set_mode_ c (set_power_state A.power_on_ B))).ac_.sleep = false := by
    intro h
    rw [b4] at h
    rw [b10, h]
    simp
  obtain ⟨t1, t2, t3, t4, t5, t6, t7, t8⟩ := initialize__tail _ _ _ _ _ R (get_fan A)
    (get_prev_fan A) (get_swing_mode A) (get_temp A) (get_sleep A) rfl rfl rfl rfl hR
    (get_fan_ne_undefined A) hsup hb hs
  have hmodeR : get_mode R = get_mode A := by
    have e1 : R.ac_.getMode = A.ac_.getMode := by
      unfold IRDaikin64.getMode at b1 hc ⊢
      rw [t6, b1, hc]
    simp only [get_mode, e1]
  have hpw : R.power_on_ = A.power_on_ := by
    rw [t7, b9]; rfl
  refine ⟨?_, hmodeR, t1, t2, t3, t4, t5, ?_⟩
  · simp only [get_hvac_mode, get_power_state, hpw, hmodeR]
  · rw [t8, b8]; rfl

/-- The round trip of `initialize` on the strings and values published for a
state A, from any state B. -/
theorem initialize__round_trip (A B : IRDaikin)
    (hmode : get_mode A = .MODE_HEAT ∨ get_mode A = .MODE_DRY ∨ get_mode A = .MODE_COOL
      ∨ get_mode A = .MODE_FAN ∨ get_mode A = .MODE_AUTO)
    (hcons : constraints_applied A)
    (hfan : is_fan_mode_supported (get_fan A) A = true)
    (hprev : get_prev_fan A ≠ .FAN_UNDEFINED)
    (htemp : temp_min ≤ get_temp A ∧ get_temp A ≤ temp_max)
    (hsleep : get_sleep A = true → sleep_allowed A = true) (R : IRDaikin)
    (hR : R = initialize_ (get_hvac_mode_str A) (get_mode_str A) (get_fan_str A)
      (get_prev_fan_str A) (get_swing_mode_str A) (get_temp A) (get_sleep A) B) :
    get_hvac_mode R = get_hvac_mode A ∧ get_mode R = get_mode A ∧ get_fan R = get_fan A
      ∧ get_prev_fan R = get_prev_fan A ∧ get_swing_mode R = get_swing_mode A
      ∧ get_temp R = get_temp A ∧ get_sleep R = get_sleep A
      ∧ R.ac_.powerToggle = B.ac_.powerToggle := by
  rw [initialize__of_published A B hmode hprev htemp] at hR
  unfold constraints_applied at hcons
  rcases hmode with h | h | h | h | h <;> rw [h] at hR hcons <;>
    simp only [mode_constraints, Option.some.injEq, Prod.mk.injEq] at hcons <;>
    simp only [set_mode] at hR
  · exact round_trip_row A B 8 true true true true
      (getMode_of_get_mode A 8 _ h (by simp)) (by norm_num)
      hcons.1.symm hcons.2.1.symm hcons.2.2.1.symm hfan hsleep R hR
  · exact round_trip_row A B 1 false false false true
      (getMode_of_get_mode A 1 _ h (by simp)) (by norm_num)
      hcons.1.symm hcons.2.1.symm hcons.2.2.1.symm hfan hsleep R hR
  · exact round_trip_row A B 2 true true true true
      (getMode_of_get_mode A 2 _ h (by simp)) (by norm_num)
      hcons.1.symm hcons.2.1.symm hcons.2.2.1.symm hfan hsleep R hR
  · exact round_trip_row A B 4 false false false false
      (getMode_of_get_mode A 4 _ h (by simp)) (by norm_num)
      hcons.1.symm hcons.2.1.symm hcons.2.2.1.symm hfan hsleep R hR
  · exact round_trip_row A B 10 false false true true
      (getMode_of_get_mode A 10 _ h (by simp)) (by norm_num)
      hcons.1.symm hcons.2.1.symm hcons.2.2.1.symm hfan hsleep R hR

end Daikin

namespace Tracker

/-! ### Lemmas about `PowerTracker` -/

/-- Feeding a Stable tracker its last recorded value keeps that value, the
classification, the stable value, the ready flag and the off-limit. -/
theorem set_power_same_stable (now : Nat) (v : ℚ) (t : PowerTracker)
    (hv : t.power_ = v) (hs : t.power_state_ = .STABLE) :
    (set_power now (.num v) t).power_ = v
      ∧ (set_power now (.num v) t).power_state_ = .STABLE
      ∧ (set_power now (.num v) t).stable_power_ = t.stable_power_
      ∧ (set_power now (.num v) t).initialized_ = t.initialized_
      ∧ (set_power now (.num v) t).max_power_in_off_state_ = t.max_power_in_off_state_ := by
  unfold set_power
  by_cases hi : t.initialized_ = false
  · simp [hi, hv, hs]
  · by_cases hc : change_time now t ≥ t.stable_power_timeout_
    · simp [hi, hv, hs, hc, PowerTracker.call]
    · simp [hi, hv, hs, hc]

theorem feed_same_stable (times : List Nat) (v : ℚ) (t : PowerTracker)
    (hv : t.power_ = v) (hs : t.power_state_ = .STABLE) :
    (feed (.num v) times t).power_ = v
      ∧ (feed (.num v) times t).power_state_ = .STABLE
      ∧ (feed (.num v) times t).stable_power_ = t.stable_power_
      ∧ (feed (.num v) times t).initialized_ = t.initialized_
      ∧ (feed (.num v) times t).max_power_in_off_state_ = t.max_power_in_off_state_ := by
  induction times generalizing t with
  | nil => exact ⟨hv, hs, rfl, rfl, rfl⟩
  | cons now rest ih =>
    obtain ⟨h1, h2, h3, h4, h5⟩ := set_power_same_stable now v t hv hs
    obtain ⟨g1, g2, g3, g4, g5⟩ := ih (set_power now (.num v) t) h1 h2
    exact ⟨g1, g2, g3.trans h3, g4.trans h4, g5.trans h5⟩

/-- What `set_power` does with a sample that exceeds the stable value by more
than 100. -/
theorem set_power_step_up (now : Nat) (p : ℚ) (t : PowerTracker)
    (hinit : t.initialized_ = true) (hne : p ≠ t.power_) (hstep : p - t.stable_power_ > 100) :
    (set_power now (.num p) t).power_state_ = .STABLE
      ∧ (set_power now (.num p) t).stable_power_ = p
      ∧ (set_power now (.num p) t).power_ = p
      ∧ (set_power now (.num p) t).power_callback_ = t.power_callback_ ++ [p]
      ∧ (set_power now (.num p) t).max_power_in_off_state_ = t.max_power_in_off_state_ := by
  have hne' : ¬ t.power_ = p := fun h => hne h.symm
  unfold set_power track
  by_cases hup : p > t.power_
  · simp [hinit, hne', hup, hstep, set_stable_power_, PowerTracker.call]
  · simp [hinit, hne', hup, hstep, set_stable_power_, PowerTracker.call]

/-! ### Claims about `PowerTracker` -/

/-- C24, as the code does it: for an initialized tracker, every sample that
differs from the last recorded value and exceeds the last stable value by
more than 100 + 2^-18 makes the tracker Stable at once, with stable value and
last recorded value equal to the sample, and fires the callback once with the
sample, whatever the clock reads.  The bound is the threshold 100 plus half a
unit in the last place of 100 in 32-bit `float`: above it the difference that
the source computes in `float` exceeds 100 however it is rounded. -/
theorem C24_step_up_stabilises (now : Nat) (p : ℚ) (t : PowerTracker)
    (hinit : is_initialized t = true) (hne : p ≠ t.power_)
    (hstep : p - t.stable_power_ > 100 + 1 / 2 ^ 18) :
    is_power_stable (set_power now (.num p) t) = true
      ∧ (set_power now (.num p) t).stable_power_ = p
      ∧ (set_power now (.num p) t).power_ = p
      ∧ (set_power now (.num p) t).power_callback_ = t.power_callback_ ++ [p] := by
  have hexact : p - t.stable_power_ > 100 :=
    lt_trans (lt_add_of_pos_right (100 : ℚ) (by norm_num)) hstep
  obtain ⟨h1, h2, h3, h4, _⟩ := set_power_step_up now p t hinit hne hexact
  exact ⟨by simp [is_power_stable, h1], h2, h3, h4⟩

theorem C24_step_up_stabilises_witness :
    is_power_stable (set_power 1 (.num 520) stable_400) = true
      ∧ (set_power 1 (.num 520) stable_400).stable_power_ = 520
      ∧ (set_power 1 (.num 520) stable_400).power_ = 520
      ∧ (set_power 1 (.num 520) stable_400).power_callback_
          = stable_400.power_callback_ ++ [520] :=
  C24_step_up_stabilises 1 520 stable_400 (by decide) (by decide)
    (by norm_num [stable_400, initialize_, set_stable_power_])

/-- C24 fails as stated: `stable_400` is initialized and stable at 400; the
sample 5 differs from the last recorded value and lies 395 below the stable
value, yet the tracker is not Stable afterwards and no callback fired. -/
theorem C24_step_down_not_stable :
    is_initialized stable_400 = true ∧ stable_400.power_ = 400
      ∧ stable_400.stable_power_ = 400
      ∧ is_power_stable (set_power 1 (.num 5) stable_400) = false
      ∧ (set_power 1 (.num 5) stable_400).power_state_ = .DOWN
      ∧ (set_power 1 (.num 5) stable_400).power_callback_ = [] := by
  norm_num [set_power, track, stable_400, initialize_, create, set_stable_power_,
    is_initialized, is_power_stable, PowerTracker.call, ULONG_SIZE]
  decide

/-- C25. End-to-end scenario: a tracker built with off-limit 20, seeded with 5
and fed 5 any number of times is stable at 5 and `power_on()` is false;
feeding 400 then fires the callback at once with 400, leaves the tracker
Stable with stable value 400, and `power_on()` is true.  In general
`power_on()` is true exactly when the recorded power is strictly greater than
`max_power_in_off_state`. -/
theorem C25_scenario (now0 seed_time now400 : Nat) (power0 : ℚ)
    (stable_seconds timeout_seconds : Nat) (times : List Nat) :
    power_on (feed (.num 5) times
        (initialize_ seed_time 5 (create now0 power0 stable_seconds timeout_seconds 20))) = false
      ∧ is_power_stable (feed (.num 5) times
        (initialize_ seed_time 5 (create now0 power0 stable_seconds timeout_seconds 20))) = true
      ∧ (feed (.num 5) times
        (initialize_ seed_time 5 (create now0 power0 stable_seconds timeout_seconds 20))).stable_power_
          = 5
      ∧ (set_power now400 (.num 400) (feed (.num 5) times
          (initialize_ seed_time 5 (create now0 power0 stable_seconds timeout_seconds 20)))).power_callback_
          = (feed (.num 5) times (initialize_ seed_time 5
              (create now0 power0 stable_seconds timeout_seconds 20))).power_callback_ ++ [400]
      ∧ is_power_stable (set_power now400 (.num 400) (feed (.num 5) times
          (initialize_ seed_time 5 (create now0 power0 stable_seconds timeout_seconds 20)))) = true
      ∧ (set_power now400 (.num 400) (feed (.num 5) times
          (initialize_ seed_time 5 (create now0 power0 stable_seconds timeout_seconds 20)))).stable_power_
          = 400
      ∧ power_on (set_power now400 (.num 400) (feed (.num 5) times
          (initialize_ seed_time 5 (create now0 power0 stable_seconds timeout_seconds 20)))) = true
      ∧ ∀ t : PowerTracker, power_on t = true ↔ (t.max_power_in_off_state_ : ℚ) < t.power_ := by
  obtain ⟨h1, h2, h3, h4, h5⟩ := feed_same_stable times 5
    (initialize_ seed_time 5 (create now0 power0 stable_seconds timeout_seconds 20)) rfl rfl
  generalize feed (.num 5) times
    (initialize_ seed_time 5 (create now0 power0 stable_seconds timeout_seconds 20)) = t5
    at h1 h2 h3 h4 h5 ⊢
  have h3' : t5.stable_power_ = 5 := h3
  have h4' : t5.initialized_ = true := h4
  have h5' : t5.max_power_in_off_state_ = 20 := h5
  obtain ⟨g1, g2, g3, g4, g5⟩ := set_power_step_up now400 400 t5 h4'
    (by rw [h1]; norm_num) (by rw [h3']; norm_num)
  refine ⟨?_, ?_, h3', g4, ?_, g2, ?_, ?_⟩
  · simp [power_on, h1, h5']; norm_num
  · simp [is_power_stable, h2]
  · simp [is_power_stable, g1]
  · simp [power_on, g3, g5, h5']; norm_num
  · intro t; simp [power_on]

/-- C26. Settle promotion: for an initialized tracker that is not Stable and
whose last recorded value is v, feeding v again changes nothing while the time
since the last change is below the settle duration; once that time has
reached the settle duration it fires the callback exactly once with v, makes
the tracker Stable with stable value v and zeroes the rising and falling
counters and accumulated deltas. -/
theorem C26_settle_promotion (now : Nat) (v : ℚ) (t : PowerTracker)
    (hinit : is_initialized t = true) (hns : is_power_stable t = false) (hv : t.power_ = v) :
    (change_time now t < t.power_stable_time_ → set_power now (.num v) t = t)
      ∧ (t.power_stable_time_ ≤ change_time now t →
          (set_power now (.num v) t).power_callback_ = t.power_callback_ ++ [v]
            ∧ is_power_stable (set_power now (.num v) t) = true
            ∧ (set_power now (.num v) t).stable_power_ = v
            ∧ (set_power now (.num v) t).power_ = v
            ∧ (set_power now (.num v) t).increase_count_ = 0
            ∧ (set_power now (.num v) t).increase_value_ = 0
            ∧ (set_power now (.num v) t).decrease_count_ = 0
            ∧ (set_power now (.num v) t).decrease_value_ = 0) := by
  have hi : t.initialized_ = true := hinit
  have hs : ¬ t.power_state_ = .STABLE := by simpa [is_power_stable] using hns
  constructor
  · intro h
    have h' : ¬ t.power_stable_time_ ≤ change_time now t := Nat.not_le.mpr h
    simp [set_power, hi, hv, hs, h']
  · intro h
    simp [set_power, hi, hv, hs, h, set_stable_power_, PowerTracker.call, is_power_stable]

theorem C26_settle_promotion_witness :
    set_power 60999 (.num 7) rising_7 = rising_7
      ∧ (set_power 61000 (.num 7) rising_7).power_callback_ = rising_7.power_callback_ ++ [7]
      ∧ is_power_stable (set_power 61000 (.num 7) rising_7) = true :=
  ⟨(C26_settle_promotion 60999 7 rising_7
      (by norm_num [rising_7, set_power, track, initialize_, create, set_stable_power_,
        is_initialized, ULONG_SIZE])
      (by norm_num [rising_7, set_power, track, initialize_, create, set_stable_power_,
        is_power_stable, ULONG_SIZE]; decide)
      (by norm_num [rising_7, set_power, track, initialize_, create, set_stable_power_,
        ULONG_SIZE])).1
      (by norm_num [rising_7, set_power, track, initialize_, create, set_stable_power_,
        change_time, ULONG_SIZE]),
    ((C26_settle_promotion 61000 7 rising_7
      (by norm_num [rising_7, set_power, track, initialize_, create, set_stable_power_,
        is_initialized, ULONG_SIZE])
      (by norm_num [rising_7, set_power, track, initialize_, create, set_stable_power_,
        is_power_stable, ULONG_SIZE]; decide)
      (by norm_num [rising_7, set_power, track, initialize_, create, set_stable_power_,
        ULONG_SIZE])).2
      (by norm_num [rising_7, set_power, track, initialize_, create, set_stable_power_,
        change_time, ULONG_SIZE])).1,
    ((C26_settle_promotion 61000 7 rising_7
      (by norm_num [rising_7, set_power, track, initialize_, create, set_stable_power_,
        is_initialized, ULONG_SIZE])
      (by norm_num [rising_7, set_power, track, initialize_, create, set_stable_power_,
        is_power_stable, ULONG_SIZE]; decide)
      (by norm_num [rising_7, set_power, track, initialize_, create, set_stable_power_,
        ULONG_SIZE])).2
      (by norm_num [rising_7, set_power, track, initialize_, create, set_stable_power_,
        change_time, ULONG_SIZE])).2.1⟩

/-- C27. Periodic re-confirmation: for an initialized tracker that is Stable,
feeding the last recorded value fires the callback once with that value and
resets the timer when the time since the last stabilization has reached the
re-check timeout, and changes nothing when it is below; either way the stable
value, the classification and the run counters are as before. -/
theorem C27_periodic_reconfirmation (now : Nat) (v : ℚ) (t : PowerTracker)
    (hinit : is_initialized t = true) (hs : is_power_stable t = true) (hv : t.power_ = v) :
    (t.stable_power_timeout_ ≤ change_time now t →
        (set_power now (.num v) t).power_callback_ = t.power_callback_ ++ [v]
          ∧ (set_power now (.num v) t).power_time_ = now % ULONG_SIZE)
      ∧ (change_time now t < t.stable_power_timeout_ → set_power now (.num v) t = t)
      ∧ (set_power now (.num v) t).stable_power_ = t.stable_power_
      ∧ (set_power now (.num v) t).power_ = t.power_
      ∧ (set_power now (.num v) t).power_state_ = t.power_state_
      ∧ (set_power now (.num v) t).increase_count_ = t.increase_count_
      ∧ (set_power now (.num v) t).increase_value_ = t.increase_value_
      ∧ (set_power now (.num v) t).decrease_count_ = t.decrease_count_
      ∧ (set_power now (.num v) t).decrease_value_ = t.decrease_value_ := by
  have hi : t.initialized_ = true := hinit
  have hs' : t.power_state_ = .STABLE := by simpa [is_power_stable] using hs
  by_cases h : t.stable_power_timeout_ ≤ change_time now t
  · have h' : ¬ change_time now t < t.stable_power_timeout_ := Nat.not_lt.mpr h
    simp [set_power, hi, hv, hs', h, h', PowerTracker.call]
  · have h' : change_time now t < t.stable_power_timeout_ := Nat.not_le.mp h
    simp [set_power, hi, hv, hs', h, h']

theorem C27_periodic_reconfirmation_witness :
    (set_power 300000 (.num 400) stable_400).power_callback_
        = stable_400.power_callback_ ++ [400]
      ∧ (set_power 300000 (.num 400) stable_400).power_time_ = 300000 % ULONG_SIZE
      ∧ set_power 299999 (.num 400) stable_400 = stable_400 :=
  ⟨((C27_periodic_reconfirmation 300000 400 stable_400 (by decide) (by decide)
      (by decide)).1 (by decide)).1,
    ((C27_periodic_reconfirmation 300000 400 stable_400 (by decide) (by decide)
      (by decide)).1 (by decide)).2,
    (C27_periodic_reconfirmation 299999 400 stable_400 (by decide) (by decide)
      (by decide)).2.1 (by decide)⟩

/-- C28. A tracker that is not initialized (never initialized, or reset
since), and any tracker given a sample that is not a number, is left by
`set_power` exactly as it was: no field changes and no callback fires. -/
theorem C28_set_power_ignored (now : Nat) (sample : Sample) (t : PowerTracker)
    (h : is_initialized t = false ∨ sample = .nan) : set_power now sample t = t := by
  rcases h with h | h
  · have hi : t.initialized_ = false := h
    simp [set_power, hi]
  · subst h
    unfold set_power
    split <;> rfl

theorem C28_set_power_ignored_witness :
    set_power 7 (.num 400) (reset stable_400) = reset stable_400 :=
  C28_set_power_ignored 7 (.num 400) (reset stable_400) (Or.inl (by decide))

/-- C29. The member `initialize(seed)` marks the tracker ready, sets the
stable value and the last recorded value to seed, zeroes the run counters and
fires no callback; a second `initialize(seed)` at the same clock reading
leaves the state of the first. -/
theorem C29_initialize_seeds (now : Nat) (seed : ℚ) (t : PowerTracker) :
    is_initialized (initialize_ now seed t) = true
      ∧ (initialize_ now seed t).stable_power_ = seed
      ∧ (initialize_ now seed t).power_ = seed
      ∧ (initialize_ now seed t).increase_count_ = 0
      ∧ (initialize_ now seed t).increase_value_ = 0
      ∧ (initialize_ now seed t).decrease_count_ = 0
      ∧ (initialize_ now seed t).decrease_value_ = 0
      ∧ (initialize_ now seed t).power_callback_ = t.power_callback_
      ∧ initialize_ now seed (initialize_ now seed t) = initialize_ now seed t := by
  simp [initialize_, set_stable_power_, is_initialized]

/-- C30. The member `reset()` changes only the ready flag: `is_initialized()`
becomes false, and the stable value, the last recorded value, the
classification, the timers, the run counters and the callback history are as
before. -/
theorem C30_reset_frame (t : PowerTracker) :
    is_initialized (reset t) = false
      ∧ (reset t).stable_power_ = t.stable_power_
      ∧ (reset t).power_ = t.power_
      ∧ (reset t).power_state_ = t.power_state_
      ∧ (reset t).power_time_ = t.power_time_
      ∧ (reset t).power_stable_time_ = t.power_stable_time_
      ∧ (reset t).stable_power_timeout_ = t.stable_power_timeout_
      ∧ (reset t).max_power_in_off_state_ = t.max_power_in_off_state_
      ∧ (reset t).increase_count_ = t.increase_count_
      ∧ (reset t).increase_value_ = t.increase_value_
      ∧ (reset t).decrease_count_ = t.decrease_count_
      ∧ (reset t).decrease_value_ = t.decrease_value_
      ∧ (reset t).power_callback_ = t.power_callback_ := by
  simp [reset, is_initialized]

/-! ### Invariants of `PowerTracker` -/

theorem Settled_set_stable_power_ (now : Nat) (p : ℚ) (t u : PowerTracker)
    (hc : u.power_callback_ = t.power_callback_) (hi : u.initialized_ = t.initialized_) :
    Settled p t ((set_stable_power_ now p u).call p) := by
  simp [Settled, set_stable_power_, PowerTracker.call, hc, hi]

theorem count_change_fields (p : ℚ) (t : PowerTracker) :
    (count_change p t).power_ = t.power_
      ∧ (count_change p t).stable_power_ = t.stable_power_
      ∧ (count_change p t).power_callback_ = t.power_callback_
      ∧ (count_change p t).initialized_ = t.initialized_
      ∧ (count_change p t).power_state_ ≠ .STABLE
      ∧ (count_change p t).increase_value_ - (count_change p t).decrease_value_
          = t.increase_value_ - t.decrease_value_ + (p - t.power_)
      ∧ (0 ≤ t.increase_value_ → 0 ≤ (count_change p t).increase_value_)
      ∧ (0 ≤ t.decrease_value_ → 0 ≤ (count_change p t).decrease_value_) := by
  unfold count_change
  by_cases h : p > t.power_
  · rw [if_pos h]
    refine ⟨rfl, rfl, rfl, rfl, by simp, ?_, fun h0 => ?_, fun h0 => h0⟩
    · show t.increase_value_ + (p - t.power_) - t.decrease_value_ = _
      ring
    · have : 0 < p - t.power_ := sub_pos.mpr h
      show 0 ≤ t.increase_value_ + (p - t.power_)
      linarith
  · rw [if_neg h]
    refine ⟨rfl, rfl, rfl, rfl, by simp, ?_, fun h0 => h0, fun h0 => ?_⟩
    · show t.increase_value_ - (t.decrease_value_ + (t.power_ - p)) = _
      ring
    · have : 0 ≤ t.power_ - p := sub_nonneg.mpr (not_lt.mp h)
      show 0 ≤ t.decrease_value_ + (t.power_ - p)
      linarith

theorem track_eq (now : Nat) (p : ℚ) (t : PowerTracker) :
    track now p t
      = if p - (count_change p t).stable_power_ > 100 then
          (set_stable_power_ now p (count_change p t)).call p
        else if ((count_change p t).increase_count_ + (count_change p t).decrease_count_)
              % ULONG_SIZE > 4
            ∧ (|((count_change p t).increase_count_ : ℚ) * (count_change p t).increase_value_
                  - ((count_change p t).decrease_count_ : ℚ) * (count_change p t).decrease_value_|
                = 0
              ∨ |((count_change p t).increase_count_ : ℚ) * (count_change p t).increase_value_
                  - ((count_change p t).decrease_count_ : ℚ) * (count_change p t).decrease_value_|
                = |(count_change p t).stable_power_ - p|) then
          (set_stable_power_ now p (count_change p t)).call p
        else if (count_change p t).increase_count_ > 6 then
          (set_stable_power_ now p (count_change p t)).call p
        else { count_change p t with power_ := p, power_time_ := now % ULONG_SIZE } := rfl

/-- The two ways `track` ends: settled on the sample, or tracking it with at
most 6 rising steps counted. -/
theorem track_cases (now : Nat) (p : ℚ) (t : PowerTracker) :
    Settled p t (track now p t)
      ∨ (track now p t
            = { count_change p t with power_ := p, power_time_ := now % ULONG_SIZE }
          ∧ (count_change p t).increase_count_ ≤ 6) := by
  obtain ⟨_, _, hc, hi, _⟩ := count_change_fields p t
  rw [track_eq]
  split_ifs with h1 h2 h3
  · exact Or.inl (Settled_set_stable_power_ now p t _ hc hi)
  · exact Or.inl (Settled_set_stable_power_ now p t _ hc hi)
  · exact Or.inl (Settled_set_stable_power_ now p t _ hc hi)
  · exact Or.inr ⟨rfl, Nat.not_lt.mp h3⟩

/-- The four ways `set_power` ends: nothing changed; settled on the sample;
a Stable tracker re-confirmed; or the differing sample is being tracked. -/
theorem set_power_cases (now : Nat) (sample : Sample) (t : PowerTracker) :
    set_power now sample t = t
      ∨ (∃ p, sample = .num p ∧ Settled p t (set_power now sample t))
      ∨ (∃ p, sample = .num p ∧ t.power_ = p ∧ t.power_state_ = .STABLE
          ∧ set_power now sample t = ({ t with power_time_ := now % ULONG_SIZE }).call p)
      ∨ (∃ p, sample = .num p ∧ p ≠ t.power_
          ∧ set_power now sample t
              = { count_change p t with power_ := p, power_time_ := now % ULONG_SIZE }
          ∧ (count_change p t).increase_count_ ≤ 6) := by
  unfold set_power
  by_cases hi : t.initialized_ = false
  · simp [hi]
  · cases sample with
    | nan => simp
    | num p =>
      by_cases hp : t.power_ = p
      · by_cases hs : t.power_state_ = .STABLE
        · by_cases hc : change_time now t ≥ t.stable_power_timeout_
          · right; right; left
            exact ⟨p, rfl, hp, hs, by simp [hi, hp, hs, hc]⟩
          · left; simp [hi, hp, hs, hc]
        · by_cases hc : change_time now t ≥ t.power_stable_time_
          · right; left
            refine ⟨p, rfl, ?_⟩
            simp only [hi, hp, hs, hc, if_true, if_false, ne_eq, not_true_eq_false]
            exact Settled_set_stable_power_ now p t t rfl rfl
          · left; simp [hi, hp, hs, hc]
      · have hp' : p ≠ t.power_ := fun h => hp h.symm
        simp only [hi, hp, if_false, ne_eq, not_false_eq_true, if_true]
        rcases track_cases now p t with h | ⟨h1, h2⟩
        · right; left; exact ⟨p, rfl, h⟩
        · right; right; right; exact ⟨p, rfl, hp', h1, h2⟩

theorem increase_count_set_power (now : Nat) (sample : Sample) (t : PowerTracker)
    (h : t.increase_count_ ≤ 6) : (set_power now sample t).increase_count_ ≤ 6 := by
  rcases set_power_cases now sample t with e | ⟨p, _, hs⟩ | ⟨p, _, _, _, e⟩ | ⟨p, _, _, e, h6⟩
  · rw [e]; exact h
  · rw [hs.2.2.2.2.1]; exact Nat.zero_le _
  · rw [e]; exact h
  · rw [e]; exact h6

theorem increase_count_run_ops (ops : List Op) (t : PowerTracker)
    (h : t.increase_count_ ≤ 6) : (run_ops ops t).increase_count_ ≤ 6 := by
  induction ops generalizing t with
  | nil => exact h
  | cons op ops ih =>
    refine ih _ ?_
    cases op with
    | set_power now power => exact increase_count_set_power now power t h
    | initialize_ now power => exact Nat.zero_le _
    | reset => exact h

theorem StableSettled_set_power (now : Nat) (sample : Sample) (t : PowerTracker)
    (h : StableSettled t) : StableSettled (set_power now sample t) := by
  rcases set_power_cases now sample t with e | ⟨p, _, hs⟩ | ⟨p, _, _, _, e⟩ | ⟨p, _, _, e, _⟩
  · rw [e]; exact h
  · obtain ⟨_, _, h3, h4, h5, h6, h7, h8, _⟩ := hs
    exact fun _ => ⟨h4.trans h3.symm, h5, h6, h7, h8⟩
  · rw [e]; exact h
  · rw [e]
    intro hst
    exact absurd hst (count_change_fields p t).2.2.2.2.1

theorem StableSettled_run_ops (ops : List Op) (t : PowerTracker) (h : StableSettled t) :
    StableSettled (run_ops ops t) := by
  induction ops generalizing t with
  | nil => exact h
  | cons op ops ih =>
    refine ih _ ?_
    cases op with
    | set_power now power => exact StableSettled_set_power now power t h
    | initialize_ now power => exact fun _ => ⟨rfl, rfl, rfl, rfl, rfl⟩
    | reset => exact h

theorem Accumulated_set_power (now : Nat) (sample : Sample) (t : PowerTracker)
    (h : Accumulated t) : Accumulated (set_power now sample t) := by
  rcases set_power_cases now sample t with e | ⟨p, _, hs⟩ | ⟨p, _, _, _, e⟩ | ⟨p, _, _, e, _⟩
  · rw [e]; exact h
  · obtain ⟨_, _, h3, h4, _, h6, _, h8, _⟩ := hs
    unfold Accumulated
    rw [h3, h4, h6, h8]
    simp
  · rw [e]; exact h
  · rw [e]
    obtain ⟨g1, g2, _, _, _, g6, g7, g8⟩ := count_change_fields p t
    obtain ⟨a1, a2, a3⟩ := h
    refine ⟨?_, g7 a2, g8 a3⟩
    show (count_change p t).increase_value_ - (count_change p t).decrease_value_
      = p - (count_change p t).stable_power_
    rw [g6, g2, a1]
    ring

theorem Accumulated_run_ops (ops : List Op) (t : PowerTracker) (h : Accumulated t) :
    Accumulated (run_ops ops t) := by
  induction ops generalizing t with
  | nil => exact h
  | cons op ops ih =>
    refine ih _ ?_
    cases op with
    | set_power now power => exact Accumulated_set_power now power t h
    | initialize_ now power =>
      show Accumulated (initialize_ now power t)
      simp [Accumulated, initialize_, set_stable_power_]
    | reset => exact h

/-! ### Claims about `PowerTracker` (life cycle and invariants) -/

/-- C31, as the code does it: a newly constructed tracker has classification
Unknown (`is_power_unknown()` is true, `is_power_stable()` is false);
`reset()` leaves the classification as it was. -/
theorem C31_classification_lifecycle (now : Nat) (power : ℚ)
    (stable_seconds timeout_seconds max_off : Nat) (t : PowerTracker) :
    is_power_unknown (create now power stable_seconds timeout_seconds max_off) = true
      ∧ is_power_stable (create now power stable_seconds timeout_seconds max_off) = false
      ∧ (reset t).power_state_ = t.power_state_
      ∧ is_power_unknown (reset t) = is_power_unknown t
      ∧ is_power_stable (reset t) = is_power_stable t := by
  simp [create, reset, is_power_unknown, is_power_stable]

/-- C31 fails as stated: `stable_400` is Stable, and after `reset()` it is
still Stable and not Unknown. -/
theorem C31_reset_keeps_stable :
    is_power_stable stable_400 = true ∧ is_power_stable (reset stable_400) = true
      ∧ is_power_unknown (reset stable_400) = false := by
  decide

/-- C33. Rising-run bound: on an initialized tracker a rising sample that
takes the count of rising steps above 6 makes the tracker Stable on that
sample at once and fires the callback with it; and after any sequence of
`set_power`, `initialize` and `reset` on a newly constructed tracker the count
of rising steps is at most 6. -/
theorem C33_rising_run_bound (now : Nat) (p : ℚ) (t : PowerTracker) (now0 : Nat) (power0 : ℚ)
    (stable_seconds timeout_seconds max_off : Nat) (ops : List Op) :
    (is_initialized t = true → p > t.power_ → (t.increase_count_ + 1) % ULONG_SIZE > 6 →
        is_power_stable (set_power now (.num p) t) = true
          ∧ (set_power now (.num p) t).stable_power_ = p
          ∧ (set_power now (.num p) t).power_callback_ = t.power_callback_ ++ [p]
          ∧ (set_power now (.num p) t).increase_count_ = 0)
      ∧ (run_ops ops (create now0 power0 stable_seconds timeout_seconds max_off)).increase_count_
          ≤ 6 := by
  constructor
  · intro hi hp hc
    have hi' : t.initialized_ = true := hi
    have hne : ¬ t.power_ = p := fun h => absurd hp (by rw [h]; exact lt_irrefl _)
    have e : set_power now (.num p) t = track now p t := by
      simp [set_power, hi', hne]
    rw [e]
    rcases track_cases now p t with h | ⟨_, h6⟩
    · obtain ⟨h1, h2, h3, _, h5, _⟩ := h
      exact ⟨by simp [is_power_stable, h2], h3, h1, h5⟩
    · have : (count_change p t).increase_count_ = (t.increase_count_ + 1) % ULONG_SIZE := by
        simp [count_change, hp]
      rw [this] at h6
      exact absurd hc (Nat.not_lt.mpr h6)
  · exact increase_count_run_ops ops _ (Nat.zero_le _)

theorem C33_rising_run_bound_witness :
    is_power_stable (set_power 7 (.num 407) rising_run_6) = true
      ∧ (set_power 7 (.num 407) rising_run_6).stable_power_ = 407
      ∧ (set_power 7 (.num 407) rising_run_6).power_callback_
          = rising_run_6.power_callback_ ++ [407]
      ∧ (set_power 7 (.num 407) rising_run_6).increase_count_ = 0 :=
  (C33_rising_run_bound 7 407 rising_run_6 0 0 60 300 20 []).1
    (by norm_num [rising_run_6, run_ops, Op.run, set_power, track, stable_400, initialize_,
      create, set_stable_power_, is_initialized, PowerTracker.call, ULONG_SIZE])
    (by norm_num [rising_run_6, run_ops, Op.run, set_power, track, stable_400, initialize_,
      create, set_stable_power_, is_initialized, PowerTracker.call, ULONG_SIZE])
    (by norm_num [rising_run_6, run_ops, Op.run, set_power, track, stable_400, initialize_,
      create, set_stable_power_, is_initialized, PowerTracker.call, ULONG_SIZE])

/-- C39. Callback discipline: in every state reached after `initialize` with
a numeric seed through `set_power`, `initialize` and `reset`, a call of
`set_power` fires the callback at most once; when it fires, the argument is
the sample just fed and the tracker ends the call Stable, with the stable
value and the last recorded value equal to that sample and all run counters
zero. -/
theorem C39_callback_discipline (t0 : PowerTracker) (now0 : Nat) (seed : ℚ) (ops : List Op)
    (now : Nat) (sample : Sample) :
    (set_power now sample (run_ops ops (initialize_ now0 seed t0))).power_callback_
        = (run_ops ops (initialize_ now0 seed t0)).power_callback_
      ∨ ∃ p, sample = .num p
        ∧ (set_power now sample (run_ops ops (initialize_ now0 seed t0))).power_callback_
            = (run_ops ops (initialize_ now0 seed t0)).power_callback_ ++ [p]
        ∧ is_power_stable (set_power now sample (run_ops ops (initialize_ now0 seed t0))) = true
        ∧ (set_power now sample (run_ops ops (initialize_ now0 seed t0))).stable_power_ = p
        ∧ (set_power now sample (run_ops ops (initialize_ now0 seed t0))).power_ = p
        ∧ (set_power now sample (run_ops ops (initialize_ now0 seed t0))).increase_count_ = 0
        ∧ (set_power now sample (run_ops ops (initialize_ now0 seed t0))).increase_value_ = 0
        ∧ (set_power now sample (run_ops ops (initialize_ now0 seed t0))).decrease_count_ = 0
        ∧ (set_power now sample (run_ops ops (initialize_ now0 seed t0))).decrease_value_ = 0 := by
  have hinv : StableSettled (run_ops ops (initialize_ now0 seed t0)) :=
    StableSettled_run_ops ops _ (fun _ => ⟨rfl, rfl, rfl, rfl, rfl⟩)
  generalize run_ops ops (initialize_ now0 seed t0) = t at hinv ⊢
  rcases set_power_cases now sample t with e | ⟨p, hp, hs⟩ | ⟨p, hp, h1, h2, e⟩ | ⟨p, _, _, e, _⟩
  · left; rw [e]
  · right
    obtain ⟨g1, g2, g3, g4, g5, g6, g7, g8, _⟩ := hs
    exact ⟨p, hp, g1, by simp [is_power_stable, g2], g3, g4, g5, g6, g7, g8⟩
  · right
    obtain ⟨i1, i2, i3, i4, i5⟩ := hinv h2
    rw [e]
    refine ⟨p, hp, rfl, ?_, ?_, h1, i2, i3, i4, i5⟩
    · simp [is_power_stable, PowerTracker.call, h2]
    · show t.stable_power_ = p
      rw [← i1, h1]
  · left; rw [e]; exact (count_change_fields p t).2.2.1

/-- C40. Accumulator invariant, in exact arithmetic: in every state reached
after `initialize` through `set_power`, `initialize` and `reset`, the
accumulated rising delta minus the accumulated falling delta equals the last
recorded value minus the stable value, and neither delta is negative. -/
theorem C40_accumulator_invariant (t0 : PowerTracker) (now0 : Nat) (seed : ℚ)
    (ops : List Op) :
    (run_ops ops (initialize_ now0 seed t0)).increase_value_
          - (run_ops ops (initialize_ now0 seed t0)).decrease_value_
        = (run_ops ops (initialize_ now0 seed t0)).power_
          - (run_ops ops (initialize_ now0 seed t0)).stable_power_
      ∧ 0 ≤ (run_ops ops (initialize_ now0 seed t0)).increase_value_
      ∧ 0 ≤ (run_ops ops (initialize_ now0 seed t0)).decrease_value_ :=
  Accumulated_run_ops ops _ (by simp [Accumulated, initialize_, set_stable_power_])

/-- The alternating stream on a Stable tracker with zeroed counters: the
state after the first five samples, and the state the sixth leaves. -/
theorem alternating_steps (d s : ℚ) (n1 n2 n3 n4 n5 n6 pt pst spt mo : Nat) (cb : List ℚ)
    (hd : 0 < d) (hd100 : d ≤ 100) :
    run_ops [.set_power n1 (.num (s + d)), .set_power n2 (.num s), .set_power n3 (.num (s + d)),
        .set_power n4 (.num s), .set_power n5 (.num (s + d))]
        ⟨s, pt, pst, spt, true, mo, .STABLE, cb, 0, 0, 0, 0, s⟩
      = ⟨s + d, n5 % ULONG_SIZE, pst, spt, true, mo, .UP, cb, 3, d + d + d, 2, d + d, s⟩
    ∧ set_power n6 (.num s)
        ⟨s + d, n5 % ULONG_SIZE, pst, spt, true, mo, .UP, cb, 3, d + d + d, 2, d + d, s⟩
      = ⟨s, n6 % ULONG_SIZE, pst, spt, true, mo, .STABLE, cb ++ [s], 0, 0, 0, 0, s⟩ := by
  have h1 : s < s + d := by linarith
  have h2 : ¬ s + d < s := by linarith
  have h3 : ¬ s + d = s := by linarith
  have h4 : ¬ s = s + d := by linarith
  have h5 : ¬ (100 : ℚ) < d := by linarith
  have e1 : set_power n1 (.num (s + d))
      ⟨s, pt, pst, spt, true, mo, .STABLE, cb, 0, 0, 0, 0, s⟩
      = ⟨s + d, n1 % ULONG_SIZE, pst, spt, true, mo, .UP, cb, 1, d, 0, 0, s⟩ := by
    norm_num [set_power, track, h1, h2, h3, h4, h5, ULONG_SIZE]
  have e2 : set_power n2 (.num s)
      ⟨s + d, n1 % ULONG_SIZE, pst, spt, true, mo, .UP, cb, 1, d, 0, 0, s⟩
      = ⟨s, n2 % ULONG_SIZE, pst, spt, true, mo, .DOWN, cb, 1, d, 1, d, s⟩ := by
    norm_num [set_power, track, h1, h2, h3, h4, h5, ULONG_SIZE]
  have e3 : set_power n3 (.num (s + d))
      ⟨s, n2 % ULONG_SIZE, pst, spt, true, mo, .DOWN, cb, 1, d, 1, d, s⟩
      = ⟨s + d, n3 % ULONG_SIZE, pst, spt, true, mo, .UP, cb, 2, d + d, 1, d, s⟩ := by
    norm_num [set_power, track, h1, h2, h3, h4, h5, ULONG_SIZE]
  have e4 : set_power n4 (.num s)
      ⟨s + d, n3 % ULONG_SIZE, pst, spt, true, mo, .UP, cb, 2, d + d, 1, d, s⟩
      = ⟨s, n4 % ULONG_SIZE, pst, spt, true, mo, .DOWN, cb, 2, d + d, 2, d + d, s⟩ := by
    norm_num [set_power, track, h1, h2, h3, h4, h5, ULONG_SIZE]
  have a1 : ¬ (3 * (d + d + d) - 2 * (d + d) = 0) := by intro h; linarith
  have a2 : ¬ |3 * (d + d + d) - 2 * (d + d)| = |d| := by
    rw [abs_of_pos (by linarith), abs_of_pos hd]; intro h; linarith
  have e5 : set_power n5 (.num (s + d))
      ⟨s, n4 % ULONG_SIZE, pst, spt, true, mo, .DOWN, cb, 2, d + d, 2, d + d, s⟩
      = ⟨s + d, n5 % ULONG_SIZE, pst, spt, true, mo, .UP, cb, 3, d + d + d, 2, d + d, s⟩ := by
    norm_num [set_power, track, h1, h2, h3, h4, h5, ULONG_SIZE, a1, a2]
  refine ⟨?_, ?_⟩
  · simp only [run_ops, Op.run, e1, e2, e3, e4, e5]
  · norm_num [set_power, track, h1, h2, h3, h4, h5, ULONG_SIZE, set_stable_power_,
      PowerTracker.call]

/-- C32, as the code does it: for every d with 0 < d <= 100 and every
initialized tracker that is Stable at s with zeroed counters, the five
alternating samples s+d, s, s+d, s, s+d fire no callback and leave the tracker
not Stable; the sixth sample s fires the callback with s and leaves the
tracker Stable at s, whatever the clock reads at each sample. -/
theorem C32_alternating_stream (d s : ℚ) (t : PowerTracker) (n1 n2 n3 n4 n5 n6 : Nat)
    (hd : 0 < d) (hd100 : d ≤ 100) (hi : is_initialized t = true)
    (hst : is_power_stable t = true) (hp : t.power_ = s) (hsp : t.stable_power_ = s)
    (hic : t.increase_count_ = 0) (hiv : t.increase_value_ = 0)
    (hdc : t.decrease_count_ = 0) (hdv : t.decrease_value_ = 0) :
    (run_ops [.set_power n1 (.num (s + d)), .set_power n2 (.num s),
        .set_power n3 (.num (s + d)), .set_power n4 (.num s),
        .set_power n5 (.num (s + d))] t).power_callback_ = t.power_callback_
      ∧ is_power_stable (run_ops [.set_power n1 (.num (s + d)), .set_power n2 (.num s),
        .set_power n3 (.num (s + d)), .set_power n4 (.num s),
        .set_power n5 (.num (s + d))] t) = false
      ∧ (run_ops [.set_power n1 (.num (s + d)), .set_power n2 (.num s),
        .set_power n3 (.num (s + d)), .set_power n4 (.num s),
        .set_power n5 (.num (s + d)), .set_power n6 (.num s)] t).power_callback_
          = t.power_callback_ ++ [s]
      ∧ is_power_stable (run_ops [.set_power n1 (.num (s + d)), .set_power n2 (.num s),
        .set_power n3 (.num (s + d)), .set_power n4 (.num s),
        .set_power n5 (.num (s + d)), .set_power n6 (.num s)] t) = true
      ∧ (run_ops [.set_power n1 (.num (s + d)), .set_power n2 (.num s),
        .set_power n3 (.num (s + d)), .set_power n4 (.num s),
        .set_power n5 (.num (s + d)), .set_power n6 (.num s)] t).stable_power_ = s := by
  obtain ⟨power, pt, pst, spt, init, mo, state, cb, ic, iv, dc, dv, sp⟩ := t
  simp only [is_initialized, is_power_stable, decide_eq_true_eq] at hi hst hp hsp hic hiv hdc hdv
  subst hi hst hp hsp hic hiv hdc hdv
  obtain ⟨e5, e6⟩ := alternating_steps d sp n1 n2 n3 n4 n5 n6 pt pst spt mo cb hd hd100
  have e : run_ops [.set_power n1 (.num (sp + d)), .set_power n2 (.num sp),
        .set_power n3 (.num (sp + d)), .set_power n4 (.num sp),
        .set_power n5 (.num (sp + d)), .set_power n6 (.num sp)]
        ⟨sp, pt, pst, spt, true, mo, .STABLE, cb, 0, 0, 0, 0, sp⟩
      = ⟨sp, n6 % ULONG_SIZE, pst, spt, true, mo, .STABLE, cb ++ [sp], 0, 0, 0, 0, sp⟩ := by
    simp only [run_ops, Op.run] at e5 ⊢
    rw [e5, e6]
  rw [e5, e]
  simp [is_power_stable]

theorem C32_alternating_stream_witness :
    (run_ops [.set_power 1 (.num (400 + 10)), .set_power 2 (.num 400),
        .set_power 3 (.num (400 + 10)), .set_power 4 (.num 400),
        .set_power 5 (.num (400 + 10))] stable_400).power_callback_
          = stable_400.power_callback_
      ∧ is_power_stable (run_ops [.set_power 1 (.num (400 + 10)), .set_power 2 (.num 400),
        .set_power 3 (.num (400 + 10)), .set_power 4 (.num 400),
        .set_power 5 (.num (400 + 10))] stable_400) = false
      ∧ (run_ops [.set_power 1 (.num (400 + 10)), .set_power 2 (.num 400),
        .set_power 3 (.num (400 + 10)), .set_power 4 (.num 400),
        .set_power 5 (.num (400 + 10)), .set_power 6 (.num 400)] stable_400).power_callback_
          = stable_400.power_callback_ ++ [400]
      ∧ is_power_stable (run_ops [.set_power 1 (.num (400 + 10)), .set_power 2 (.num 400),
        .set_power 3 (.num (400 + 10)), .set_power 4 (.num 400),
        .set_power 5 (.num (400 + 10)), .set_power 6 (.num 400)] stable_400) = true
      ∧ (run_ops [.set_power 1 (.num (400 + 10)), .set_power 2 (.num 400),
        .set_power 3 (.num (400 + 10)), .set_power 4 (.num 400),
        .set_power 5 (.num (400 + 10)), .set_power 6 (.num 400)] stable_400).stable_power_
          = 400 :=
  C32_alternating_stream 10 400 stable_400 1 2 3 4 5 6 (by norm_num) (by norm_num)
    (by decide) (by decide) (by decide) (by decide) (by decide) (by decide) (by decide)
    (by decide)

/-- C32 fails as stated: `stable_400` is initialized and Stable at 400 with
zeroed counters; after the five alternating samples 410, 400, 410, 400, 410
no callback has fired and the tracker is not Stable. -/
theorem C32_five_samples_not_stable :
    is_initialized stable_400 = true ∧ is_power_stable stable_400 = true
      ∧ stable_400.power_ = 400 ∧ stable_400.stable_power_ = 400
      ∧ stable_400.increase_count_ = 0 ∧ stable_400.increase_value_ = 0
      ∧ stable_400.decrease_count_ = 0 ∧ stable_400.decrease_value_ = 0
      ∧ stable_400.power_callback_ = []
      ∧ (run_ops [.set_power 1 (.num 410), .set_power 2 (.num 400), .set_power 3 (.num 410),
          .set_power 4 (.num 400), .set_power 5 (.num 410)] stable_400).power_callback_ = []
      ∧ is_power_stable (run_ops [.set_power 1 (.num 410), .set_power 2 (.num 400),
          .set_power 3 (.num 410), .set_power 4 (.num 400), .set_power 5 (.num 410)]
          stable_400) = false := by
  norm_num [run_ops, Op.run, set_power, track, stable_400, initialize_, create,
    set_stable_power_, is_initialized, is_power_stable, PowerTracker.call, ULONG_SIZE]
  decide

end Tracker

namespace Climate

/-! ### Claims about `DaikinClimateComponent` -/

theorem get_hvac_mode_ne_off (s : Daikin.IRDaikin) :
    decide (Daikin.get_hvac_mode s ≠ .MODE_OFF) = Daikin.get_power_state s := by
  unfold Daikin.get_hvac_mode
  cases hp : Daikin.get_power_state s
  · simp
  · simp only [Bool.true_eq_false, if_false, decide_eq_true_eq]
    unfold Daikin.get_mode
    simp only []
    split_ifs <;> simp

/-- C34. Power reconciliation: when the tracker's `power_on()` equals the
believed power of the model, `power_stable_callback_` changes nothing and
publishes nothing; when they differ, the believed power becomes the tracker's
`power_on()`, the state is published once, nothing is transmitted, and the
mode, fan, previous fan, temperature, swing, sleep and power-toggle flag of
the model and the tracker are as before. -/
theorem C34_power_reconciliation (power : ℚ) (c : DaikinClimateComponent) :
    (Tracker.power_on c.power_tracker_ = Daikin.get_power_state c.ir_climate_ →
        power_stable_callback_ power c = c)
      ∧ (Tracker.power_on c.power_tracker_ ≠ Daikin.get_power_state c.ir_climate_ →
          Daikin.get_power_state (power_stable_callback_ power c).ir_climate_
              = Tracker.power_on c.power_tracker_
            ∧ (power_stable_callback_ power c).published_
              = c.published_ ++ [state_message (power_stable_callback_ power c).ir_climate_]
            ∧ (power_stable_callback_ power c).sent_ = c.sent_
            ∧ Daikin.get_mode (power_stable_callback_ power c).ir_climate_
              = Daikin.get_mode c.ir_climate_
            ∧ Daikin.get_fan (power_stable_callback_ power c).ir_climate_
              = Daikin.get_fan c.ir_climate_
            ∧ Daikin.get_prev_fan (power_stable_callback_ power c).ir_climate_
              = Daikin.get_prev_fan c.ir_climate_
            ∧ Daikin.get_temp (power_stable_callback_ power c).ir_climate_
              = Daikin.get_temp c.ir_climate_
            ∧ Daikin.get_swing_mode (power_stable_callback_ power c).ir_climate_
              = Daikin.get_swing_mode c.ir_climate_
            ∧ Daikin.get_sleep (power_stable_callback_ power c).ir_climate_
              = Daikin.get_sleep c.ir_climate_
            ∧ (power_stable_callback_ power c).ir_climate_.ac_.powerToggle
              = c.ir_climate_.ac_.powerToggle
            ∧ (power_stable_callback_ power c).power_tracker_ = c.power_tracker_) := by
  unfold power_stable_callback_
  simp only [get_hvac_mode_ne_off]
  constructor
  · intro h
    simp [h]
  · intro h
    cases hs : Tracker.power_on c.power_tracker_ <;>
      cases hc : Daikin.get_power_state c.ir_climate_ <;>
      simp [hs, hc] at h ⊢ <;>
      simp [publish_state_, Daikin.set_power_state, Daikin.get_power_state, Daikin.get_mode,
        Daikin.get_fan, Daikin.get_prev_fan, Daikin.get_temp, Daikin.get_swing_mode,
        Daikin.get_sleep]

theorem C34_power_reconciliation_witness :
    Daikin.get_power_state (power_stable_callback_ 400 running_off).ir_climate_ = true
      ∧ (power_stable_callback_ 400 running_off).published_
          = [state_message (power_stable_callback_ 400 running_off).ir_climate_]
      ∧ (power_stable_callback_ 400 running_off).sent_ = []
      ∧ power_stable_callback_ 400 running = running :=
  ⟨((C34_power_reconciliation 400 running_off).2 (by decide)).1,
    ((C34_power_reconciliation 400 running_off).2 (by decide)).2.1,
    ((C34_power_reconciliation 400 running_off).2 (by decide)).2.2.1,
    (C34_power_reconciliation 400 running).1 (by decide)⟩

/-- C35 at a failing input: the component `running` has an initialized
tracker and nothing sent; the mode command "foo", which `parse_mode` does not
recognise, leaves the model as it was but resets the tracker and transmits a
frame, while the fan command "foo" on the same component transmits nothing
and leaves the tracker alone. -/
theorem C35_unrecognised_mode_command_sends :
    Daikin.parse_mode "foo" = .MODE_UNDEFINED
      ∧ Tracker.is_initialized running.power_tracker_ = true
      ∧ running.sent_ = []
      ∧ (mode_command_topic_callback "foo" running).ir_climate_ = running.ir_climate_
      ∧ Tracker.is_initialized (mode_command_topic_callback "foo" running).power_tracker_
          = false
      ∧ (mode_command_topic_callback "foo" running).sent_ = [running.ir_climate_.ac_]
      ∧ (fan_mode_command_topic_callback "foo" running).sent_ = []
      ∧ (fan_mode_command_topic_callback "foo" running).power_tracker_
          = running.power_tracker_ := by
  decide

/-- C38. Publish/restore round trip: let A be a model state in mode Heat,
Dry, Cool, Fan or Auto with the constraints of that mode applied, a fan
the mode supports, a named previous fan, a temperature within the bounds and
sleep on only if sleep is allowed.  Calling `initialize` on any state B with
the strings and values that `publish_state_` emits for A gives a state whose
hvac mode, mode, fan, previous fan, swing, temperature and sleep are those of
A, and whose power-toggle flag is that of B. -/
theorem C38_publish_restore_round_trip (A B : Daikin.IRDaikin)
    (hmode : Daikin.get_mode A = .MODE_HEAT ∨ Daikin.get_mode A = .MODE_DRY
      ∨ Daikin.get_mode A = .MODE_COOL ∨ Daikin.get_mode A = .MODE_FAN
      ∨ Daikin.get_mode A = .MODE_AUTO)
    (hcons : Daikin.constraints_applied A)
    (hfan : Daikin.is_fan_mode_supported (Daikin.get_fan A) A = true)
    (hprev : Daikin.get_prev_fan A ≠ .FAN_UNDEFINED)
    (htemp : Daikin.temp_min ≤ Daikin.get_temp A ∧ Daikin.get_temp A ≤ Daikin.temp_max)
    (hsleep : Daikin.get_sleep A = true → Daikin.sleep_allowed A = true) :
    Daikin.get_hvac_mode (Daikin.initialize_ (state_message A).hvac (state_message A).mode
        (state_message A).fm (state_message A).prev_fan_mode (state_message A).sm
        (state_message A).t (state_message A).sleep B) = Daikin.get_hvac_mode A
      ∧ Daikin.get_mode (Daikin.initialize_ (state_message A).hvac (state_message A).mode
        (state_message A).fm (state_message A).prev_fan_mode (state_message A).sm
        (state_message A).t (state_message A).sleep B) = Daikin.get_mode A
      ∧ Daikin.get_fan (Daikin.initialize_ (state_message A).hvac (state_message A).mode
        (state_message A).fm (state_message A).prev_fan_mode (state_message A).sm
        (state_message A).t (state_message A).sleep B) = Daikin.get_fan A
      ∧ Daikin.get_prev_fan (Daikin.initialize_ (state_message A).hvac (state_message A).mode
        (state_message A).fm (state_message A).prev_fan_mode (state_message A).sm
        (state_message A).t (state_message A).sleep B) = Daikin.get_prev_fan A
      ∧ Daikin.get_swing_mode (Daikin.initialize_ (state_message A).hvac
        (state_message A).mode (state_message A).fm (state_message A).prev_fan_mode
        (state_message A).sm (state_message A).t (state_message A).sleep B)
          = Daikin.get_swing_mode A
      ∧ Daikin.get_temp (Daikin.initialize_ (state_message A).hvac (state_message A).mode
        (state_message A).fm (state_message A).prev_fan_mode (state_message A).sm
        (state_message A).t (state_message A).sleep B) = Daikin.get_temp A
      ∧ Daikin.get_sleep (Daikin.initialize_ (state_message A).hvac (state_message A).mode
        (state_message A).fm (state_message A).prev_fan_mode (state_message A).sm
        (state_message A).t (state_message A).sleep B) = Daikin.get_sleep A
      ∧ (Daikin.initialize_ (state_message A).hvac (state_message A).mode
        (state_message A).fm (state_message A).prev_fan_mode (state_message A).sm
        (state_message A).t (state_message A).sleep B).ac_.powerToggle
          = B.ac_.powerToggle :=
  Daikin.initialize__round_trip A B hmode hcons hfan hprev htemp hsleep _ rfl

theorem C38_publish_restore_round_trip_witness :
    Daikin.get_hvac_mode (Daikin.initialize_ "heat" "heat" "quiet" "low" "horizontal" 22 true
        Daikin.cool_20_off) = .MODE_HEAT
      ∧ Daikin.get_fan (Daikin.initialize_ "heat" "heat" "quiet" "low" "horizontal" 22 true
        Daikin.cool_20_off) = .FAN_QUIET
      ∧ Daikin.get_prev_fan (Daikin.initialize_ "heat" "heat" "quiet" "low" "horizontal" 22
        true Daikin.cool_20_off) = .FAN_LOW
      ∧ Daikin.get_sleep (Daikin.initialize_ "heat" "heat" "quiet" "low" "horizontal" 22 true
        Daikin.cool_20_off) = true :=
  ⟨(C38_publish_restore_round_trip Daikin.heat_quiet Daikin.cool_20_off (by decide)
      (by decide) (by decide) (by decide) (by decide) (by decide)).1,
    (C38_publish_restore_round_trip Daikin.heat_quiet Daikin.cool_20_off (by decide)
      (by decide) (by decide) (by decide) (by decide) (by decide)).2.2.1,
    (C38_publish_restore_round_trip Daikin.heat_quiet Daikin.cool_20_off (by decide)
      (by decide) (by decide) (by decide) (by decide) (by decide)).2.2.2.1,
    (C38_publish_restore_round_trip Daikin.heat_quiet Daikin.cool_20_off (by decide)
      (by decide) (by decide) (by decide) (by decide) (by decide)).2.2.2.2.2.2.1⟩

end Climate
